import Mathlib

/-!
# ros_ign_bridge: the message converter (`src/convert.cpp`)

A shallow embedding of the conversion functions of `ros_ign_bridge/src/convert.cpp`
and the properties of them that the specification states.

Conventions of the embedding

* `std::string` is a list of characters (`Str`).
* `std::string::npos` is `none`: a position that may be `npos` is an `Option Nat`.
* A `void f(const Src &, Dst &)` converter is a function from the source and the
  destination as it was before the call to the destination after the call.  The
  overloads of `convert_ros_to_ign` and `convert_ign_to_ros` are told apart by the name
  of the Domain-A (ROS) message type, as in `convert_ros_to_ign_Header`.
* A converter that reads the wall clock or writes to `std::cerr` also takes and returns
  an `Env`, which holds the clock readings and the diagnostics written so far.
* A loop whose termination is not evident from its shape is run with fuel, and a call
  that does not return normally (fuel exhausted, exception thrown, undefined behaviour)
  is `none`.
* The value of an enumeration or of a `uint8` field with named constants is a natural
  number.  The named constants carry the values of the message declarations, which are
  not part of the source file; the theorems depend only on their being pairwise distinct
  and on which of them is the default (zero) value.
* Integer fields are mathematical integers; where the code multiplies 32-bit unsigned
  values the product is taken modulo `2^32`, and where it passes a value to a narrower
  or differently signed 32-bit type the value is wrapped (`to_int32`, `to_uint32`).
* A byte buffer is a list of natural numbers, a repeated field or vector a list.
* A `float` or a `double` is its bit pattern.  Where the code passes a `float` for a
  `double` or assigns a `double` to a `float` the value is converted, and the
  `float` arithmetic of the code is IEEE 754 binary32 arithmetic (section
  "Floating-point arithmetic and conversions").
-/

namespace ros_ign_bridge

/-! ## Strings -/

/-- A `std::string`: a finite sequence of characters. -/
abbrev Str := List Char

/-- Scan of `std::string::find`: the first index `i + k` such that `pat` is a prefix
of the text `k` characters further on; `none` is `npos`. -/
def find_from (pat : Str) : Str → Nat → Option Nat
  | [], i => if pat.isPrefixOf [] then some i else none
  | c :: cs, i => if pat.isPrefixOf (c :: cs) then some i else find_from pat cs (i + 1)

/-- The call `s.find(pat, pos)`: position of the first occurrence of `pat` in `s`
that starts at `pos` or later, `none` (`npos`) when there is none or `pos > s.size()`. -/
def find (s pat : Str) (pos : Nat) : Option Nat :=
  if pos ≤ s.length then find_from pat (s.drop pos) pos else none

/-- The call `s.substr(pos, count)` for `pos ≤ s.size()`: at most `count` characters
from position `pos`. -/
def substr (s : Str) (pos count : Nat) : Str :=
  (s.drop pos).take count

/-- The `while (last_pos < input.size())` loop of `replace_delimiter`, with the loop
variables `last_pos` and `output` as arguments.  One unit of fuel is spent per
evaluation of the loop condition; `none` means the fuel ran out.

When `find` returns `npos` the body appends `input.substr(last_pos, npos - last_pos)`,
which is the rest of the input, and sets `last_pos = npos`, so that the loop condition
fails and `output` is returned. -/
def replace_delimiter_loop (input old_delim new_delim : Str) : Nat → Nat → Str → Option Str
  | 0, _, _ => none
  | fuel + 1, last_pos, output =>
    if last_pos < input.length then
      match find input old_delim last_pos with
      | some pos =>
        replace_delimiter_loop input old_delim new_delim fuel (pos + old_delim.length)
          (output ++ substr input last_pos (pos - last_pos) ++ new_delim)
      | none => some (output ++ input.drop last_pos)
    else some output

/-- The function `replace_delimiter(input, old_delim, new_delim)`.  The loop is given
`input.size() + 1` units of fuel, which is enough whenever it terminates at all
(`replace_delimiter_loop_fuel` and `replace_delimiter_loop_empty_delim` below). -/
def replace_delimiter (input old_delim new_delim : Str) : Option Str :=
  replace_delimiter_loop input old_delim new_delim (input.length + 1) 0 []

/-- The function `frame_id_ign_to_ros(frame_id)`. -/
def frame_id_ign_to_ros (frame_id : Str) : Option Str :=
  replace_delimiter frame_id "::".toList "/".toList

/-! ## The delimiter translation as the specification words it -/

/-- Pieces of a text cut at every occurrence of `delim` met in a left to right scan.
`skip` counts the characters of the occurrence just met that are still to be passed
over (occurrences do not overlap); `cur` is the piece being collected. -/
def split_pieces (delim : Str) : Str → Nat → Str → List Str
  | [], _, cur => [cur]
  | _ :: cs, skip + 1, cur => split_pieces delim cs skip cur
  | c :: cs, 0, cur =>
    if delim.isPrefixOf (c :: cs) then cur :: split_pieces delim cs (delim.length - 1) []
    else split_pieces delim cs 0 (cur ++ [c])

/-- Split `input` at every left-to-right, non-overlapping occurrence of `delim`. -/
def split_on (input delim : Str) : List Str :=
  split_pieces delim input 0 []

/-- Join pieces with a separator between consecutive pieces. -/
def join_with (sep : Str) : List Str → Str
  | [] => []
  | [p] => p
  | p :: q :: ps => p ++ sep ++ join_with sep (q :: ps)

/-- The translation of the specification: split at `from_delim`, rejoin with `to_delim`. -/
def translate (input from_delim to_delim : Str) : Str :=
  join_with to_delim (split_on input from_delim)

/-- The list `pieces` cuts `input` at the occurrences of `delim` taken leftmost first and
without overlap: a single piece is the whole input and holds no occurrence of `delim`;
otherwise the input is the first piece, then `delim`, then a text that the other pieces
cut in the same way, and no occurrence of `delim` starts before the end of the first
piece. -/
def leftmost_split (delim : Str) : List Str → Str → Prop
  | [], _ => False
  | [p], input => input = p ∧ ¬ delim <:+: input
  | p :: q :: ps, input =>
    (∀ k, k < p.length → ¬ delim <+: input.drop k) ∧
    ∃ rest, input = p ++ delim ++ rest ∧ leftmost_split delim (q :: ps) rest

/-! ## Message types

The message declarations (`std_msgs`, `geometry_msgs`, `builtin_interfaces`,
`ignition::msgs`) are not part of the source file.  Each structure below lists the fields
that `convert.cpp` reads or writes; integer fields are mathematical integers and a
floating-point field is the bit pattern of the value it holds. -/

/-- A `float` (32-bit floating point, IEEE 754 binary32), represented by its bit
pattern, a number below `2^32`. -/
structure float where
  bits : Nat := 0
deriving DecidableEq, Repr

/-- A `double` (64-bit floating point, IEEE 754 binary64), represented by its bit
pattern, a number below `2^64`. -/
structure double where
  bits : Nat := 0
deriving DecidableEq, Repr

/-- Modelled from the spec: the Domain-A timestamp `builtin_interfaces::msg::Time`
(seconds, an `int32`, and the sub-second remainder, a `uint32`). -/
structure builtin_interfaces.msg.Time where
  sec : Int := 0
  nanosec : Int := 0
deriving DecidableEq, Repr

/-- Modelled from the spec: the Domain-A header, a timestamp and a frame identifier
string (`std_msgs::msg::Header`). -/
structure std_msgs.msg.Header where
  stamp : builtin_interfaces.msg.Time := {}
  frame_id : Str := []
deriving DecidableEq, Repr

/-- Modelled from the spec: the Domain-B timestamp `ignition::msgs::Time` (seconds, an
`int64`, and nanoseconds, an `int32`). -/
structure ignition.msgs.Time where
  sec : Int := 0
  nsec : Int := 0
deriving DecidableEq, Repr

/-- Modelled from the spec: one (key, list-of-string) pair of the Domain-B header
(`ignition::msgs::Header::Map`). -/
structure ignition.msgs.Header.Map where
  key : Str := []
  value : List Str := []
deriving DecidableEq, Repr

/-- Modelled from the spec: the Domain-B header, a timestamp and an ordered sequence of
(key, list-of-string) pairs (`ignition::msgs::Header`). -/
structure ignition.msgs.Header where
  stamp : ignition.msgs.Time := {}
  data : List ignition.msgs.Header.Map := []
deriving DecidableEq, Repr

/-- A `bool` field. -/
abbrev bool := Bool

/-- Modelled from the spec: `std_msgs::msg::Bool`. -/
structure std_msgs.msg.Bool where
  data : bool := false
deriving DecidableEq, Repr

/-- Modelled from the spec: `ignition::msgs::Boolean`. -/
structure ignition.msgs.Boolean where
  header : ignition.msgs.Header := {}
  data : bool := false
deriving DecidableEq, Repr

/-- Modelled from the spec: `std_msgs::msg::String`. -/
structure std_msgs.msg.String where
  data : Str := []
deriving DecidableEq, Repr

/-- Modelled from the spec: `ignition::msgs::StringMsg`. -/
structure ignition.msgs.StringMsg where
  header : ignition.msgs.Header := {}
  data : Str := []
deriving DecidableEq, Repr

/-- Modelled from the spec: `std_msgs::msg::UInt32`. -/
structure std_msgs.msg.UInt32 where
  data : Nat := 0
deriving DecidableEq, Repr

/-- Modelled from the spec: `ignition::msgs::UInt32`. -/
structure ignition.msgs.UInt32 where
  header : ignition.msgs.Header := {}
  data : Nat := 0
deriving DecidableEq, Repr

/-- Modelled from the spec: `std_msgs::msg::Int32`. -/
structure std_msgs.msg.Int32 where
  data : Int := 0
deriving DecidableEq, Repr

/-- Modelled from the spec: `ignition::msgs::Int32`. -/
structure ignition.msgs.Int32 where
  header : ignition.msgs.Header := {}
  data : Int := 0
deriving DecidableEq, Repr

/-- Modelled from the spec: `std_msgs::msg::Float32`. -/
structure std_msgs.msg.Float32 where
  data : float := {}
deriving DecidableEq, Repr

/-- Modelled from the spec: `ignition::msgs::Float`. -/
structure ignition.msgs.Float where
  header : ignition.msgs.Header := {}
  data : float := {}
deriving DecidableEq, Repr

/-- Modelled from the spec: `std_msgs::msg::Float64`. -/
structure std_msgs.msg.Float64 where
  data : double := {}
deriving DecidableEq, Repr

/-- Modelled from the spec: `ignition::msgs::Double`. -/
structure ignition.msgs.Double where
  header : ignition.msgs.Header := {}
  data : double := {}
deriving DecidableEq, Repr

/-- Modelled from the spec: `geometry_msgs::msg::Quaternion`. -/
structure geometry_msgs.msg.Quaternion where
  x : double := {}
  y : double := {}
  z : double := {}
  w : double := {}
deriving DecidableEq, Repr

/-- Modelled from the spec: `ignition::msgs::Quaternion`. -/
structure ignition.msgs.Quaternion where
  header : ignition.msgs.Header := {}
  x : double := {}
  y : double := {}
  z : double := {}
  w : double := {}
deriving DecidableEq, Repr

/-- Modelled from the spec: `geometry_msgs::msg::Vector3`. -/
structure geometry_msgs.msg.Vector3 where
  x : double := {}
  y : double := {}
  z : double := {}
deriving DecidableEq, Repr

/-- Modelled from the spec: `geometry_msgs::msg::Point`. -/
structure geometry_msgs.msg.Point where
  x : double := {}
  y : double := {}
  z : double := {}
deriving DecidableEq, Repr

/-- Modelled from the spec: `ignition::msgs::Vector3d`. -/
structure ignition.msgs.Vector3d where
  header : ignition.msgs.Header := {}
  x : double := {}
  y : double := {}
  z : double := {}
deriving DecidableEq, Repr

/-- Modelled from the spec: `geometry_msgs::msg::Pose`. -/
structure geometry_msgs.msg.Pose where
  position : geometry_msgs.msg.Point := {}
  orientation : geometry_msgs.msg.Quaternion := {}
deriving DecidableEq, Repr

/-- Modelled from the spec: `ignition::msgs::Pose`. -/
structure ignition.msgs.Pose where
  header : ignition.msgs.Header := {}
  position : ignition.msgs.Vector3d := {}
  orientation : ignition.msgs.Quaternion := {}
deriving DecidableEq, Repr

/-- Modelled from the spec: `geometry_msgs::msg::Transform`. -/
structure geometry_msgs.msg.Transform where
  translation : geometry_msgs.msg.Vector3 := {}
  rotation : geometry_msgs.msg.Quaternion := {}
deriving DecidableEq, Repr

/-- Modelled from the spec: `geometry_msgs::msg::TransformStamped`. -/
structure geometry_msgs.msg.TransformStamped where
  header : std_msgs.msg.Header := {}
  child_frame_id : Str := []
  transform : geometry_msgs.msg.Transform := {}
deriving DecidableEq, Repr

/-- Modelled from the spec: `geometry_msgs::msg::Twist`. -/
structure geometry_msgs.msg.Twist where
  linear : geometry_msgs.msg.Vector3 := {}
  angular : geometry_msgs.msg.Vector3 := {}
deriving DecidableEq, Repr

/-- Modelled from the spec: `ignition::msgs::Twist`. -/
structure ignition.msgs.Twist where
  header : ignition.msgs.Header := {}
  linear : ignition.msgs.Vector3d := {}
  angular : ignition.msgs.Vector3d := {}
deriving DecidableEq, Repr

/-- Modelled from the spec: `geometry_msgs::msg::Wrench`. -/
structure geometry_msgs.msg.Wrench where
  force : geometry_msgs.msg.Vector3 := {}
  torque : geometry_msgs.msg.Vector3 := {}
deriving DecidableEq, Repr

/-- Modelled from the spec: `ignition::msgs::Wrench`. -/
structure ignition.msgs.Wrench where
  header : ignition.msgs.Header := {}
  force : ignition.msgs.Vector3d := {}
  torque : ignition.msgs.Vector3d := {}
deriving DecidableEq, Repr

/-! ## Floating-point arithmetic and conversions

The arithmetic of the C++ types `float` and `double` is not part of the source file: it
is IEEE 754 binary32 and binary64 arithmetic in the default rounding mode (to nearest,
ties to even), an expression on `float` operands being evaluated in `float`.  The
definitions below give the operations that `convert.cpp` applies: the subtraction and
the division of two `float` values, the conversion of a `float` to `unsigned int`, and
the conversions between `float` and `double`. -/

/-- The value that a floating-point datum denotes: not a number, an infinity, or the
finite number `(-1)^negative * m * 2^e`. -/
inductive ieee_value where
  | nan : ieee_value
  | inf (negative : Bool) : ieee_value
  | finite (negative : Bool) (m : Nat) (e : Int) : ieee_value
deriving DecidableEq, Repr

/-- The value of a `float`: 1 sign bit, 8 exponent bits (bias 127), 23 fraction bits. -/
def float.value (f : float) : ieee_value :=
  let negative := decide (f.bits / 2 ^ 31 % 2 = 1)
  let e := f.bits / 2 ^ 23 % 2 ^ 8
  let m := f.bits % 2 ^ 23
  if e = 255 then (if m = 0 then ieee_value.inf negative else ieee_value.nan)
  else if e = 0 then ieee_value.finite negative m (-149)
  else ieee_value.finite negative (2 ^ 23 + m) (Int.ofNat e - 150)

/-- The value of a `double`: 1 sign bit, 11 exponent bits (bias 1023), 52 fraction
bits. -/
def double.value (d : double) : ieee_value :=
  let negative := decide (d.bits / 2 ^ 63 % 2 = 1)
  let e := d.bits / 2 ^ 52 % 2 ^ 11
  let m := d.bits % 2 ^ 52
  if e = 2047 then (if m = 0 then ieee_value.inf negative else ieee_value.nan)
  else if e = 0 then ieee_value.finite negative m (-1074)
  else ieee_value.finite negative (2 ^ 52 + m) (Int.ofNat e - 1075)

/-- The scan behind `floor_log2`: the number of halvings that bring `n` below 2, with
fuel that bounds the number of steps. -/
def floor_log2_loop : Nat → Nat → Nat
  | 0, _ => 0
  | fuel + 1, n => if n < 2 then 0 else floor_log2_loop fuel (n / 2) + 1

/-- The integer part of the binary logarithm of a positive number: for `0 < n` the `k`
with `2^k ≤ n < 2^(k+1)`. -/
def floor_log2 (n : Nat) : Nat :=
  floor_log2_loop n n

/-- The natural number `n * 2^k` for `k ≥ 0`, and `n` itself for `k < 0`. -/
def scale (n : Nat) (k : Int) : Nat :=
  n * 2 ^ k.toNat

/-- The integer `m` or `-m`. -/
def signed (negative : Bool) (m : Nat) : Int :=
  if negative then -Int.ofNat m else Int.ofNat m

/-- Rounding of the rational `num / den ≥ 0` to the nearest number that a `float` holds,
ties to the one with an even significand, and to an infinity when the rounded number
exceeds the largest finite `float`.  With `l` the integer part of the binary logarithm of
`num / den`, the result is `m * 2^q` with `q = max (l - 23) (-149)` and `m` the integer
nearest to `num / den / 2^q`. -/
def round_to_float (negative : Bool) (num den : Nat) : ieee_value :=
  if num = 0 then ieee_value.finite negative 0 (-149)
  else
    let l : Int := Int.ofNat (floor_log2 num) - Int.ofNat (floor_log2 den)
    let l : Int := if scale den l ≤ scale num (-l) then l else l - 1
    let q : Int := max (l - 23) (-149)
    let n := scale num (-q)
    let d := scale den q
    let m := n / d
    let r := n % d
    let m := if d < 2 * r ∨ (2 * r = d ∧ m % 2 = 1) then m + 1 else m
    if 104 < q ∨ (q = 104 ∧ 2 ^ 24 ≤ m) then ieee_value.inf negative
    else ieee_value.finite negative m q

/-- The `float` that holds a value produced by `round_to_float`, for reading a result of
the arithmetic as a bit pattern; a not-a-number result is the default quiet one. -/
def ieee_value.to_float : ieee_value → float
  | ieee_value.nan => { bits := 0x7FC00000 }
  | ieee_value.inf negative => { bits := (if negative then 2 ^ 31 else 0) + 0x7F800000 }
  | ieee_value.finite negative m e =>
    { bits := (if negative then 2 ^ 31 else 0) + (e + 149).toNat * 2 ^ 23 + m }

/-- The `float` subtraction `a - b`: the exact difference, rounded.  An exact zero
difference is `+0`, except that `(-0) - (+0)` is `-0`. -/
def float_sub (a b : ieee_value) : ieee_value :=
  match a, b with
  | ieee_value.nan, _ => ieee_value.nan
  | _, ieee_value.nan => ieee_value.nan
  | ieee_value.inf s, ieee_value.inf t => if s = t then ieee_value.nan else ieee_value.inf s
  | ieee_value.inf s, ieee_value.finite _ _ _ => ieee_value.inf s
  | ieee_value.finite _ _ _, ieee_value.inf t => ieee_value.inf (!t)
  | ieee_value.finite s m e, ieee_value.finite t n f =>
    let g := min e f
    let x : Int := signed s (scale m (e - g)) - signed t (scale n (f - g))
    if x = 0 then ieee_value.finite (s && !t) 0 (-149)
    else round_to_float (decide (x < 0)) (scale x.natAbs g) (scale 1 (-g))

/-- The `float` division `a / b`: the exact quotient, rounded; a non-zero number divided
by zero is an infinity, and `0 / 0` and the quotient of two infinities are not numbers. -/
def float_div (a b : ieee_value) : ieee_value :=
  match a, b with
  | ieee_value.nan, _ => ieee_value.nan
  | _, ieee_value.nan => ieee_value.nan
  | ieee_value.inf _, ieee_value.inf _ => ieee_value.nan
  | ieee_value.inf s, ieee_value.finite t _ _ => ieee_value.inf (s != t)
  | ieee_value.finite s _ _, ieee_value.inf t => ieee_value.finite (s != t) 0 (-149)
  | ieee_value.finite s m e, ieee_value.finite t n f =>
    if n = 0 then (if m = 0 then ieee_value.nan else ieee_value.inf (s != t))
    else round_to_float (s != t) (scale m (e - f)) (scale n (f - e))

/-- The conversion of a `float` value to `unsigned int`: the fractional part is
discarded, and the behaviour is undefined (`none`) when the truncated value is not one
of `0, ..., 2^32 - 1`. -/
def float_to_unsigned : ieee_value → Option Nat
  | ieee_value.nan => none
  | ieee_value.inf _ => none
  | ieee_value.finite negative m e =>
    let t := scale m e / scale 1 (-e)
    if negative then (if t = 0 then some 0 else none)
    else if t < 2 ^ 32 then some t else none

/-- The conversion of a `double` to `float`: the value rounded to the nearest `float`,
ties to the one with an even significand.  The significand `2^52 + m` of a normal
`double` loses its `shift` low bits, 29 of them or as many more as bring the exponent up
to the least exponent of a `float`; what exceeds the largest finite `float` becomes an
infinity, and a subnormal `double` becomes zero.  A not-a-number keeps its sign and the
leading 22 bits of its payload and becomes quiet. -/
def double_to_float (d : double) : float :=
  let sign := d.bits / 2 ^ 63 % 2
  let e := d.bits / 2 ^ 52 % 2 ^ 11
  let m := d.bits % 2 ^ 52
  if e = 2047 then
    if m = 0 then { bits := sign * 2 ^ 31 + 0x7F800000 }
    else { bits := sign * 2 ^ 31 + 0x7FC00000 + m % 2 ^ 51 / 2 ^ 29 }
  else if e = 0 then { bits := sign * 2 ^ 31 }
  else
    let shift := max 29 (926 - e)
    let kept := (2 ^ 52 + m) / 2 ^ shift
    let rest := (2 ^ 52 + m) % 2 ^ shift
    let rounded :=
      if 2 ^ (shift - 1) < rest ∨ (rest = 2 ^ (shift - 1) ∧ kept % 2 = 1) then kept + 1
      else kept
    { bits := sign * 2 ^ 31 + min ((e + shift - 926) * 2 ^ 23 + rounded) 0x7F800000 }

/-- The conversion of a `float` to `double`, which is exact; a not-a-number keeps its sign
and its payload and becomes quiet. -/
def float_to_double (f : float) : double :=
  match f.value with
  | ieee_value.nan =>
    { bits := f.bits / 2 ^ 31 % 2 * 2 ^ 63 + 0x7FF8000000000000 + f.bits % 2 ^ 22 * 2 ^ 29 }
  | ieee_value.inf negative => { bits := (if negative then 2 ^ 63 else 0) + 0x7FF0000000000000 }
  | ieee_value.finite negative m e =>
    if m = 0 then { bits := if negative then 2 ^ 63 else 0 }
    else
      let b := floor_log2 m
      { bits := (if negative then 2 ^ 63 else 0) + (e + Int.ofNat b + 1023).toNat * 2 ^ 52 +
          (m - 2 ^ b) * 2 ^ (52 - b) }

/-- The `float` `0.0f`. -/
def float_zero : float := { bits := 0 }

/-! ## The surroundings of a call: wall clock and diagnostic stream -/

/-- What a converter can observe or change besides its two arguments: the wall clock
(`std::chrono::system_clock::now()`, reading number `k` being `clock k`, in ticks since
the epoch), the number of readings taken so far, and the chunks written to `std::cerr`
so far, one per diagnostic. -/
structure Env where
  clock : Nat → Int
  reads : Nat := 0
  cerr : List Str := []

/-- The constant `std::chrono::system_clock::period::num` (the clock ticks in
nanoseconds: the period is `std::nano`). -/
def system_clock_period_num : Int := 1

/-- The constant `std::chrono::system_clock::period::den`. -/
def system_clock_period_den : Int := 1000000000

/-- The conversion of an integer value to `int32_t`: the value congruent to it modulo
`2^32` that lies in `[-2^31, 2^31)`. -/
def to_int32 (x : Int) : Int :=
  (x + 2147483648) % 4294967296 - 2147483648

/-- The conversion of an integer value to `uint32_t`: the value congruent to it modulo
`2^32` that lies in `[0, 2^32)`. -/
def to_uint32 (x : Int) : Int :=
  x % 4294967296

/-- The library call `rclcpp::Time(int32_t seconds, uint32_t nanoseconds)` followed by its
conversion to a `builtin_interfaces::msg::Time` (both belong to `rclcpp`, not to this
repository).  The arguments, 64-bit values at the call site, are first converted to the
parameter types `int32_t` and `uint32_t`.  The constructor throws on negative seconds
(`none`) and stores the count `seconds * 10^9 + nanoseconds`; the conversion splits that
count into seconds and a remainder in `[0, 10^9)` and stores them with
`static_cast<int32_t>` and `static_cast<uint32_t>`. -/
def rclcpp_Time (seconds nanoseconds : Int) : Option builtin_interfaces.msg.Time :=
  let seconds := to_int32 seconds
  let nanoseconds := to_uint32 nanoseconds
  if seconds < 0 then none
  else
    let rcl_time := seconds * 1000000000 + nanoseconds
    let quot := Int.tdiv rcl_time 1000000000
    let rem := Int.tmod rcl_time 1000000000
    if 0 ≤ rem then some { sec := to_int32 quot, nanosec := to_uint32 rem }
    else some { sec := to_int32 (quot - 1), nanosec := to_uint32 (1000000000 + rem) }

/-! ## Converters -/

/-- `convert_ros_to_ign(const std_msgs::msg::Bool &, ignition::msgs::Boolean &)` -/
def convert_ros_to_ign_Bool (ros_msg : std_msgs.msg.Bool) (ign_msg : ignition.msgs.Boolean) :
    ignition.msgs.Boolean :=
  { ign_msg with data := ros_msg.data }

/-- `convert_ign_to_ros(const ignition::msgs::Boolean &, std_msgs::msg::Bool &)` -/
def convert_ign_to_ros_Bool (ign_msg : ignition.msgs.Boolean) (ros_msg : std_msgs.msg.Bool) :
    std_msgs.msg.Bool :=
  { ros_msg with data := ign_msg.data }

/-- `convert_ros_to_ign(const std_msgs::msg::UInt32 &, ignition::msgs::UInt32 &)` -/
def convert_ros_to_ign_UInt32 (ros_msg : std_msgs.msg.UInt32) (ign_msg : ignition.msgs.UInt32) :
    ignition.msgs.UInt32 :=
  { ign_msg with data := ros_msg.data }

/-- `convert_ign_to_ros(const ignition::msgs::UInt32 &, std_msgs::msg::UInt32 &)` -/
def convert_ign_to_ros_UInt32 (ign_msg : ignition.msgs.UInt32) (ros_msg : std_msgs.msg.UInt32) :
    std_msgs.msg.UInt32 :=
  { ros_msg with data := ign_msg.data }

/-- `convert_ros_to_ign(const std_msgs::msg::Float32 &, ignition::msgs::Float &)` -/
def convert_ros_to_ign_Float32 (ros_msg : std_msgs.msg.Float32) (ign_msg : ignition.msgs.Float) :
    ignition.msgs.Float :=
  { ign_msg with data := ros_msg.data }

/-- `convert_ign_to_ros(const ignition::msgs::Float &, std_msgs::msg::Float32 &)` -/
def convert_ign_to_ros_Float32 (ign_msg : ignition.msgs.Float) (ros_msg : std_msgs.msg.Float32) :
    std_msgs.msg.Float32 :=
  { ros_msg with data := ign_msg.data }

/-- `convert_ros_to_ign(const std_msgs::msg::Float64 &, ignition::msgs::Double &)` -/
def convert_ros_to_ign_Float64 (ros_msg : std_msgs.msg.Float64) (ign_msg : ignition.msgs.Double) :
    ignition.msgs.Double :=
  { ign_msg with data := ros_msg.data }

/-- `convert_ign_to_ros(const ignition::msgs::Double &, std_msgs::msg::Float64 &)` -/
def convert_ign_to_ros_Float64 (ign_msg : ignition.msgs.Double) (ros_msg : std_msgs.msg.Float64) :
    std_msgs.msg.Float64 :=
  { ros_msg with data := ign_msg.data }

/-- `convert_ros_to_ign(const std_msgs::msg::Header &, ignition::msgs::Header &)`:
the two stamp setters, then `add_data()` appends a fresh pair whose key is set and to
whose value list the frame string is added.  `set_sec` takes an `int64` and receives the
`int32` field `sec` unchanged; `set_nsec` takes an `int32` and receives the `uint32` field
`nanosec`, which is converted to `int32`. -/
def convert_ros_to_ign_Header (ros_msg : std_msgs.msg.Header) (ign_msg : ignition.msgs.Header) :
    ignition.msgs.Header :=
  let ign_msg := { ign_msg with stamp := { ign_msg.stamp with sec := ros_msg.stamp.sec } }
  let ign_msg := { ign_msg with
    stamp := { ign_msg.stamp with nsec := to_int32 ros_msg.stamp.nanosec } }
  let newPair : ignition.msgs.Header.Map := {}
  let newPair := { newPair with key := "frame_id".toList }
  let newPair := { newPair with value := newPair.value ++ [ros_msg.frame_id] }
  { ign_msg with data := ign_msg.data ++ [newPair] }

/-- `convert_ros_to_ign(const std_msgs::msg::Int32 &, ignition::msgs::Int32 &)` -/
def convert_ros_to_ign_Int32 (ros_msg : std_msgs.msg.Int32) (ign_msg : ignition.msgs.Int32) :
    ignition.msgs.Int32 :=
  { ign_msg with data := ros_msg.data }

/-- `convert_ign_to_ros(const ignition::msgs::Int32 &, std_msgs::msg::Int32 &)` -/
def convert_ign_to_ros_Int32 (ign_msg : ignition.msgs.Int32) (ros_msg : std_msgs.msg.Int32) :
    std_msgs.msg.Int32 :=
  { ros_msg with data := ign_msg.data }

/-- The `for` loop of `convert_ign_to_ros(const ignition::msgs::Header &, ...)` over the
pairs `data(i)` still to visit: every pair with key `"frame_id"` and a non-empty value
list assigns `frame_id_ign_to_ros(aPair.value(0))` to `ros_msg.frame_id`, and the loop
goes on to the next pair. -/
def convert_ign_to_ros_Header_loop :
    List ignition.msgs.Header.Map → std_msgs.msg.Header → Option std_msgs.msg.Header
  | [], ros_msg => some ros_msg
  | aPair :: rest, ros_msg =>
    if h : aPair.key = "frame_id".toList ∧ 0 < aPair.value.length then
      match frame_id_ign_to_ros (aPair.value.get ⟨0, h.2⟩) with
      | some frame_id => convert_ign_to_ros_Header_loop rest { ros_msg with frame_id := frame_id }
      | none => none
    else convert_ign_to_ros_Header_loop rest ros_msg

/-- The stamp that `convert_ign_to_ros(const ignition::msgs::Header &, ...)` writes, from
the clock reading `nanosecs = dtn.count()`: `secs = nanosecs * num / den` and then
`rclcpp::Time(secs, nanosecs % secs)`.  With `secs == 0` the remainder `nanosecs % secs`
is undefined (`none`).  The two arguments are 64-bit values that `rclcpp_Time` converts
to its 32-bit parameter types: from a reading of `2^31 * 10^9` on, `secs` becomes
negative as an `int32_t` and the constructor throws. -/
def convert_ign_to_ros_Header_stamp (nanosecs : Int) : Option builtin_interfaces.msg.Time :=
  let secs := Int.tdiv (nanosecs * system_clock_period_num) system_clock_period_den
  if secs = 0 then none
  else rclcpp_Time secs (Int.tmod nanosecs secs)

/-- `convert_ign_to_ros(const ignition::msgs::Header &, std_msgs::msg::Header &)`.
The stamp is computed from a reading of the wall clock; the source stamp is not read (the
line that copied it is commented out).  Then the loop over the pairs sets the frame. -/
def convert_ign_to_ros_Header (ign_msg : ignition.msgs.Header) (ros_msg : std_msgs.msg.Header)
    (env : Env) : Option (std_msgs.msg.Header × Env) :=
  let nanosecs := env.clock env.reads
  let env := { env with reads := env.reads + 1 }
  match convert_ign_to_ros_Header_stamp nanosecs with
  | none => none
  | some stamp =>
    match convert_ign_to_ros_Header_loop ign_msg.data { ros_msg with stamp := stamp } with
    | some ros_msg => some (ros_msg, env)
    | none => none

/-- `convert_ros_to_ign(const std_msgs::msg::String &, ignition::msgs::StringMsg &)` -/
def convert_ros_to_ign_String (ros_msg : std_msgs.msg.String) (ign_msg : ignition.msgs.StringMsg) :
    ignition.msgs.StringMsg :=
  { ign_msg with data := ros_msg.data }

/-- `convert_ign_to_ros(const ignition::msgs::StringMsg &, std_msgs::msg::String &)` -/
def convert_ign_to_ros_String (ign_msg : ignition.msgs.StringMsg) (ros_msg : std_msgs.msg.String) :
    std_msgs.msg.String :=
  { ros_msg with data := ign_msg.data }

/-- `convert_ros_to_ign(const geometry_msgs::msg::Quaternion &, ignition::msgs::Quaternion &)` -/
def convert_ros_to_ign_Quaternion (ros_msg : geometry_msgs.msg.Quaternion)
    (ign_msg : ignition.msgs.Quaternion) : ignition.msgs.Quaternion :=
  let ign_msg := { ign_msg with x := ros_msg.x }
  let ign_msg := { ign_msg with y := ros_msg.y }
  let ign_msg := { ign_msg with z := ros_msg.z }
  { ign_msg with w := ros_msg.w }

/-- `convert_ign_to_ros(const ignition::msgs::Quaternion &, geometry_msgs::msg::Quaternion &)` -/
def convert_ign_to_ros_Quaternion (ign_msg : ignition.msgs.Quaternion)
    (ros_msg : geometry_msgs.msg.Quaternion) : geometry_msgs.msg.Quaternion :=
  let ros_msg := { ros_msg with x := ign_msg.x }
  let ros_msg := { ros_msg with y := ign_msg.y }
  let ros_msg := { ros_msg with z := ign_msg.z }
  { ros_msg with w := ign_msg.w }

/-- `convert_ros_to_ign(const geometry_msgs::msg::Vector3 &, ignition::msgs::Vector3d &)` -/
def convert_ros_to_ign_Vector3 (ros_msg : geometry_msgs.msg.Vector3)
    (ign_msg : ignition.msgs.Vector3d) : ignition.msgs.Vector3d :=
  let ign_msg := { ign_msg with x := ros_msg.x }
  let ign_msg := { ign_msg with y := ros_msg.y }
  { ign_msg with z := ros_msg.z }

/-- `convert_ign_to_ros(const ignition::msgs::Vector3d &, geometry_msgs::msg::Vector3 &)` -/
def convert_ign_to_ros_Vector3 (ign_msg : ignition.msgs.Vector3d)
    (ros_msg : geometry_msgs.msg.Vector3) : geometry_msgs.msg.Vector3 :=
  let ros_msg := { ros_msg with x := ign_msg.x }
  let ros_msg := { ros_msg with y := ign_msg.y }
  { ros_msg with z := ign_msg.z }

/-- `convert_ros_to_ign(const geometry_msgs::msg::Point &, ignition::msgs::Vector3d &)` -/
def convert_ros_to_ign_Point (ros_msg : geometry_msgs.msg.Point)
    (ign_msg : ignition.msgs.Vector3d) : ignition.msgs.Vector3d :=
  let ign_msg := { ign_msg with x := ros_msg.x }
  let ign_msg := { ign_msg with y := ros_msg.y }
  { ign_msg with z := ros_msg.z }

/-- `convert_ign_to_ros(const ignition::msgs::Vector3d &, geometry_msgs::msg::Point &)` -/
def convert_ign_to_ros_Point (ign_msg : ignition.msgs.Vector3d)
    (ros_msg : geometry_msgs.msg.Point) : geometry_msgs.msg.Point :=
  let ros_msg := { ros_msg with x := ign_msg.x }
  let ros_msg := { ros_msg with y := ign_msg.y }
  { ros_msg with z := ign_msg.z }

/-- `convert_ros_to_ign(const geometry_msgs::msg::Pose &, ignition::msgs::Pose &)` -/
def convert_ros_to_ign_Pose (ros_msg : geometry_msgs.msg.Pose) (ign_msg : ignition.msgs.Pose) :
    ignition.msgs.Pose :=
  let ign_msg := { ign_msg with position := convert_ros_to_ign_Point ros_msg.position ign_msg.position }
  { ign_msg with
    orientation := convert_ros_to_ign_Quaternion ros_msg.orientation ign_msg.orientation }

/-- `convert_ign_to_ros(const ignition::msgs::Pose &, geometry_msgs::msg::Pose &)` -/
def convert_ign_to_ros_Pose (ign_msg : ignition.msgs.Pose) (ros_msg : geometry_msgs.msg.Pose) :
    geometry_msgs.msg.Pose :=
  let ros_msg := { ros_msg with position := convert_ign_to_ros_Point ign_msg.position ros_msg.position }
  { ros_msg with
    orientation := convert_ign_to_ros_Quaternion ign_msg.orientation ros_msg.orientation }

/-- `convert_ros_to_ign(const geometry_msgs::msg::Transform &, ignition::msgs::Pose &)` -/
def convert_ros_to_ign_Transform (ros_msg : geometry_msgs.msg.Transform)
    (ign_msg : ignition.msgs.Pose) : ignition.msgs.Pose :=
  let ign_msg := { ign_msg with
    position := convert_ros_to_ign_Vector3 ros_msg.translation ign_msg.position }
  { ign_msg with
    orientation := convert_ros_to_ign_Quaternion ros_msg.rotation ign_msg.orientation }

/-- `convert_ign_to_ros(const ignition::msgs::Pose &, geometry_msgs::msg::Transform &)` -/
def convert_ign_to_ros_Transform (ign_msg : ignition.msgs.Pose)
    (ros_msg : geometry_msgs.msg.Transform) : geometry_msgs.msg.Transform :=
  let ros_msg := { ros_msg with
    translation := convert_ign_to_ros_Vector3 ign_msg.position ros_msg.translation }
  { ros_msg with rotation := convert_ign_to_ros_Quaternion ign_msg.orientation ros_msg.rotation }

/-- `convert_ros_to_ign(const geometry_msgs::msg::TransformStamped &, ignition::msgs::Pose &)`:
header, transform, then a `"child_frame_id"` pair added to the header. -/
def convert_ros_to_ign_TransformStamped (ros_msg : geometry_msgs.msg.TransformStamped)
    (ign_msg : ignition.msgs.Pose) : ignition.msgs.Pose :=
  let ign_msg := { ign_msg with header := convert_ros_to_ign_Header ros_msg.header ign_msg.header }
  let ign_msg := convert_ros_to_ign_Transform ros_msg.transform ign_msg
  let newPair : ignition.msgs.Header.Map := {}
  let newPair := { newPair with key := "child_frame_id".toList }
  let newPair := { newPair with value := newPair.value ++ [ros_msg.child_frame_id] }
  { ign_msg with header := { ign_msg.header with data := ign_msg.header.data ++ [newPair] } }

/-- The `for` loop of `convert_ign_to_ros(const ignition::msgs::Pose &,
geometry_msgs::msg::TransformStamped &)` over the header pairs still to visit: the first
pair with key `"child_frame_id"` and a non-empty value list assigns
`frame_id_ign_to_ros(aPair.value(0))` to `child_frame_id` and the loop is left (`break`). -/
def convert_ign_to_ros_TransformStamped_loop :
    List ignition.msgs.Header.Map → Str → Option Str
  | [], child_frame_id => some child_frame_id
  | aPair :: rest, child_frame_id =>
    if h : aPair.key = "child_frame_id".toList ∧ 0 < aPair.value.length then
      frame_id_ign_to_ros (aPair.value.get ⟨0, h.2⟩)
    else convert_ign_to_ros_TransformStamped_loop rest child_frame_id

/-- `convert_ign_to_ros(const ignition::msgs::Pose &, geometry_msgs::msg::TransformStamped &)` -/
def convert_ign_to_ros_TransformStamped (ign_msg : ignition.msgs.Pose)
    (ros_msg : geometry_msgs.msg.TransformStamped) (env : Env) :
    Option (geometry_msgs.msg.TransformStamped × Env) :=
  match convert_ign_to_ros_Header ign_msg.header ros_msg.header env with
  | none => none
  | some (header, env) =>
    let ros_msg := { ros_msg with header := header }
    let ros_msg := { ros_msg with
      transform := convert_ign_to_ros_Transform ign_msg ros_msg.transform }
    match convert_ign_to_ros_TransformStamped_loop ign_msg.header.data ros_msg.child_frame_id with
    | some child_frame_id => some ({ ros_msg with child_frame_id := child_frame_id }, env)
    | none => none

/-- `convert_ros_to_ign(const geometry_msgs::msg::Twist &, ignition::msgs::Twist &)` -/
def convert_ros_to_ign_Twist (ros_msg : geometry_msgs.msg.Twist) (ign_msg : ignition.msgs.Twist) :
    ignition.msgs.Twist :=
  let ign_msg := { ign_msg with linear := convert_ros_to_ign_Vector3 ros_msg.linear ign_msg.linear }
  { ign_msg with angular := convert_ros_to_ign_Vector3 ros_msg.angular ign_msg.angular }

/-- `convert_ign_to_ros(const ignition::msgs::Twist &, geometry_msgs::msg::Twist &)` -/
def convert_ign_to_ros_Twist (ign_msg : ignition.msgs.Twist) (ros_msg : geometry_msgs.msg.Twist) :
    geometry_msgs.msg.Twist :=
  let ros_msg := { ros_msg with linear := convert_ign_to_ros_Vector3 ign_msg.linear ros_msg.linear }
  { ros_msg with angular := convert_ign_to_ros_Vector3 ign_msg.angular ros_msg.angular }

/-- `convert_ros_to_ign(const geometry_msgs::msg::Wrench &, ignition::msgs::Wrench &)` -/
def convert_ros_to_ign_Wrench (ros_msg : geometry_msgs.msg.Wrench)
    (ign_msg : ignition.msgs.Wrench) : ignition.msgs.Wrench :=
  let ign_msg := { ign_msg with force := convert_ros_to_ign_Vector3 ros_msg.force ign_msg.force }
  { ign_msg with torque := convert_ros_to_ign_Vector3 ros_msg.torque ign_msg.torque }

/-- `convert_ign_to_ros(const ignition::msgs::Wrench &, geometry_msgs::msg::Wrench &)` -/
def convert_ign_to_ros_Wrench (ign_msg : ignition.msgs.Wrench)
    (ros_msg : geometry_msgs.msg.Wrench) : geometry_msgs.msg.Wrench :=
  let ros_msg := { ros_msg with force := convert_ign_to_ros_Vector3 ign_msg.force ros_msg.force }
  { ros_msg with torque := convert_ign_to_ros_Vector3 ign_msg.torque ros_msg.torque }

/-! ## Buffers and sequences -/

/-- The call `v.resize(n)` of a `std::vector` or `std::string`: the first `n` elements
are kept and the new elements, if any, are `fill` (the value-initialised element). -/
def resize {α : Type} (v : List α) (n : Nat) (fill : α) : List α :=
  v.take n ++ List.replicate (n - v.length) fill

/-- The call `memcpy(dst, src, n)` on two buffers that both hold at least `n` bytes: the
first `n` bytes of `dst` become the first `n` bytes of `src`. -/
def memcpy (dst src : List Nat) (n : Nat) : List Nat :=
  src.take n ++ dst.drop n

/-- The call `std::copy(src.begin() + first, src.begin() + last, dst.begin())`: the
elements `src[first], ..., src[last - 1]` overwrite the start of `dst`.  Reading past
the end of `src` or writing past the end of `dst` is undefined (`none`). -/
def std_copy {α : Type} (src : List α) (first last : Nat) (dst : List α) : Option (List α) :=
  if first ≤ last ∧ last ≤ src.length ∧ last - first ≤ dst.length then
    some ((src.drop first).take (last - first) ++ dst.drop (last - first))
  else none

/-- What `std::cerr << value` writes for an integer or enumeration value: its decimal
digits. -/
def print_int (value : Nat) : Str :=
  (Nat.repr value).toList

/-- What `std::cerr << value` writes for a `uint8_t` value: the one character with that
code (`uint8_t` is a character type). -/
def print_uint8 (value : Nat) : Str :=
  [Char.ofNat value]

/-! ## Entities -/

/-- Modelled from the spec: `ros_ign_interfaces::msg::Entity`, the Domain-A entity
(`id`, `name` and the `uint8` field `type`). -/
structure ros_ign_interfaces.msg.Entity where
  id : Nat := 0
  name : Str := []
  type : Nat := 0
deriving DecidableEq, Repr

/-- Modelled from the spec: the constant `ros_ign_interfaces::msg::Entity::NONE`. -/
def ros_ign_interfaces.msg.Entity.NONE : Nat := 0
/-- Modelled from the spec: the constant `ros_ign_interfaces::msg::Entity::LIGHT`. -/
def ros_ign_interfaces.msg.Entity.LIGHT : Nat := 1
/-- Modelled from the spec: the constant `ros_ign_interfaces::msg::Entity::MODEL`. -/
def ros_ign_interfaces.msg.Entity.MODEL : Nat := 2
/-- Modelled from the spec: the constant `ros_ign_interfaces::msg::Entity::LINK`. -/
def ros_ign_interfaces.msg.Entity.LINK : Nat := 3
/-- Modelled from the spec: the constant `ros_ign_interfaces::msg::Entity::VISUAL`. -/
def ros_ign_interfaces.msg.Entity.VISUAL : Nat := 4
/-- Modelled from the spec: the constant `ros_ign_interfaces::msg::Entity::COLLISION`. -/
def ros_ign_interfaces.msg.Entity.COLLISION : Nat := 5
/-- Modelled from the spec: the constant `ros_ign_interfaces::msg::Entity::SENSOR`. -/
def ros_ign_interfaces.msg.Entity.SENSOR : Nat := 6
/-- Modelled from the spec: the constant `ros_ign_interfaces::msg::Entity::JOINT`. -/
def ros_ign_interfaces.msg.Entity.JOINT : Nat := 7

/-- Modelled from the spec: `ignition::msgs::Entity`, the Domain-B entity; `type` holds
a value of the enumeration `ignition::msgs::Entity::Type`, whose default is `NONE`. -/
structure ignition.msgs.Entity where
  id : Nat := 0
  name : Str := []
  type : Nat := 0
deriving DecidableEq, Repr

/-- Modelled from the spec: the enumerator `ignition::msgs::Entity::NONE`. -/
def ignition.msgs.Entity.NONE : Nat := 0
/-- Modelled from the spec: the enumerator `ignition::msgs::Entity::LIGHT`. -/
def ignition.msgs.Entity.LIGHT : Nat := 1
/-- Modelled from the spec: the enumerator `ignition::msgs::Entity::MODEL`. -/
def ignition.msgs.Entity.MODEL : Nat := 2
/-- Modelled from the spec: the enumerator `ignition::msgs::Entity::LINK`. -/
def ignition.msgs.Entity.LINK : Nat := 3
/-- Modelled from the spec: the enumerator `ignition::msgs::Entity::VISUAL`. -/
def ignition.msgs.Entity.VISUAL : Nat := 4
/-- Modelled from the spec: the enumerator `ignition::msgs::Entity::COLLISION`. -/
def ignition.msgs.Entity.COLLISION : Nat := 5
/-- Modelled from the spec: the enumerator `ignition::msgs::Entity::SENSOR`. -/
def ignition.msgs.Entity.SENSOR : Nat := 6
/-- Modelled from the spec: the enumerator `ignition::msgs::Entity::JOINT`. -/
def ignition.msgs.Entity.JOINT : Nat := 7

/-- `convert_ros_to_ign(const ros_ign_interfaces::msg::Entity &, ignition::msgs::Entity &)`:
`id` and `name` are set, then the `switch` on `ros_msg.type` sets the type or, in its
`default` branch, writes a diagnostic and leaves the type as it was. -/
def convert_ros_to_ign_Entity (ros_msg : ros_ign_interfaces.msg.Entity)
    (ign_msg : ignition.msgs.Entity) (env : Env) : ignition.msgs.Entity × Env :=
  let ign_msg := { ign_msg with id := ros_msg.id }
  let ign_msg := { ign_msg with name := ros_msg.name }
  if ros_msg.type = ros_ign_interfaces.msg.Entity.NONE then
    ({ ign_msg with type := ignition.msgs.Entity.NONE }, env)
  else if ros_msg.type = ros_ign_interfaces.msg.Entity.LIGHT then
    ({ ign_msg with type := ignition.msgs.Entity.LIGHT }, env)
  else if ros_msg.type = ros_ign_interfaces.msg.Entity.MODEL then
    ({ ign_msg with type := ignition.msgs.Entity.MODEL }, env)
  else if ros_msg.type = ros_ign_interfaces.msg.Entity.LINK then
    ({ ign_msg with type := ignition.msgs.Entity.LINK }, env)
  else if ros_msg.type = ros_ign_interfaces.msg.Entity.VISUAL then
    ({ ign_msg with type := ignition.msgs.Entity.VISUAL }, env)
  else if ros_msg.type = ros_ign_interfaces.msg.Entity.COLLISION then
    ({ ign_msg with type := ignition.msgs.Entity.COLLISION }, env)
  else if ros_msg.type = ros_ign_interfaces.msg.Entity.SENSOR then
    ({ ign_msg with type := ignition.msgs.Entity.SENSOR }, env)
  else if ros_msg.type = ros_ign_interfaces.msg.Entity.JOINT then
    ({ ign_msg with type := ignition.msgs.Entity.JOINT }, env)
  else
    (ign_msg, { env with cerr := env.cerr ++
      ["Unsupported entity type [".toList ++ print_uint8 ros_msg.type ++ "]\n".toList] })

/-- `convert_ign_to_ros(const ignition::msgs::Entity &, ros_ign_interfaces::msg::Entity &)`:
`id` and `name` are set, then the `if` chain on `ign_msg.type()` sets the type or, in
its last branch, writes a diagnostic and leaves the type as it was. -/
def convert_ign_to_ros_Entity (ign_msg : ignition.msgs.Entity)
    (ros_msg : ros_ign_interfaces.msg.Entity) (env : Env) :
    ros_ign_interfaces.msg.Entity × Env :=
  let ros_msg := { ros_msg with id := ign_msg.id }
  let ros_msg := { ros_msg with name := ign_msg.name }
  if ign_msg.type = ignition.msgs.Entity.NONE then
    ({ ros_msg with type := ros_ign_interfaces.msg.Entity.NONE }, env)
  else if ign_msg.type = ignition.msgs.Entity.LIGHT then
    ({ ros_msg with type := ros_ign_interfaces.msg.Entity.LIGHT }, env)
  else if ign_msg.type = ignition.msgs.Entity.MODEL then
    ({ ros_msg with type := ros_ign_interfaces.msg.Entity.MODEL }, env)
  else if ign_msg.type = ignition.msgs.Entity.LINK then
    ({ ros_msg with type := ros_ign_interfaces.msg.Entity.LINK }, env)
  else if ign_msg.type = ignition.msgs.Entity.VISUAL then
    ({ ros_msg with type := ros_ign_interfaces.msg.Entity.VISUAL }, env)
  else if ign_msg.type = ignition.msgs.Entity.COLLISION then
    ({ ros_msg with type := ros_ign_interfaces.msg.Entity.COLLISION }, env)
  else if ign_msg.type = ignition.msgs.Entity.SENSOR then
    ({ ros_msg with type := ros_ign_interfaces.msg.Entity.SENSOR }, env)
  else if ign_msg.type = ignition.msgs.Entity.JOINT then
    ({ ros_msg with type := ros_ign_interfaces.msg.Entity.JOINT }, env)
  else
    (ros_msg, { env with cerr := env.cerr ++
      ["Unsupported Entity [".toList ++ print_int ign_msg.type ++ "]\n".toList] })

/-! ## Battery state -/

/-- The value `std::numeric_limits<double>::quiet_NaN()`. -/
def quiet_NaN : double := { bits := 0x7FF8000000000000 }

/-- Modelled from the spec: `sensor_msgs::msg::PointField`, one field descriptor of a
Domain-A point cloud. -/
structure sensor_msgs.msg.PointField where
  name : Str := []
  offset : Nat := 0
  datatype : Nat := 0
  count : Nat := 0
deriving DecidableEq, Repr

/-- Modelled from the spec: the constant `sensor_msgs::msg::PointField::INT8`. -/
def sensor_msgs.msg.PointField.INT8 : Nat := 1
/-- Modelled from the spec: the constant `sensor_msgs::msg::PointField::UINT8`. -/
def sensor_msgs.msg.PointField.UINT8 : Nat := 2
/-- Modelled from the spec: the constant `sensor_msgs::msg::PointField::INT16`. -/
def sensor_msgs.msg.PointField.INT16 : Nat := 3
/-- Modelled from the spec: the constant `sensor_msgs::msg::PointField::UINT16`. -/
def sensor_msgs.msg.PointField.UINT16 : Nat := 4
/-- Modelled from the spec: the constant `sensor_msgs::msg::PointField::INT32`. -/
def sensor_msgs.msg.PointField.INT32 : Nat := 5
/-- Modelled from the spec: the constant `sensor_msgs::msg::PointField::UINT32`. -/
def sensor_msgs.msg.PointField.UINT32 : Nat := 6
/-- Modelled from the spec: the constant `sensor_msgs::msg::PointField::FLOAT32`. -/
def sensor_msgs.msg.PointField.FLOAT32 : Nat := 7
/-- Modelled from the spec: the constant `sensor_msgs::msg::PointField::FLOAT64`. -/
def sensor_msgs.msg.PointField.FLOAT64 : Nat := 8

/-- Modelled from the spec: `sensor_msgs::msg::PointCloud2`; `data` is the byte buffer. -/
structure sensor_msgs.msg.PointCloud2 where
  header : std_msgs.msg.Header := {}
  height : Nat := 0
  width : Nat := 0
  fields : List sensor_msgs.msg.PointField := []
  is_bigendian : bool := false
  point_step : Nat := 0
  row_step : Nat := 0
  data : List Nat := []
  is_dense : bool := false
deriving DecidableEq, Repr

/-- Modelled from the spec: `ignition::msgs::PointCloudPacked::Field`, one field
descriptor of a Domain-B point cloud; `datatype` holds a value of the enumeration
`ignition::msgs::PointCloudPacked::Field::DataType`. -/
structure ignition.msgs.PointCloudPacked.Field where
  name : Str := []
  offset : Nat := 0
  datatype : Nat := 0
  count : Nat := 0
deriving DecidableEq, Repr

/-- Modelled from the spec: the enumerator `ignition::msgs::PointCloudPacked::Field::INT8`. -/
def ignition.msgs.PointCloudPacked.Field.INT8 : Nat := 0
/-- Modelled from the spec: the enumerator `ignition::msgs::PointCloudPacked::Field::UINT8`. -/
def ignition.msgs.PointCloudPacked.Field.UINT8 : Nat := 1
/-- Modelled from the spec: the enumerator `ignition::msgs::PointCloudPacked::Field::INT16`. -/
def ignition.msgs.PointCloudPacked.Field.INT16 : Nat := 2
/-- Modelled from the spec: the enumerator
`ignition::msgs::PointCloudPacked::Field::UINT16`. -/
def ignition.msgs.PointCloudPacked.Field.UINT16 : Nat := 3
/-- Modelled from the spec: the enumerator `ignition::msgs::PointCloudPacked::Field::INT32`. -/
def ignition.msgs.PointCloudPacked.Field.INT32 : Nat := 4
/-- Modelled from the spec: the enumerator
`ignition::msgs::PointCloudPacked::Field::UINT32`. -/
def ignition.msgs.PointCloudPacked.Field.UINT32 : Nat := 5
/-- Modelled from the spec: the enumerator
`ignition::msgs::PointCloudPacked::Field::FLOAT32`. -/
def ignition.msgs.PointCloudPacked.Field.FLOAT32 : Nat := 6
/-- Modelled from the spec: the enumerator
`ignition::msgs::PointCloudPacked::Field::FLOAT64`. -/
def ignition.msgs.PointCloudPacked.Field.FLOAT64 : Nat := 7

/-- Modelled from the spec: `ignition::msgs::PointCloudPacked`; `data` is the byte
buffer. -/
structure ignition.msgs.PointCloudPacked where
  header : ignition.msgs.Header := {}
  field : List ignition.msgs.PointCloudPacked.Field := []
  height : Nat := 0
  width : Nat := 0
  is_bigendian : bool := false
  point_step : Nat := 0
  row_step : Nat := 0
  data : List Nat := []
  is_dense : bool := false
deriving DecidableEq, Repr

/-- The `switch (field.datatype)` of `convert_ros_to_ign(const sensor_msgs::msg::PointCloud2
&, ...)`: the Domain-B datatype set for a Domain-A datatype; the label `default:` stands
with `case INT8:`. -/
def convert_ros_to_ign_PointCloud2_datatype (datatype : Nat) : Nat :=
  if datatype = sensor_msgs.msg.PointField.INT8 then ignition.msgs.PointCloudPacked.Field.INT8
  else if datatype = sensor_msgs.msg.PointField.UINT8 then
    ignition.msgs.PointCloudPacked.Field.UINT8
  else if datatype = sensor_msgs.msg.PointField.INT16 then
    ignition.msgs.PointCloudPacked.Field.INT16
  else if datatype = sensor_msgs.msg.PointField.UINT16 then
    ignition.msgs.PointCloudPacked.Field.UINT16
  else if datatype = sensor_msgs.msg.PointField.INT32 then
    ignition.msgs.PointCloudPacked.Field.INT32
  else if datatype = sensor_msgs.msg.PointField.UINT32 then
    ignition.msgs.PointCloudPacked.Field.UINT32
  else if datatype = sensor_msgs.msg.PointField.FLOAT32 then
    ignition.msgs.PointCloudPacked.Field.FLOAT32
  else if datatype = sensor_msgs.msg.PointField.FLOAT64 then
    ignition.msgs.PointCloudPacked.Field.FLOAT64
  else ignition.msgs.PointCloudPacked.Field.INT8

/-- The body of the loop over `ros_msg.fields`: the descriptor that `add_field()` appends
for one Domain-A descriptor. -/
def convert_ros_to_ign_PointCloud2_field (field : sensor_msgs.msg.PointField) :
    ignition.msgs.PointCloudPacked.Field :=
  let pf : ignition.msgs.PointCloudPacked.Field := {}
  let pf := { pf with name := field.name }
  let pf := { pf with count := field.count }
  let pf := { pf with offset := field.offset }
  { pf with datatype := convert_ros_to_ign_PointCloud2_datatype field.datatype }

/-- `convert_ros_to_ign(const sensor_msgs::msg::PointCloud2 &,
ignition::msgs::PointCloudPacked &)`: the scalar fields, the buffer (`resize` to the size
of the source buffer, then `memcpy` of that many bytes), then one descriptor appended per
source descriptor. -/
def convert_ros_to_ign_PointCloud2 (ros_msg : sensor_msgs.msg.PointCloud2)
    (ign_msg : ignition.msgs.PointCloudPacked) : ignition.msgs.PointCloudPacked :=
  let ign_msg := { ign_msg with header := convert_ros_to_ign_Header ros_msg.header ign_msg.header }
  let ign_msg := { ign_msg with height := ros_msg.height }
  let ign_msg := { ign_msg with width := ros_msg.width }
  let ign_msg := { ign_msg with is_bigendian := ros_msg.is_bigendian }
  let ign_msg := { ign_msg with point_step := ros_msg.point_step }
  let ign_msg := { ign_msg with row_step := ros_msg.row_step }
  let ign_msg := { ign_msg with is_dense := ros_msg.is_dense }
  let ign_msg := { ign_msg with data := resize ign_msg.data ros_msg.data.length 0 }
  let ign_msg := { ign_msg with data := memcpy ign_msg.data ros_msg.data ros_msg.data.length }
  { ign_msg with field := ign_msg.field ++ ros_msg.fields.map convert_ros_to_ign_PointCloud2_field }

/-- The `switch (ign_msg.field(i).datatype())` of `convert_ign_to_ros(const
ignition::msgs::PointCloudPacked &, ...)`: the Domain-A datatype set for a Domain-B
datatype; the label `default:` stands with `case INT8:`. -/
def convert_ign_to_ros_PointCloud2_datatype (datatype : Nat) : Nat :=
  if datatype = ignition.msgs.PointCloudPacked.Field.INT8 then sensor_msgs.msg.PointField.INT8
  else if datatype = ignition.msgs.PointCloudPacked.Field.UINT8 then
    sensor_msgs.msg.PointField.UINT8
  else if datatype = ignition.msgs.PointCloudPacked.Field.INT16 then
    sensor_msgs.msg.PointField.INT16
  else if datatype = ignition.msgs.PointCloudPacked.Field.UINT16 then
    sensor_msgs.msg.PointField.UINT16
  else if datatype = ignition.msgs.PointCloudPacked.Field.INT32 then
    sensor_msgs.msg.PointField.INT32
  else if datatype = ignition.msgs.PointCloudPacked.Field.UINT32 then
    sensor_msgs.msg.PointField.UINT32
  else if datatype = ignition.msgs.PointCloudPacked.Field.FLOAT32 then
    sensor_msgs.msg.PointField.FLOAT32
  else if datatype = ignition.msgs.PointCloudPacked.Field.FLOAT64 then
    sensor_msgs.msg.PointField.FLOAT64
  else sensor_msgs.msg.PointField.INT8

/-- The body of the loop over `ign_msg.field(i)`: the descriptor `pf` that is pushed back
for one Domain-B descriptor. -/
def convert_ign_to_ros_PointCloud2_field (field : ignition.msgs.PointCloudPacked.Field) :
    sensor_msgs.msg.PointField :=
  let pf : sensor_msgs.msg.PointField := {}
  let pf := { pf with name := field.name }
  let pf := { pf with count := field.count }
  let pf := { pf with offset := field.offset }
  { pf with datatype := convert_ign_to_ros_PointCloud2_datatype field.datatype }

/-- `convert_ign_to_ros(const ignition::msgs::PointCloudPacked &,
sensor_msgs::msg::PointCloud2 &)` -/
def convert_ign_to_ros_PointCloud2 (ign_msg : ignition.msgs.PointCloudPacked)
    (ros_msg : sensor_msgs.msg.PointCloud2) (env : Env) :
    Option (sensor_msgs.msg.PointCloud2 × Env) :=
  match convert_ign_to_ros_Header ign_msg.header ros_msg.header env with
  | none => none
  | some (header, env) =>
    let ros_msg := { ros_msg with header := header }
    let ros_msg := { ros_msg with height := ign_msg.height }
    let ros_msg := { ros_msg with width := ign_msg.width }
    let ros_msg := { ros_msg with is_bigendian := ign_msg.is_bigendian }
    let ros_msg := { ros_msg with point_step := ign_msg.point_step }
    let ros_msg := { ros_msg with row_step := ign_msg.row_step }
    let ros_msg := { ros_msg with is_dense := ign_msg.is_dense }
    let ros_msg := { ros_msg with data := resize ros_msg.data ign_msg.data.length 0 }
    let ros_msg := { ros_msg with
      data := memcpy ros_msg.data ign_msg.data ign_msg.data.length }
    some ({ ros_msg with
      fields := ros_msg.fields ++ ign_msg.field.map convert_ign_to_ros_PointCloud2_field }, env)

/-! ## Images -/

/-- Modelled from the spec: `sensor_msgs::msg::Image`; `data` is the pixel buffer. -/
structure sensor_msgs.msg.Image where
  header : std_msgs.msg.Header := {}
  height : Nat := 0
  width : Nat := 0
  encoding : Str := []
  is_bigendian : bool := false
  step : Nat := 0
  data : List Nat := []
deriving DecidableEq, Repr

/-- Modelled from the spec: `ignition::msgs::Image`; `data` is the pixel buffer and
`pixel_format_type` holds a value of the enumeration `ignition::msgs::PixelFormatType`. -/
structure ignition.msgs.Image where
  header : ignition.msgs.Header := {}
  width : Nat := 0
  height : Nat := 0
  step : Nat := 0
  data : List Nat := []
  pixel_format_type : Nat := 0
deriving DecidableEq, Repr

/-- Modelled from the spec: the enumerator
`ignition::msgs::PixelFormatType::UNKNOWN_PIXEL_FORMAT`. -/
def ignition.msgs.PixelFormatType.UNKNOWN_PIXEL_FORMAT : Nat := 0
/-- Modelled from the spec: the enumerator `ignition::msgs::PixelFormatType::L_INT8`. -/
def ignition.msgs.PixelFormatType.L_INT8 : Nat := 1
/-- Modelled from the spec: the enumerator `ignition::msgs::PixelFormatType::L_INT16`. -/
def ignition.msgs.PixelFormatType.L_INT16 : Nat := 2
/-- Modelled from the spec: the enumerator `ignition::msgs::PixelFormatType::RGB_INT8`. -/
def ignition.msgs.PixelFormatType.RGB_INT8 : Nat := 3
/-- Modelled from the spec: the enumerator `ignition::msgs::PixelFormatType::RGBA_INT8`. -/
def ignition.msgs.PixelFormatType.RGBA_INT8 : Nat := 4
/-- Modelled from the spec: the enumerator `ignition::msgs::PixelFormatType::BGRA_INT8`. -/
def ignition.msgs.PixelFormatType.BGRA_INT8 : Nat := 5
/-- Modelled from the spec: the enumerator `ignition::msgs::PixelFormatType::RGB_INT16`. -/
def ignition.msgs.PixelFormatType.RGB_INT16 : Nat := 6
/-- Modelled from the spec: the enumerator `ignition::msgs::PixelFormatType::BGR_INT8`. -/
def ignition.msgs.PixelFormatType.BGR_INT8 : Nat := 8
/-- Modelled from the spec: the enumerator `ignition::msgs::PixelFormatType::BGR_INT16`. -/
def ignition.msgs.PixelFormatType.BGR_INT16 : Nat := 9
/-- Modelled from the spec: the enumerator `ignition::msgs::PixelFormatType::R_FLOAT32`. -/
def ignition.msgs.PixelFormatType.R_FLOAT32 : Nat := 13

/-- The `if` chain on `ros_msg.encoding` of `convert_ros_to_ign(const
sensor_msgs::msg::Image &, ...)`: the pixel format set, `num_channels` and
`octets_per_channel`; `none` is the last branch (unsupported encoding). -/
def convert_ros_to_ign_Image_format (encoding : Str) : Option (Nat × Nat × Nat) :=
  if encoding = "mono8".toList then some (ignition.msgs.PixelFormatType.L_INT8, 1, 1)
  else if encoding = "mono16".toList then some (ignition.msgs.PixelFormatType.L_INT16, 1, 2)
  else if encoding = "rgb8".toList then some (ignition.msgs.PixelFormatType.RGB_INT8, 3, 1)
  else if encoding = "rgba8".toList then some (ignition.msgs.PixelFormatType.RGBA_INT8, 4, 1)
  else if encoding = "bgra8".toList then some (ignition.msgs.PixelFormatType.BGRA_INT8, 4, 1)
  else if encoding = "rgb16".toList then some (ignition.msgs.PixelFormatType.RGB_INT16, 3, 2)
  else if encoding = "bgr8".toList then some (ignition.msgs.PixelFormatType.BGR_INT8, 3, 1)
  else if encoding = "bgr16".toList then some (ignition.msgs.PixelFormatType.BGR_INT16, 3, 2)
  else if encoding = "32FC1".toList then some (ignition.msgs.PixelFormatType.R_FLOAT32, 1, 4)
  else none

/-- `convert_ros_to_ign(const sensor_msgs::msg::Image &, ignition::msgs::Image &)`.
The two products are `unsigned int` products, taken modulo `2^32`.  `set_data` copies
`step * height` bytes from the start of the source buffer; reading more bytes than the
buffer holds is undefined (`none`). -/
def convert_ros_to_ign_Image (ros_msg : sensor_msgs.msg.Image) (ign_msg : ignition.msgs.Image)
    (env : Env) : Option (ignition.msgs.Image × Env) :=
  let ign_msg := { ign_msg with header := convert_ros_to_ign_Header ros_msg.header ign_msg.header }
  let ign_msg := { ign_msg with width := ros_msg.width }
  let ign_msg := { ign_msg with height := ros_msg.height }
  match convert_ros_to_ign_Image_format ros_msg.encoding with
  | some (pixel_format_type, num_channels, octets_per_channel) =>
    let ign_msg := { ign_msg with pixel_format_type := pixel_format_type }
    let ign_msg := { ign_msg with
      step := (ign_msg.width * num_channels * octets_per_channel) % 2 ^ 32 }
    let size := (ign_msg.step * ign_msg.height) % 2 ^ 32
    if size ≤ ros_msg.data.length then
      some ({ ign_msg with data := ros_msg.data.take size }, env)
    else none
  | none =>
    let ign_msg := { ign_msg with
      pixel_format_type := ignition.msgs.PixelFormatType.UNKNOWN_PIXEL_FORMAT }
    some (ign_msg, { env with cerr := env.cerr ++
      ["Unsupported pixel format [".toList ++ ros_msg.encoding ++ "]\n".toList] })

/-- The `if` chain on `ign_msg.pixel_format_type()` of `convert_ign_to_ros(const
ignition::msgs::Image &, ...)`: the encoding set, `num_channels` and
`octets_per_channel`; `none` is the last branch (unsupported pixel format). -/
def convert_ign_to_ros_Image_format (pixel_format_type : Nat) : Option (Str × Nat × Nat) :=
  if pixel_format_type = ignition.msgs.PixelFormatType.L_INT8 then some ("mono8".toList, 1, 1)
  else if pixel_format_type = ignition.msgs.PixelFormatType.L_INT16 then
    some ("mono16".toList, 1, 2)
  else if pixel_format_type = ignition.msgs.PixelFormatType.RGB_INT8 then
    some ("rgb8".toList, 3, 1)
  else if pixel_format_type = ignition.msgs.PixelFormatType.RGBA_INT8 then
    some ("rgba8".toList, 4, 1)
  else if pixel_format_type = ignition.msgs.PixelFormatType.BGRA_INT8 then
    some ("bgra8".toList, 4, 1)
  else if pixel_format_type = ignition.msgs.PixelFormatType.RGB_INT16 then
    some ("rgb16".toList, 3, 2)
  else if pixel_format_type = ignition.msgs.PixelFormatType.BGR_INT8 then
    some ("bgr8".toList, 3, 1)
  else if pixel_format_type = ignition.msgs.PixelFormatType.BGR_INT16 then
    some ("bgr16".toList, 3, 2)
  else if pixel_format_type = ignition.msgs.PixelFormatType.R_FLOAT32 then
    some ("32FC1".toList, 1, 4)
  else none

/-- `convert_ign_to_ros(const ignition::msgs::Image &, sensor_msgs::msg::Image &)`.
The two products are `uint32` products, taken modulo `2^32`; the destination buffer is
resized to `step * height` bytes and that many bytes are copied from the source buffer. -/
def convert_ign_to_ros_Image (ign_msg : ignition.msgs.Image) (ros_msg : sensor_msgs.msg.Image)
    (env : Env) : Option (sensor_msgs.msg.Image × Env) :=
  match convert_ign_to_ros_Header ign_msg.header ros_msg.header env with
  | none => none
  | some (header, env) =>
    let ros_msg := { ros_msg with header := header }
    let ros_msg := { ros_msg with height := ign_msg.height }
    let ros_msg := { ros_msg with width := ign_msg.width }
    match convert_ign_to_ros_Image_format ign_msg.pixel_format_type with
    | some (encoding, num_channels, octets_per_channel) =>
      let ros_msg := { ros_msg with encoding := encoding }
      let ros_msg := { ros_msg with is_bigendian := false }
      let ros_msg := { ros_msg with
        step := (ros_msg.width * num_channels * octets_per_channel) % 2 ^ 32 }
      let count := (ros_msg.step * ros_msg.height) % 2 ^ 32
      let ros_msg := { ros_msg with data := resize ros_msg.data count 0 }
      match std_copy ign_msg.data 0 count ros_msg.data with
      | some data => some ({ ros_msg with data := data }, env)
      | none => none
    | none =>
      some (ros_msg, { env with cerr := env.cerr ++
        ["Unsupported pixel format [".toList ++ print_int ign_msg.pixel_format_type ++
          "]\n".toList] })

/-! ## Laser scans -/

/-- Modelled from the spec: `sensor_msgs::msg::LaserScan`.  The scalar fields and the
elements of the two sequences are `float` (`float32` in the declaration); their Domain-B
counterparts are `double`. -/
structure sensor_msgs.msg.LaserScan where
  header : std_msgs.msg.Header := {}
  angle_min : float := {}
  angle_max : float := {}
  angle_increment : float := {}
  time_increment : float := {}
  scan_time : float := {}
  range_min : float := {}
  range_max : float := {}
  ranges : List float := []
  intensities : List float := []
deriving DecidableEq, Repr

/-- Modelled from the spec: `ignition::msgs::LaserScan`. -/
structure ignition.msgs.LaserScan where
  header : ignition.msgs.Header := {}
  frame : Str := []
  angle_min : double := {}
  angle_max : double := {}
  angle_step : double := {}
  range_min : double := {}
  range_max : double := {}
  count : Nat := 0
  vertical_angle_min : double := {}
  vertical_angle_max : double := {}
  vertical_angle_step : double := {}
  vertical_count : Nat := 0
  ranges : List double := []
  intensities : List double := []
deriving DecidableEq, Repr

/-- The literal `0.0`. -/
def double_zero : double := { bits := 0 }

/-- The call `std::copy(src.begin() + first, src.begin() + last, dst.begin())` between
sequences of different element types: each assignment to an element of `dst` converts
the element of `src`. -/
def std_copy_convert {α β : Type} (convert : α → β) (src : List α) (first last : Nat)
    (dst : List β) : Option (List β) :=
  std_copy (src.map convert) first last dst

/-- `convert_ign_to_ros(const ignition::msgs::LaserScan &, sensor_msgs::msg::LaserScan &)`.
Every assignment of a `double` to a `float` field converts it, the literal `0.0`
included.  `start = (vertical_count / 2) * count` is a `uint32` product, taken modulo
`2^32`; each destination sequence is resized to `count` elements and the `count` source
elements from index `start` on are copied into it, each converted to `float`. -/
def convert_ign_to_ros_LaserScan (ign_msg : ignition.msgs.LaserScan)
    (ros_msg : sensor_msgs.msg.LaserScan) (env : Env) :
    Option (sensor_msgs.msg.LaserScan × Env) :=
  match convert_ign_to_ros_Header ign_msg.header ros_msg.header env with
  | none => none
  | some (header, env) =>
    let ros_msg := { ros_msg with header := header }
    match frame_id_ign_to_ros ign_msg.frame with
    | none => none
    | some frame_id =>
      let ros_msg := { ros_msg with header := { ros_msg.header with frame_id := frame_id } }
      let ros_msg := { ros_msg with angle_min := double_to_float ign_msg.angle_min }
      let ros_msg := { ros_msg with angle_max := double_to_float ign_msg.angle_max }
      let ros_msg := { ros_msg with angle_increment := double_to_float ign_msg.angle_step }
      let ros_msg := { ros_msg with time_increment := double_to_float double_zero }
      let ros_msg := { ros_msg with scan_time := double_to_float double_zero }
      let ros_msg := { ros_msg with range_min := double_to_float ign_msg.range_min }
      let ros_msg := { ros_msg with range_max := double_to_float ign_msg.range_max }
      let count := ign_msg.count
      let vertical_count := ign_msg.vertical_count
      let start := ((vertical_count / 2) * count) % 2 ^ 32
      let ros_msg := { ros_msg with ranges := resize ros_msg.ranges count float_zero }
      match std_copy_convert double_to_float ign_msg.ranges start (start + count)
          ros_msg.ranges with
      | none => none
      | some ranges =>
        let ros_msg := { ros_msg with ranges := ranges }
        let ros_msg := { ros_msg with
          intensities := resize ros_msg.intensities count float_zero }
        match std_copy_convert double_to_float ign_msg.intensities start (start + count)
            ros_msg.intensities with
        | none => none
        | some intensities => some ({ ros_msg with intensities := intensities }, env)

/-! ## The correspondence tables as the specification words them -/

/-- The entity kinds that have a counterpart of the same name in the other domain, as
pairs (Domain-A constant, Domain-B enumerator): NONE, LIGHT, MODEL, LINK, VISUAL,
COLLISION, SENSOR and JOINT. -/
def Entity_kinds : List (Nat × Nat) :=
  [(ros_ign_interfaces.msg.Entity.NONE, ignition.msgs.Entity.NONE),
   (ros_ign_interfaces.msg.Entity.LIGHT, ignition.msgs.Entity.LIGHT),
   (ros_ign_interfaces.msg.Entity.MODEL, ignition.msgs.Entity.MODEL),
   (ros_ign_interfaces.msg.Entity.LINK, ignition.msgs.Entity.LINK),
   (ros_ign_interfaces.msg.Entity.VISUAL, ignition.msgs.Entity.VISUAL),
   (ros_ign_interfaces.msg.Entity.COLLISION, ignition.msgs.Entity.COLLISION),
   (ros_ign_interfaces.msg.Entity.SENSOR, ignition.msgs.Entity.SENSOR),
   (ros_ign_interfaces.msg.Entity.JOINT, ignition.msgs.Entity.JOINT)]

/-- The eight point-field datatypes, as pairs (Domain-A constant, Domain-B enumerator)
of the same name: INT8, UINT8, INT16, UINT16, INT32, UINT32, FLOAT32 and FLOAT64. -/
def PointField_datatypes : List (Nat × Nat) :=
  [(sensor_msgs.msg.PointField.INT8, ignition.msgs.PointCloudPacked.Field.INT8),
   (sensor_msgs.msg.PointField.UINT8, ignition.msgs.PointCloudPacked.Field.UINT8),
   (sensor_msgs.msg.PointField.INT16, ignition.msgs.PointCloudPacked.Field.INT16),
   (sensor_msgs.msg.PointField.UINT16, ignition.msgs.PointCloudPacked.Field.UINT16),
   (sensor_msgs.msg.PointField.INT32, ignition.msgs.PointCloudPacked.Field.INT32),
   (sensor_msgs.msg.PointField.UINT32, ignition.msgs.PointCloudPacked.Field.UINT32),
   (sensor_msgs.msg.PointField.FLOAT32, ignition.msgs.PointCloudPacked.Field.FLOAT32),
   (sensor_msgs.msg.PointField.FLOAT64, ignition.msgs.PointCloudPacked.Field.FLOAT64)]

/-- The nine recognized image encodings with the channel count and the bytes per
channel that the specification gives for each: mono8 1/1, mono16 1/2, rgb8 3/1,
rgba8 4/1, bgra8 4/1, rgb16 3/2, bgr8 3/1, bgr16 3/2, 32FC1 1/4. -/
def Image_encodings : List (Str × Nat × Nat) :=
  [("mono8".toList, 1, 1), ("mono16".toList, 1, 2), ("rgb8".toList, 3, 1),
   ("rgba8".toList, 4, 1), ("bgra8".toList, 4, 1), ("rgb16".toList, 3, 2),
   ("bgr8".toList, 3, 1), ("bgr16".toList, 3, 2), ("32FC1".toList, 1, 4)]

/-! ## Transform lists -/

/-- Modelled from the spec: `tf2_msgs::msg::TFMessage`. -/
structure tf2_msgs.msg.TFMessage where
  transforms : List geometry_msgs.msg.TransformStamped := []
deriving DecidableEq, Repr

/-- Modelled from the spec: `ignition::msgs::Pose_V`. -/
structure ignition.msgs.Pose_V where
  header : ignition.msgs.Header := {}
  pose : List ignition.msgs.Pose := []
deriving DecidableEq, Repr

/-- The loop `for (auto const & t : ros_msg.transforms)` of
`convert_ros_to_ign(const tf2_msgs::msg::TFMessage &, ...)`: each transform is converted
into the fresh pose that `add_pose()` appends. -/
def convert_ros_to_ign_TFMessage_loop :
    List geometry_msgs.msg.TransformStamped → List ignition.msgs.Pose → List ignition.msgs.Pose
  | [], pose => pose
  | t :: rest, pose =>
    let p : ignition.msgs.Pose := {}
    convert_ros_to_ign_TFMessage_loop rest (pose ++ [convert_ros_to_ign_TransformStamped t p])

/-- `convert_ros_to_ign(const tf2_msgs::msg::TFMessage &, ignition::msgs::Pose_V &)`:
`clear_pose()`, the loop, and the header of the first transform, if there is one. -/
def convert_ros_to_ign_TFMessage (ros_msg : tf2_msgs.msg.TFMessage)
    (ign_msg : ignition.msgs.Pose_V) : ignition.msgs.Pose_V :=
  let ign_msg := { ign_msg with pose := [] }
  let ign_msg := { ign_msg with
    pose := convert_ros_to_ign_TFMessage_loop ros_msg.transforms ign_msg.pose }
  match ros_msg.transforms with
  | [] => ign_msg
  | t :: _ => { ign_msg with header := convert_ros_to_ign_Header t.header ign_msg.header }

/-- The loop `for (auto const & p : ign_msg.pose())` of
`convert_ign_to_ros(const ignition::msgs::Pose_V &, ...)`: each pose is converted into a
fresh `TransformStamped tf`, which is pushed back. -/
def convert_ign_to_ros_TFMessage_loop :
    List ignition.msgs.Pose → List geometry_msgs.msg.TransformStamped → Env →
      Option (List geometry_msgs.msg.TransformStamped × Env)
  | [], transforms, env => some (transforms, env)
  | p :: rest, transforms, env =>
    let tf : geometry_msgs.msg.TransformStamped := {}
    match convert_ign_to_ros_TransformStamped p tf env with
    | none => none
    | some (tf, env) => convert_ign_to_ros_TFMessage_loop rest (transforms ++ [tf]) env

/-- `convert_ign_to_ros(const ignition::msgs::Pose_V &, tf2_msgs::msg::TFMessage &)`:
`transforms.clear()`, then the loop. -/
def convert_ign_to_ros_TFMessage (ign_msg : ignition.msgs.Pose_V)
    (ros_msg : tf2_msgs.msg.TFMessage) (env : Env) : Option (tf2_msgs.msg.TFMessage × Env) :=
  let ros_msg := { ros_msg with transforms := [] }
  match convert_ign_to_ros_TFMessage_loop ign_msg.pose ros_msg.transforms env with
  | none => none
  | some (transforms, env) => some ({ ros_msg with transforms := transforms }, env)

/-! ## Contacts -/

/-- Modelled from the spec: `ros_ign_interfaces::msg::JointWrench`. -/
structure ros_ign_interfaces.msg.JointWrench where
  header : std_msgs.msg.Header := {}
  body_1_name : std_msgs.msg.String := {}
  body_1_id : std_msgs.msg.UInt32 := {}
  body_2_name : std_msgs.msg.String := {}
  body_2_id : std_msgs.msg.UInt32 := {}
  body_1_wrench : geometry_msgs.msg.Wrench := {}
  body_2_wrench : geometry_msgs.msg.Wrench := {}
deriving DecidableEq, Repr

/-- Modelled from the spec: `ignition::msgs::JointWrench`. -/
structure ignition.msgs.JointWrench where
  header : ignition.msgs.Header := {}
  body_1_name : Str := []
  body_1_id : Nat := 0
  body_2_name : Str := []
  body_2_id : Nat := 0
  body_1_wrench : ignition.msgs.Wrench := {}
  body_2_wrench : ignition.msgs.Wrench := {}
deriving DecidableEq, Repr

/-- `convert_ros_to_ign(const ros_ign_interfaces::msg::JointWrench &,
ignition::msgs::JointWrench &)` -/
def convert_ros_to_ign_JointWrench (ros_msg : ros_ign_interfaces.msg.JointWrench)
    (ign_msg : ignition.msgs.JointWrench) : ignition.msgs.JointWrench :=
  let ign_msg := { ign_msg with header := convert_ros_to_ign_Header ros_msg.header ign_msg.header }
  let ign_msg := { ign_msg with body_1_name := ros_msg.body_1_name.data }
  let ign_msg := { ign_msg with body_2_name := ros_msg.body_2_name.data }
  let ign_msg := { ign_msg with body_1_id := ros_msg.body_1_id.data }
  let ign_msg := { ign_msg with body_2_id := ros_msg.body_2_id.data }
  let ign_msg := { ign_msg with
    body_1_wrench := convert_ros_to_ign_Wrench ros_msg.body_1_wrench ign_msg.body_1_wrench }
  { ign_msg with
    body_2_wrench := convert_ros_to_ign_Wrench ros_msg.body_2_wrench ign_msg.body_2_wrench }

/-- `convert_ign_to_ros(const ignition::msgs::JointWrench &,
ros_ign_interfaces::msg::JointWrench &)` -/
def convert_ign_to_ros_JointWrench (ign_msg : ignition.msgs.JointWrench)
    (ros_msg : ros_ign_interfaces.msg.JointWrench) (env : Env) :
    Option (ros_ign_interfaces.msg.JointWrench × Env) :=
  match convert_ign_to_ros_Header ign_msg.header ros_msg.header env with
  | none => none
  | some (header, env) =>
    let ros_msg := { ros_msg with header := header }
    let ros_msg := { ros_msg with
      body_1_name := { ros_msg.body_1_name with data := ign_msg.body_1_name } }
    let ros_msg := { ros_msg with
      body_2_name := { ros_msg.body_2_name with data := ign_msg.body_2_name } }
    let ros_msg := { ros_msg with
      body_1_id := { ros_msg.body_1_id with data := ign_msg.body_1_id } }
    let ros_msg := { ros_msg with
      body_2_id := { ros_msg.body_2_id with data := ign_msg.body_2_id } }
    let ros_msg := { ros_msg with
      body_1_wrench := convert_ign_to_ros_Wrench ign_msg.body_1_wrench ros_msg.body_1_wrench }
    some ({ ros_msg with
      body_2_wrench := convert_ign_to_ros_Wrench ign_msg.body_2_wrench ros_msg.body_2_wrench },
      env)

/-- Modelled from the spec: `ros_ign_interfaces::msg::Contact`. -/
structure ros_ign_interfaces.msg.Contact where
  collision1 : ros_ign_interfaces.msg.Entity := {}
  collision2 : ros_ign_interfaces.msg.Entity := {}
  positions : List geometry_msgs.msg.Vector3 := []
  normals : List geometry_msgs.msg.Vector3 := []
  depths : List double := []
  wrenches : List ros_ign_interfaces.msg.JointWrench := []
deriving DecidableEq, Repr

/-- Modelled from the spec: `ignition::msgs::Contact`. -/
structure ignition.msgs.Contact where
  collision1 : ignition.msgs.Entity := {}
  collision2 : ignition.msgs.Entity := {}
  position : List ignition.msgs.Vector3d := []
  normal : List ignition.msgs.Vector3d := []
  depth : List double := []
  wrench : List ignition.msgs.JointWrench := []
deriving DecidableEq, Repr

/-- `convert_ros_to_ign(const ros_ign_interfaces::msg::Contact &, ignition::msgs::Contact &)`.
Both entity conversions read `ros_msg.collision1`; `position`, `normal` and `wrench` are
cleared before their loops, `depth` is not. -/
def convert_ros_to_ign_Contact (ros_msg : ros_ign_interfaces.msg.Contact)
    (ign_msg : ignition.msgs.Contact) (env : Env) : ignition.msgs.Contact × Env :=
  let c1 := convert_ros_to_ign_Entity ros_msg.collision1 ign_msg.collision1 env
  let ign_msg := { ign_msg with collision1 := c1.1 }
  let env := c1.2
  let c2 := convert_ros_to_ign_Entity ros_msg.collision1 ign_msg.collision2 env
  let ign_msg := { ign_msg with collision2 := c2.1 }
  let env := c2.2
  let ign_msg := { ign_msg with position := [] }
  let ign_msg := { ign_msg with
    position := ign_msg.position ++
      ros_msg.positions.map (fun ros_position => convert_ros_to_ign_Vector3 ros_position {}) }
  let ign_msg := { ign_msg with normal := [] }
  let ign_msg := { ign_msg with
    normal := ign_msg.normal ++
      ros_msg.normals.map (fun ros_normal => convert_ros_to_ign_Vector3 ros_normal {}) }
  let ign_msg := { ign_msg with depth := ign_msg.depth ++ ros_msg.depths }
  let ign_msg := { ign_msg with wrench := [] }
  ({ ign_msg with
    wrench := ign_msg.wrench ++
      ros_msg.wrenches.map (fun ros_wrench => convert_ros_to_ign_JointWrench ros_wrench {}) },
    env)

/-- The loop over `ign_msg.wrench(i)` of `convert_ign_to_ros(const ignition::msgs::Contact &,
...)`: each wrench is converted into a fresh `ros_joint_wrench`, which is pushed back. -/
def convert_ign_to_ros_Contact_wrench_loop :
    List ignition.msgs.JointWrench → List ros_ign_interfaces.msg.JointWrench → Env →
      Option (List ros_ign_interfaces.msg.JointWrench × Env)
  | [], wrenches, env => some (wrenches, env)
  | w :: rest, wrenches, env =>
    let ros_joint_wrench : ros_ign_interfaces.msg.JointWrench := {}
    match convert_ign_to_ros_JointWrench w ros_joint_wrench env with
    | none => none
    | some (ros_joint_wrench, env) =>
      convert_ign_to_ros_Contact_wrench_loop rest (wrenches ++ [ros_joint_wrench]) env

/-- `convert_ign_to_ros(const ignition::msgs::Contact &, ros_ign_interfaces::msg::Contact &)`:
the two entities, then every loop pushes back onto the destination sequence as it is. -/
def convert_ign_to_ros_Contact (ign_msg : ignition.msgs.Contact)
    (ros_msg : ros_ign_interfaces.msg.Contact) (env : Env) :
    Option (ros_ign_interfaces.msg.Contact × Env) :=
  let c1 := convert_ign_to_ros_Entity ign_msg.collision1 ros_msg.collision1 env
  let ros_msg := { ros_msg with collision1 := c1.1 }
  let env := c1.2
  let c2 := convert_ign_to_ros_Entity ign_msg.collision2 ros_msg.collision2 env
  let ros_msg := { ros_msg with collision2 := c2.1 }
  let env := c2.2
  let ros_msg := { ros_msg with
    positions := ros_msg.positions ++
      ign_msg.position.map (fun ign_position => convert_ign_to_ros_Vector3 ign_position {}) }
  let ros_msg := { ros_msg with
    normals := ros_msg.normals ++
      ign_msg.normal.map (fun ign_normal => convert_ign_to_ros_Vector3 ign_normal {}) }
  let ros_msg := { ros_msg with depths := ros_msg.depths ++ ign_msg.depth }
  match convert_ign_to_ros_Contact_wrench_loop ign_msg.wrench ros_msg.wrenches env with
  | none => none
  | some (wrenches, env) => some ({ ros_msg with wrenches := wrenches }, env)

/-- Modelled from the spec: `ros_ign_interfaces::msg::Contacts`. -/
structure ros_ign_interfaces.msg.Contacts where
  header : std_msgs.msg.Header := {}
  contacts : List ros_ign_interfaces.msg.Contact := []
deriving DecidableEq, Repr

/-- Modelled from the spec: `ignition::msgs::Contacts`. -/
structure ignition.msgs.Contacts where
  header : ignition.msgs.Header := {}
  contact : List ignition.msgs.Contact := []
deriving DecidableEq, Repr

/-- The loop `for (const auto & ros_contact : ros_msg.contacts)` of
`convert_ros_to_ign(const ros_ign_interfaces::msg::Contacts &, ...)`. -/
def convert_ros_to_ign_Contacts_loop :
    List ros_ign_interfaces.msg.Contact → List ignition.msgs.Contact → Env →
      List ignition.msgs.Contact × Env
  | [], contact, env => (contact, env)
  | ros_contact :: rest, contact, env =>
    let ign_contact : ignition.msgs.Contact := {}
    let c := convert_ros_to_ign_Contact ros_contact ign_contact env
    convert_ros_to_ign_Contacts_loop rest (contact ++ [c.1]) c.2

/-- `convert_ros_to_ign(const ros_ign_interfaces::msg::Contacts &,
ignition::msgs::Contacts &)`: header, `clear_contact()`, then the loop. -/
def convert_ros_to_ign_Contacts (ros_msg : ros_ign_interfaces.msg.Contacts)
    (ign_msg : ignition.msgs.Contacts) (env : Env) : ignition.msgs.Contacts × Env :=
  let ign_msg := { ign_msg with header := convert_ros_to_ign_Header ros_msg.header ign_msg.header }
  let ign_msg := { ign_msg with contact := [] }
  let r := convert_ros_to_ign_Contacts_loop ros_msg.contacts ign_msg.contact env
  ({ ign_msg with contact := r.1 }, r.2)

/-- The loop over `ign_msg.contact(i)` of `convert_ign_to_ros(const
ignition::msgs::Contacts &, ...)`: each contact is converted into a fresh `ros_contact`,
which is pushed back. -/
def convert_ign_to_ros_Contacts_loop :
    List ignition.msgs.Contact → List ros_ign_interfaces.msg.Contact → Env →
      Option (List ros_ign_interfaces.msg.Contact × Env)
  | [], contacts, env => some (contacts, env)
  | c :: rest, contacts, env =>
    let ros_contact : ros_ign_interfaces.msg.Contact := {}
    match convert_ign_to_ros_Contact c ros_contact env with
    | none => none
    | some (ros_contact, env) =>
      convert_ign_to_ros_Contacts_loop rest (contacts ++ [ros_contact]) env

/-- `convert_ign_to_ros(const ignition::msgs::Contacts &,
ros_ign_interfaces::msg::Contacts &)`: header, then the loop pushes back onto
`ros_msg.contacts` as it is. -/
def convert_ign_to_ros_Contacts (ign_msg : ignition.msgs.Contacts)
    (ros_msg : ros_ign_interfaces.msg.Contacts) (env : Env) :
    Option (ros_ign_interfaces.msg.Contacts × Env) :=
  match convert_ign_to_ros_Header ign_msg.header ros_msg.header env with
  | none => none
  | some (header, env) =>
    let ros_msg := { ros_msg with header := header }
    match convert_ign_to_ros_Contacts_loop ign_msg.contact ros_msg.contacts env with
    | none => none
    | some (contacts, env) => some ({ ros_msg with contacts := contacts }, env)

/-! ## Joint states -/

/-- Modelled from the spec: `sensor_msgs::msg::JointState`, four parallel sequences. -/
structure sensor_msgs.msg.JointState where
  header : std_msgs.msg.Header := {}
  name : List Str := []
  position : List double := []
  velocity : List double := []
  effort : List double := []
deriving DecidableEq, Repr

/-- Modelled from the spec: `ignition::msgs::Axis`, the fields set for a joint axis. -/
structure ignition.msgs.Axis where
  position : double := {}
  velocity : double := {}
  force : double := {}
deriving DecidableEq, Repr

/-- Modelled from the spec: `ignition::msgs::Joint`, a joint with its first axis. -/
structure ignition.msgs.Joint where
  name : Str := []
  axis1 : ignition.msgs.Axis := {}
deriving DecidableEq, Repr

/-- Modelled from the spec: `ignition::msgs::Model`, the header and the joints. -/
structure ignition.msgs.Model where
  header : ignition.msgs.Header := {}
  joint : List ignition.msgs.Joint := []
deriving DecidableEq, Repr

/-- The loop `for (auto i = 0u; i < ros_msg.position.size(); ++i)` of
`convert_ros_to_ign(const sensor_msgs::msg::JointState &, ...)`, over the indices still to
visit: `add_joint()` appends a fresh joint that receives `name[i]`, `position[i]`,
`velocity[i]` and `effort[i]`.  An index past the end of one of the four vectors is
undefined (`none`). -/
def convert_ros_to_ign_JointState_loop (ros_msg : sensor_msgs.msg.JointState) :
    List Nat → List ignition.msgs.Joint → Option (List ignition.msgs.Joint)
  | [], joint => some joint
  | i :: rest, joint =>
    match ros_msg.name[i]?, ros_msg.position[i]?, ros_msg.velocity[i]?, ros_msg.effort[i]? with
    | some name, some position, some velocity, some effort =>
      let newJoint : ignition.msgs.Joint := {}
      let newJoint := { newJoint with name := name }
      let newJoint := { newJoint with axis1 := { newJoint.axis1 with position := position } }
      let newJoint := { newJoint with axis1 := { newJoint.axis1 with velocity := velocity } }
      let newJoint := { newJoint with axis1 := { newJoint.axis1 with force := effort } }
      convert_ros_to_ign_JointState_loop ros_msg rest (joint ++ [newJoint])
    | _, _, _, _ => none

/-- `convert_ros_to_ign(const sensor_msgs::msg::JointState &, ignition::msgs::Model &)`:
header, then the loop over `i = 0, ..., position.size() - 1`. -/
def convert_ros_to_ign_JointState (ros_msg : sensor_msgs.msg.JointState)
    (ign_msg : ignition.msgs.Model) : Option ignition.msgs.Model :=
  let ign_msg := { ign_msg with header := convert_ros_to_ign_Header ros_msg.header ign_msg.header }
  match convert_ros_to_ign_JointState_loop ros_msg (List.range ros_msg.position.length)
      ign_msg.joint with
  | none => none
  | some joint => some { ign_msg with joint := joint }

/-- The loop over `ign_msg.joint(i)` of `convert_ign_to_ros(const ignition::msgs::Model &,
...)`: four `push_back` calls per joint. -/
def convert_ign_to_ros_JointState_loop :
    List ignition.msgs.Joint → sensor_msgs.msg.JointState → sensor_msgs.msg.JointState
  | [], ros_msg => ros_msg
  | joint :: rest, ros_msg =>
    let ros_msg := { ros_msg with name := ros_msg.name ++ [joint.name] }
    let ros_msg := { ros_msg with position := ros_msg.position ++ [joint.axis1.position] }
    let ros_msg := { ros_msg with velocity := ros_msg.velocity ++ [joint.axis1.velocity] }
    let ros_msg := { ros_msg with effort := ros_msg.effort ++ [joint.axis1.force] }
    convert_ign_to_ros_JointState_loop rest ros_msg

/-- `convert_ign_to_ros(const ignition::msgs::Model &, sensor_msgs::msg::JointState &)` -/
def convert_ign_to_ros_JointState (ign_msg : ignition.msgs.Model)
    (ros_msg : sensor_msgs.msg.JointState) (env : Env) :
    Option (sensor_msgs.msg.JointState × Env) :=
  match convert_ign_to_ros_Header ign_msg.header ros_msg.header env with
  | none => none
  | some (header, env) =>
    let ros_msg := { ros_msg with header := header }
    some (convert_ign_to_ros_JointState_loop ign_msg.joint ros_msg, env)

/-! ## Camera info -/

/-- Modelled from the spec: `sensor_msgs::msg::CameraInfo`.  `d` is a vector; `k`, `r` and
`p` are arrays of 9, 9 and 12 elements, held as lists of that length. -/
structure sensor_msgs.msg.CameraInfo where
  header : std_msgs.msg.Header := {}
  height : Nat := 0
  width : Nat := 0
  distortion_model : Str := []
  d : List double := []
  k : List double := List.replicate 9 {}
  r : List double := List.replicate 9 {}
  p : List double := List.replicate 12 {}
deriving DecidableEq, Repr

/-- Modelled from the spec: `ignition::msgs::CameraInfo::Distortion`; `model` holds a
value of the enumeration `DistortionModelType`. -/
structure ignition.msgs.CameraInfo.Distortion where
  model : Nat := 0
  k : List double := []
deriving DecidableEq, Repr

/-- Modelled from the spec: the enumerator
`ignition::msgs::CameraInfo::Distortion::PLUMB_BOB`. -/
def ignition.msgs.CameraInfo.Distortion.PLUMB_BOB : Nat := 0
/-- Modelled from the spec: the enumerator
`ignition::msgs::CameraInfo::Distortion::RATIONAL_POLYNOMIAL`. -/
def ignition.msgs.CameraInfo.Distortion.RATIONAL_POLYNOMIAL : Nat := 1
/-- Modelled from the spec: the enumerator
`ignition::msgs::CameraInfo::Distortion::EQUIDISTANT`. -/
def ignition.msgs.CameraInfo.Distortion.EQUIDISTANT : Nat := 2

/-- Modelled from the spec: `ignition::msgs::CameraInfo::Intrinsics`. -/
structure ignition.msgs.CameraInfo.Intrinsics where
  k : List double := []
deriving DecidableEq, Repr

/-- Modelled from the spec: `ignition::msgs::CameraInfo::Projection`. -/
structure ignition.msgs.CameraInfo.Projection where
  p : List double := []
deriving DecidableEq, Repr

/-- Modelled from the spec: `ignition::msgs::CameraInfo`.  The three sub-messages are
optional: `none` is "not set" (`has_distortion()` false), and `mutable_distortion()`
sets an absent one to its default. -/
structure ignition.msgs.CameraInfo where
  header : ignition.msgs.Header := {}
  width : Nat := 0
  height : Nat := 0
  distortion : Option ignition.msgs.CameraInfo.Distortion := none
  intrinsics : Option ignition.msgs.CameraInfo.Intrinsics := none
  projection : Option ignition.msgs.CameraInfo.Projection := none
  rectification_matrix : List double := []
deriving DecidableEq, Repr

/-- `convert_ros_to_ign(const sensor_msgs::msg::CameraInfo &, ignition::msgs::CameraInfo &)`:
header, width, height; the distortion model is set by name or, for any other name, a
diagnostic is written; then every coefficient is added to its repeated field. -/
def convert_ros_to_ign_CameraInfo (ros_msg : sensor_msgs.msg.CameraInfo)
    (ign_msg : ignition.msgs.CameraInfo) (env : Env) : ignition.msgs.CameraInfo × Env :=
  let ign_msg := { ign_msg with header := convert_ros_to_ign_Header ros_msg.header ign_msg.header }
  let ign_msg := { ign_msg with width := ros_msg.width }
  let ign_msg := { ign_msg with height := ros_msg.height }
  let distortion : ignition.msgs.CameraInfo.Distortion := ign_msg.distortion.getD {}
  let m : ignition.msgs.CameraInfo.Distortion × Env :=
    if ros_msg.distortion_model = "plumb_bob".toList then
      ({ distortion with model := ignition.msgs.CameraInfo.Distortion.PLUMB_BOB }, env)
    else if ros_msg.distortion_model = "rational_polynomial".toList then
      ({ distortion with model := ignition.msgs.CameraInfo.Distortion.RATIONAL_POLYNOMIAL },
        env)
    else if ros_msg.distortion_model = "equidistant".toList then
      ({ distortion with model := ignition.msgs.CameraInfo.Distortion.EQUIDISTANT }, env)
    else
      (distortion, { env with cerr := env.cerr ++
        ["Unsupported distortion model [".toList ++ ros_msg.distortion_model ++
          "]\n".toList] })
  let distortion := m.1
  let env := m.2
  let distortion := { distortion with k := distortion.k ++ ros_msg.d }
  let ign_msg := { ign_msg with distortion := some distortion }
  let intrinsics : ignition.msgs.CameraInfo.Intrinsics := ign_msg.intrinsics.getD {}
  let intrinsics := { intrinsics with k := intrinsics.k ++ ros_msg.k }
  let ign_msg := { ign_msg with intrinsics := some intrinsics }
  let projection : ignition.msgs.CameraInfo.Projection := ign_msg.projection.getD {}
  let projection := { projection with p := projection.p ++ ros_msg.p }
  let ign_msg := { ign_msg with projection := some projection }
  ({ ign_msg with rectification_matrix := ign_msg.rectification_matrix ++ ros_msg.r }, env)

/-- The loop `for (i = 0; i < n; ++i) dst[i] = src(i)` into a fixed-size array or a
vector already sized: the elements of `src` overwrite the start of `dst`; writing past
the end of `dst` is undefined (`none`). -/
def assign_elements {α : Type} (dst src : List α) : Option (List α) :=
  if src.length ≤ dst.length then some (src ++ dst.drop src.length) else none

/-- `convert_ign_to_ros(const ignition::msgs::CameraInfo &, sensor_msgs::msg::CameraInfo &)` -/
def convert_ign_to_ros_CameraInfo (ign_msg : ignition.msgs.CameraInfo)
    (ros_msg : sensor_msgs.msg.CameraInfo) (env : Env) :
    Option (sensor_msgs.msg.CameraInfo × Env) :=
  match convert_ign_to_ros_Header ign_msg.header ros_msg.header env with
  | none => none
  | some (header, env) =>
    let ros_msg := { ros_msg with header := header }
    let ros_msg := { ros_msg with height := ign_msg.height }
    let ros_msg := { ros_msg with width := ign_msg.width }
    let with_distortion : Option (sensor_msgs.msg.CameraInfo × Env) :=
      match ign_msg.distortion with
      | none => some (ros_msg, env)
      | some distortion =>
        let m : sensor_msgs.msg.CameraInfo × Env :=
          if distortion.model = ignition.msgs.CameraInfo.Distortion.PLUMB_BOB then
            ({ ros_msg with distortion_model := "plumb_bob".toList }, env)
          else if distortion.model =
              ignition.msgs.CameraInfo.Distortion.RATIONAL_POLYNOMIAL then
            ({ ros_msg with distortion_model := "rational_polynomial".toList }, env)
          else if distortion.model = ignition.msgs.CameraInfo.Distortion.EQUIDISTANT then
            ({ ros_msg with distortion_model := "equidistant".toList }, env)
          else
            (ros_msg, { env with cerr := env.cerr ++
              ["Unsupported distortion model [".toList ++ print_int distortion.model ++
                "]\n".toList] })
        let ros_msg := m.1
        let env := m.2
        let ros_msg := { ros_msg with d := resize ros_msg.d distortion.k.length double_zero }
        match assign_elements ros_msg.d distortion.k with
        | none => none
        | some d => some ({ ros_msg with d := d }, env)
    match with_distortion with
    | none => none
    | some (ros_msg, env) =>
      let with_intrinsics : Option sensor_msgs.msg.CameraInfo :=
        match ign_msg.intrinsics with
        | none => some ros_msg
        | some intrinsics =>
          match assign_elements ros_msg.k intrinsics.k with
          | none => none
          | some k => some { ros_msg with k := k }
      match with_intrinsics with
      | none => none
      | some ros_msg =>
        let with_projection : Option sensor_msgs.msg.CameraInfo :=
          match ign_msg.projection with
          | none => some ros_msg
          | some projection =>
            match assign_elements ros_msg.p projection.p with
            | none => none
            | some p => some { ros_msg with p := p }
        match with_projection with
        | none => none
        | some ros_msg =>
          match assign_elements ros_msg.r ign_msg.rectification_matrix with
          | none => none
          | some r => some ({ ros_msg with r := r }, env)

/-! ## Laser scans, Domain-A to Domain-B -/

/-- The loop `for (auto i = 0u; i < ign_msg.count(); ++i)` of
`convert_ros_to_ign(const sensor_msgs::msg::LaserScan &, ...)`, over the indices still to
visit: `ranges[i]` and `intensities[i]`, converted to `double`, are added to the two
repeated fields.  An index past the end of a source vector is undefined (`none`). -/
def convert_ros_to_ign_LaserScan_loop (ros_msg : sensor_msgs.msg.LaserScan) :
    List Nat → ignition.msgs.LaserScan → Option ignition.msgs.LaserScan
  | [], ign_msg => some ign_msg
  | i :: rest, ign_msg =>
    match ros_msg.ranges[i]?, ros_msg.intensities[i]? with
    | some range, some intensity =>
      let ign_msg := { ign_msg with ranges := ign_msg.ranges ++ [float_to_double range] }
      let ign_msg := { ign_msg with
        intensities := ign_msg.intensities ++ [float_to_double intensity] }
      convert_ros_to_ign_LaserScan_loop ros_msg rest ign_msg
    | _, _ => none

/-- The initializer of `num_readings` in `convert_ros_to_ign(const
sensor_msgs::msg::LaserScan &, ...)`: the `float` expression
`(ros_msg.angle_max - ros_msg.angle_min) / ros_msg.angle_increment`, converted to
`unsigned int`. -/
def convert_ros_to_ign_LaserScan_num_readings (ros_msg : sensor_msgs.msg.LaserScan) :
    Option Nat :=
  float_to_unsigned
    (float_div (float_sub ros_msg.angle_max.value ros_msg.angle_min.value)
      ros_msg.angle_increment.value)

/-- `convert_ros_to_ign(const sensor_msgs::msg::LaserScan &, ignition::msgs::LaserScan &)`.
Every `float` passed to a setter that takes a `double` is converted. -/
def convert_ros_to_ign_LaserScan (ros_msg : sensor_msgs.msg.LaserScan)
    (ign_msg : ignition.msgs.LaserScan) : Option ignition.msgs.LaserScan :=
  match convert_ros_to_ign_LaserScan_num_readings ros_msg with
  | none => none
  | some num_readings =>
    let ign_msg := { ign_msg with
      header := convert_ros_to_ign_Header ros_msg.header ign_msg.header }
    let ign_msg := { ign_msg with frame := ros_msg.header.frame_id }
    let ign_msg := { ign_msg with angle_min := float_to_double ros_msg.angle_min }
    let ign_msg := { ign_msg with angle_max := float_to_double ros_msg.angle_max }
    let ign_msg := { ign_msg with angle_step := float_to_double ros_msg.angle_increment }
    let ign_msg := { ign_msg with range_min := float_to_double ros_msg.range_min }
    let ign_msg := { ign_msg with range_max := float_to_double ros_msg.range_max }
    let ign_msg := { ign_msg with count := num_readings }
    let ign_msg := { ign_msg with vertical_angle_min := double_zero }
    let ign_msg := { ign_msg with vertical_angle_max := double_zero }
    let ign_msg := { ign_msg with vertical_angle_step := double_zero }
    let ign_msg := { ign_msg with vertical_count := 0 }
    convert_ros_to_ign_LaserScan_loop ros_msg (List.range ign_msg.count) ign_msg

/-- The reading count as the specification words it: the quotient
`(angle_max - angle_min) / angle_increment` of the three numbers themselves, truncated
toward zero; undefined (`none`) when one of the three is not a finite number or the
increment is zero. -/
def truncated_quotient (angle_min angle_max angle_increment : float) : Option Int :=
  match angle_max.value, angle_min.value, angle_increment.value with
  | ieee_value.finite s m e, ieee_value.finite t n f, ieee_value.finite u k h =>
    if k = 0 then none
    else
      let g := min (min e f) h
      some (Int.tdiv (signed s (scale m (e - g)) - signed t (scale n (f - g)))
        (signed u (scale k (h - g))))
  | _, _, _ => none

/-! ## The distortion models of the specification -/

/-- The three distortion models, as pairs (Domain-A model string, Domain-B enumerator) of
the same name: plumb_bob, rational_polynomial and equidistant. -/
def Distortion_models : List (Str × Nat) :=
  [("plumb_bob".toList, ignition.msgs.CameraInfo.Distortion.PLUMB_BOB),
   ("rational_polynomial".toList, ignition.msgs.CameraInfo.Distortion.RATIONAL_POLYNOMIAL),
   ("equidistant".toList, ignition.msgs.CameraInfo.Distortion.EQUIDISTANT)]

/-! ## Theorems: the delimiter translator -/

theorem replace_delimiter_example :
    replace_delimiter "a::b::c".toList "::".toList "/".toList = some "a/b/c".toList ∧
    replace_delimiter "a:::b::".toList "::".toList "/".toList = some "a/:b/".toList ∧
    replace_delimiter "abc".toList "::".toList "/".toList = some "abc".toList ∧
    replace_delimiter [] "::".toList "/".toList = some [] := by
  decide

theorem translate_example :
    translate "a:::b::".toList "::".toList "/".toList = "a/:b/".toList ∧
    split_on "a:::b::".toList "::".toList = ["a".toList, ":b".toList, []] := by
  decide

theorem split_pieces_ne_nil (delim : Str) :
    ∀ (xs : Str) (k : Nat) (cur : Str), split_pieces delim xs k cur ≠ [] := by
  intro xs
  induction xs with
  | nil => intro k cur; simp [split_pieces]
  | cons c cs ih =>
    intro k cur
    cases k with
    | zero =>
      simp only [split_pieces]
      split
      · simp
      · exact ih 0 _
    | succ k => simp only [split_pieces]; exact ih k cur

theorem split_pieces_skip (delim : Str) :
    ∀ (xs : Str) (k : Nat) (cur : Str), k ≤ xs.length →
      split_pieces delim xs k cur = split_pieces delim (xs.drop k) 0 cur := by
  intro xs
  induction xs with
  | nil => intro k cur _; simp [split_pieces]
  | cons c cs ih =>
    intro k cur hk
    cases k with
    | zero => simp
    | succ k =>
      simp only [split_pieces, List.drop_succ_cons]
      exact ih k cur (by simpa using hk)

theorem isPrefixOf_length_le {delim xs : Str} (h : delim.isPrefixOf xs = true) :
    delim.length ≤ xs.length :=
  (List.isPrefixOf_iff_prefix.mp h).length_le

theorem join_with_cons (sep p : Str) {ps : List Str} (h : ps ≠ []) :
    join_with sep (p :: ps) = p ++ sep ++ join_with sep ps := by
  cases ps with
  | nil => exact absurd rfl h
  | cons q qs => rfl

/-- What `find_from` returns, read on the pieces of the split: no occurrence means the
text is one piece; an occurrence `k` characters on means the first piece is those `k`
characters and the scan resumes after the delimiter. -/
theorem find_from_split (delim : Str) (hd : delim ≠ []) :
    ∀ (rest : Str) (i : Nat) (cur : Str),
      (find_from delim rest i = none ∧ split_pieces delim rest 0 cur = [cur ++ rest]) ∨
      (∃ k, find_from delim rest i = some (i + k) ∧ k + delim.length ≤ rest.length ∧
        split_pieces delim rest 0 cur =
          (cur ++ rest.take k) :: split_pieces delim (rest.drop (k + delim.length)) 0 []) := by
  intro rest
  induction rest with
  | nil =>
    intro i cur
    left
    cases delim with
    | nil => exact absurd rfl hd
    | cons a as => simp [find_from, split_pieces]
  | cons c cs ih =>
    intro i cur
    by_cases hp : delim.isPrefixOf (c :: cs) = true
    · right
      refine ⟨0, ?_, ?_, ?_⟩
      · simp [find_from, hp]
      · simpa using isPrefixOf_length_le hp
      · have hlen := isPrefixOf_length_le hp
        have hpos : 0 < delim.length := List.length_pos.mpr hd
        simp only [split_pieces, hp, if_true, List.take_zero, List.append_nil, Nat.zero_add]
        rw [split_pieces_skip delim cs (delim.length - 1) [] (by simp at hlen; omega)]
        have : delim.length = (delim.length - 1) + 1 := by omega
        conv_rhs => rw [this, List.drop_succ_cons]
    · rcases ih (i + 1) (cur ++ [c]) with ⟨hf, hs⟩ | ⟨k, hf, hk, hs⟩
      · left
        refine ⟨?_, ?_⟩
        · simp [find_from, hp, hf]
        · simp [split_pieces, hp, hs]
      · right
        refine ⟨k + 1, ?_, ?_, ?_⟩
        · simp only [find_from, hp, Bool.false_eq_true, if_false, hf]
          congr 1; omega
        · simp only [List.length_cons]; omega
        · simp only [split_pieces, hp, Bool.false_eq_true, if_false, hs]
          have : k + 1 + delim.length = (k + delim.length) + 1 := by omega
          rw [this]
          simp

theorem find_eq_find_from (input delim : Str) (last_pos : Nat) (h : last_pos ≤ input.length) :
    find input delim last_pos = find_from delim (input.drop last_pos) last_pos := by
  simp [find, h]

/-- With a non-empty delimiter the loop returns whenever its fuel exceeds the number of
characters still to scan, and the result does not depend on the fuel. -/
theorem replace_delimiter_loop_fuel (input delim new_delim : Str) (hd : delim ≠ []) :
    ∀ (fuel last_pos : Nat) (output : Str), last_pos ≤ input.length →
      input.length - last_pos < fuel →
      replace_delimiter_loop input delim new_delim fuel last_pos output =
        some (output ++ join_with new_delim (split_pieces delim (input.drop last_pos) 0 [])) := by
  intro fuel
  induction fuel with
  | zero => intro last_pos output _ h; omega
  | succ fuel ih =>
    intro last_pos output hle hfuel
    by_cases hlt : last_pos < input.length
    · simp only [replace_delimiter_loop, hlt, if_true]
      rw [find_eq_find_from input delim last_pos hle]
      rcases find_from_split delim hd (input.drop last_pos) last_pos [] with
        ⟨hf, hs⟩ | ⟨k, hf, hk, hs⟩
      · simp [hf, hs, join_with]
      · have hpos : 0 < delim.length := List.length_pos.mpr hd
        have hlen : (input.drop last_pos).length = input.length - last_pos := by simp
        simp only [hf]
        rw [ih (last_pos + k + delim.length) _ (by omega) (by omega), hs,
          join_with_cons _ _ (split_pieces_ne_nil delim _ _ _)]
        simp only [substr, List.drop_drop, List.nil_append, Nat.add_sub_cancel_left,
          List.append_assoc]
        have : last_pos + (k + delim.length) = last_pos + k + delim.length := by omega
        rw [this]
    · have heq : last_pos = input.length := by omega
      subst heq
      simp [replace_delimiter_loop, split_pieces, join_with]

/-- With an empty delimiter and input left to scan, `find` returns `last_pos` itself and
the loop variable never advances: no amount of fuel lets the loop return. -/
theorem replace_delimiter_loop_empty_delim (input new_delim : Str) :
    ∀ (fuel last_pos : Nat) (output : Str), last_pos < input.length →
      replace_delimiter_loop input [] new_delim fuel last_pos output = none := by
  intro fuel
  induction fuel with
  | zero => intro last_pos output _; rfl
  | succ fuel ih =>
    intro last_pos output hlt
    have hfind : find input [] last_pos = some last_pos := by
      rw [find_eq_find_from input [] last_pos (Nat.le_of_lt hlt)]
      cases input.drop last_pos <;> simp [find_from]
    simp only [replace_delimiter_loop, hlt, if_true, hfind]
    exact ih _ _ (by simpa using hlt)

theorem replace_delimiter_eq_translate (input old_delim new_delim : Str) (h : old_delim ≠ []) :
    replace_delimiter input old_delim new_delim = some (translate input old_delim new_delim) := by
  unfold replace_delimiter translate split_on
  rw [replace_delimiter_loop_fuel input old_delim new_delim h _ 0 [] (Nat.zero_le _) (by omega)]
  simp

/-! ### The scan of `find` and the split of the specification -/

theorem find_from_none (delim : Str) :
    ∀ (rest : Str) (i : Nat), find_from delim rest i = none → ∀ k, ¬ delim <+: rest.drop k := by
  intro rest
  induction rest with
  | nil =>
    intro i h k hp
    simp only [find_from] at h
    split at h
    · simp at h
    · rename_i hn
      simp only [List.drop_nil] at hp
      exact hn (List.isPrefixOf_iff_prefix.mpr hp)
  | cons c cs ih =>
    intro i h k hp
    simp only [find_from] at h
    split at h
    · simp at h
    · rename_i hn
      cases k with
      | zero => exact hn (List.isPrefixOf_iff_prefix.mpr (by simpa using hp))
      | succ k => exact ih (i + 1) h k (by simpa using hp)

theorem find_from_some (delim : Str) :
    ∀ (rest : Str) (i p : Nat), find_from delim rest i = some p →
      ∃ k, p = i + k ∧ delim <+: rest.drop k ∧ ∀ j, j < k → ¬ delim <+: rest.drop j := by
  intro rest
  induction rest with
  | nil =>
    intro i p h
    simp only [find_from] at h
    split at h
    · rename_i hp
      refine ⟨0, by simpa using h.symm, by simpa using List.isPrefixOf_iff_prefix.mp hp, ?_⟩
      intro j hj; omega
    · simp at h
  | cons c cs ih =>
    intro i p h
    simp only [find_from] at h
    split at h
    · rename_i hp
      refine ⟨0, by simpa using h.symm, by simpa using List.isPrefixOf_iff_prefix.mp hp, ?_⟩
      intro j hj; omega
    · rename_i hn
      obtain ⟨k, hk, hpre, hmin⟩ := ih (i + 1) p h
      refine ⟨k + 1, by omega, by simpa using hpre, ?_⟩
      intro j hj
      cases j with
      | zero =>
        intro hp
        exact hn (List.isPrefixOf_iff_prefix.mpr (by simpa using hp))
      | succ j => simpa using hmin j (by omega)

theorem infix_iff_prefix_drop (delim xs : Str) :
    delim <:+: xs ↔ ∃ k, delim <+: xs.drop k := by
  constructor
  · rintro ⟨s, t, rfl⟩
    exact ⟨s.length, by simp [List.append_assoc]⟩
  · rintro ⟨k, t, ht⟩
    refine ⟨xs.take k, t, ?_⟩
    rw [List.append_assoc, ht, List.take_append_drop]

theorem split_on_leftmost_aux (delim : Str) (hd : delim ≠ []) :
    ∀ (n : Nat) (input : Str), input.length ≤ n →
      leftmost_split delim (split_pieces delim input 0 []) input := by
  have hpos : 0 < delim.length := List.length_pos.mpr hd
  intro n
  induction n with
  | zero =>
    intro input h
    have hnil : input = [] := List.length_eq_zero.mp (by omega)
    subst hnil
    simp [split_pieces, leftmost_split, hd]
  | succ n ih =>
    intro input h
    rcases find_from_split delim hd input 0 [] with ⟨hf, hs⟩ | ⟨k, hf, hk, hs⟩
    · rw [hs]
      simp only [List.nil_append, leftmost_split, true_and]
      rw [infix_iff_prefix_drop]
      rintro ⟨k, hk⟩
      exact find_from_none delim input 0 hf k hk
    · obtain ⟨k', hk', hpre, hmin⟩ := find_from_some delim input 0 _ hf
      have hkk : k' = k := by omega
      subst hkk
      rw [hs]
      have hrec := ih (input.drop (k' + delim.length)) (by simp only [List.length_drop]; omega)
      obtain ⟨q, ps, hq⟩ := List.exists_cons_of_ne_nil
        (split_pieces_ne_nil delim (input.drop (k' + delim.length)) 0 [])
      rw [hq] at hrec ⊢
      simp only [List.nil_append, leftmost_split]
      refine ⟨?_, input.drop (k' + delim.length), ?_, hrec⟩
      · intro j hj
        apply hmin
        simp only [List.length_take] at hj
        omega
      · obtain ⟨t, ht⟩ := hpre
        have h1 : input.drop (k' + delim.length) = t := by
          rw [← List.drop_drop, ← ht]
          simp
        rw [h1, List.append_assoc, ht, List.take_append_drop]

theorem split_on_leftmost (input delim : Str) (hd : delim ≠ []) :
    leftmost_split delim (split_on input delim) input :=
  split_on_leftmost_aux delim hd input.length input (Nat.le_refl _)

theorem split_pieces_no_occurrence (delim : Str) :
    ∀ (xs cur : Str), (∀ k, ¬ delim <+: xs.drop k) →
      split_pieces delim xs 0 cur = [cur ++ xs] := by
  intro xs
  induction xs with
  | nil => intro cur _; simp [split_pieces]
  | cons c cs ih =>
    intro cur h
    have h0 : ¬ delim.isPrefixOf (c :: cs) = true := by
      intro hp
      exact h 0 (by simpa using List.isPrefixOf_iff_prefix.mp hp)
    simp only [split_pieces, h0, if_false]
    rw [ih (cur ++ [c]) (fun k => by simpa using h (k + 1))]
    simp

theorem split_pieces_first_occurrence (delim : Str) (hd : delim ≠ []) (rest : Str) :
    ∀ (p cur : Str), (∀ k, k < p.length → ¬ delim <+: (p ++ delim ++ rest).drop k) →
      split_pieces delim (p ++ delim ++ rest) 0 cur =
        (cur ++ p) :: split_pieces delim rest 0 [] := by
  have hpos : 0 < delim.length := List.length_pos.mpr hd
  intro p
  induction p with
  | nil =>
    intro cur _
    obtain ⟨a, as, rfl⟩ := List.exists_cons_of_ne_nil hd
    have hp : (a :: as).isPrefixOf (a :: (as ++ rest)) = true :=
      List.isPrefixOf_iff_prefix.mpr ⟨rest, by simp⟩
    show split_pieces (a :: as) (a :: (as ++ rest)) 0 cur = _
    simp only [split_pieces, hp, if_true, List.length_cons, Nat.add_sub_cancel]
    rw [split_pieces_skip (a :: as) (as ++ rest) as.length [] (by simp)]
    simp
  | cons c cs ih =>
    intro cur h
    have h0 : ¬ delim.isPrefixOf (c :: (cs ++ delim ++ rest)) = true := by
      intro hp
      exact h 0 (by simp) (by simpa using List.isPrefixOf_iff_prefix.mp hp)
    show split_pieces delim (c :: (cs ++ delim ++ rest)) 0 cur = _
    simp only [split_pieces, h0, if_false]
    rw [ih (cur ++ [c]) (fun k hk => by simpa using h (k + 1) (by simpa using hk))]
    simp

theorem leftmost_split_unique (delim : Str) (hd : delim ≠ []) :
    ∀ (pieces : List Str) (input : Str), leftmost_split delim pieces input →
      split_on input delim = pieces := by
  intro pieces
  induction pieces with
  | nil => intro input h; exact absurd h (by simp [leftmost_split])
  | cons p tail ih =>
    intro input h
    cases tail with
    | nil =>
      obtain ⟨rfl, hno⟩ := h
      rw [infix_iff_prefix_drop] at hno
      unfold split_on
      rw [split_pieces_no_occurrence delim input [] (fun k hk => hno ⟨k, hk⟩)]
      simp
    | cons q ps =>
      obtain ⟨hmin, rest, rfl, hrest⟩ := h
      have := ih rest hrest
      unfold split_on at this ⊢
      rw [split_pieces_first_occurrence delim hd rest p [] hmin, this]
      simp

/-- C1. For a non-empty `old_delim`, `replace_delimiter(input, old_delim, new_delim)`
returns the pieces of `input`, cut at the leftmost-first non-overlapping occurrences of
`old_delim`, joined with `new_delim`: such a cut exists (it is `split_on`), and whatever
list of pieces is such a cut, the function returns its join. -/
theorem replace_delimiter_split_join (input old_delim new_delim : Str)
    (h : old_delim ≠ []) :
    leftmost_split old_delim (split_on input old_delim) input ∧
    ∀ pieces, leftmost_split old_delim pieces input →
      replace_delimiter input old_delim new_delim = some (join_with new_delim pieces) := by
  refine ⟨split_on_leftmost input old_delim h, ?_⟩
  intro pieces hp
  rw [replace_delimiter_eq_translate input old_delim new_delim h, translate,
    leftmost_split_unique old_delim h pieces input hp]

theorem replace_delimiter_split_join_witness :
    "::".toList ≠ [] ∧
    (leftmost_split "::".toList (split_on "a::b::c".toList "::".toList) "a::b::c".toList ∧
    ∀ pieces, leftmost_split "::".toList pieces "a::b::c".toList →
      replace_delimiter "a::b::c".toList "::".toList "/".toList =
        some (join_with "/".toList pieces)) :=
  ⟨by decide, replace_delimiter_split_join "a::b::c".toList "::".toList "/".toList (by decide)⟩

/-- C2 (the code at the failing input). With the empty from-delimiter and the input `"a"`
the loop of `replace_delimiter` does not return, whatever fuel it is given, and so
`replace_delimiter("a", "", "/")` does not return either. -/
theorem replace_delimiter_empty_delim_diverges :
    (∀ fuel : Nat, replace_delimiter_loop "a".toList [] "/".toList fuel 0 [] = none) ∧
    replace_delimiter "a".toList [] "/".toList = none :=
  ⟨fun fuel => replace_delimiter_loop_empty_delim _ _ fuel 0 [] (by decide),
    replace_delimiter_loop_empty_delim _ _ _ 0 [] (by decide)⟩

/-! ### Frame names -/

theorem frame_id_ign_to_ros_eq (frame_id : Str) :
    frame_id_ign_to_ros frame_id = some (translate frame_id "::".toList "/".toList) :=
  replace_delimiter_eq_translate frame_id _ _ (by decide)

theorem split_pieces_no_colon (tail : Str) :
    ∀ (s cur : Str), ':' ∉ s →
      split_pieces [':', ':'] (s ++ tail) 0 cur = split_pieces [':', ':'] tail 0 (cur ++ s) := by
  intro s
  induction s with
  | nil => intro cur _; simp
  | cons c cs ih =>
    intro cur hc
    have hne : ¬ (':' = c) := fun h => hc (List.mem_cons.mpr (Or.inl h))
    have hcs : ':' ∉ cs := fun h => hc (List.mem_cons.mpr (Or.inr h))
    have hb : (':' == c) = false := by simpa using hne
    show split_pieces [':', ':'] (c :: (cs ++ tail)) 0 cur = _
    simp only [split_pieces, List.isPrefixOf, hb, Bool.false_and, Bool.false_eq_true, if_false]
    rw [ih (cur ++ [c]) hcs]
    simp

theorem split_pieces_join_with :
    ∀ (segs : List Str) (s cur : Str), (∀ t ∈ s :: segs, ':' ∉ t) →
      split_pieces [':', ':'] (join_with [':', ':'] (s :: segs)) 0 cur = (cur ++ s) :: segs := by
  intro segs
  induction segs with
  | nil =>
    intro s cur h
    have := split_pieces_no_colon [] s cur (h s (by simp))
    simp only [List.append_nil] at this
    simp only [join_with, this, split_pieces]
  | cons q qs ih =>
    intro s cur h
    have hs := split_pieces_no_colon ([':', ':'] ++ join_with [':', ':'] (q :: qs)) s cur
      (h s (by simp))
    have hq := ih q [] (fun t ht => h t (List.mem_cons_of_mem _ ht))
    simp only [join_with, List.append_assoc]
    rw [hs]
    show split_pieces [':', ':'] (':' :: ':' :: join_with [':', ':'] (q :: qs)) 0 (cur ++ s) = _
    have hp : ([':', ':'] : Str).isPrefixOf (':' :: ':' :: join_with [':', ':'] (q :: qs)) = true :=
      List.isPrefixOf_iff_prefix.mpr ⟨_, rfl⟩
    simp only [split_pieces, hp, if_true]
    show (cur ++ s) :: split_pieces [':', ':'] (join_with [':', ':'] (q :: qs)) 0 [] = _
    rw [hq]
    simp

/-- C3. For a non-empty list of segments none of which holds the character `:`,
`frame_id_ign_to_ros` of the segments joined with `"::"` returns the segments joined
with `"/"`; in particular `frame_id_ign_to_ros("a::b::c")` is `"a/b/c"`. -/
theorem frame_id_ign_to_ros_segments (segs : List Str) (hne : segs ≠ [])
    (hc : ∀ s ∈ segs, ':' ∉ s) :
    frame_id_ign_to_ros (join_with "::".toList segs) = some (join_with "/".toList segs) ∧
    frame_id_ign_to_ros "a::b::c".toList = some "a/b/c".toList := by
  refine ⟨?_, by decide⟩
  obtain ⟨s, rest, rfl⟩ := List.exists_cons_of_ne_nil hne
  rw [frame_id_ign_to_ros_eq, translate, split_on]
  show some (join_with "/".toList
    (split_pieces [':', ':'] (join_with [':', ':'] (s :: rest)) 0 [])) = _
  rw [split_pieces_join_with rest s [] hc]
  simp

theorem frame_id_ign_to_ros_segments_witness :
    (["a".toList, "b".toList, "c".toList] : List Str) ≠ [] ∧
    (∀ s ∈ (["a".toList, "b".toList, "c".toList] : List Str), ':' ∉ s) ∧
    (frame_id_ign_to_ros (join_with "::".toList ["a".toList, "b".toList, "c".toList]) =
        some (join_with "/".toList ["a".toList, "b".toList, "c".toList]) ∧
      frame_id_ign_to_ros "a::b::c".toList = some "a/b/c".toList) :=
  ⟨by decide, by decide,
    frame_id_ign_to_ros_segments ["a".toList, "b".toList, "c".toList] (by decide) (by decide)⟩

theorem frame_id_ign_to_ros_no_delim (frame_id : Str) (h : ¬ "::".toList <:+: frame_id) :
    frame_id_ign_to_ros frame_id = some frame_id := by
  rw [frame_id_ign_to_ros_eq, translate, split_on,
    split_pieces_no_occurrence "::".toList frame_id []
      (fun k hk => h ((infix_iff_prefix_drop _ _).mpr ⟨k, hk⟩))]
  simp [join_with]

/-! ### Headers -/

theorem to_int32_of_range (x : Int) (h0 : -2147483648 ≤ x) (h1 : x < 2147483648) :
    to_int32 x = x := by
  unfold to_int32
  omega

theorem to_uint32_of_range (x : Int) (h0 : 0 ≤ x) (h1 : x < 4294967296) :
    to_uint32 x = x := by
  unfold to_uint32
  omega

/-- C4 (the claim fails). A header whose stamp holds 3000000000 in the `uint32` field
`nanosec` is converted into a Domain-B header whose `int32` field `nsec` holds
-1294967296: the nanoseconds are not those of the source. -/
theorem convert_ros_to_ign_Header_nsec_wraps :
    (convert_ros_to_ign_Header { stamp := { sec := 5, nanosec := 3000000000 } } {}).stamp.nsec =
      -1294967296 ∧
    (convert_ros_to_ign_Header { stamp := { sec := 5, nanosec := 3000000000 } } {}).stamp.nsec ≠
      ({ stamp := { sec := 5, nanosec := 3000000000 } } : std_msgs.msg.Header).stamp.nanosec := by
  decide

/-- C4 (amended). For a header whose stamp nanoseconds lie in `[0, 2^31)`, as those of
every normalized stamp do, `convert_ros_to_ign` on headers copies the stamp seconds and
nanoseconds and appends to the pair sequence of the destination exactly one pair, with
key `"frame_id"` and the single value `h.frame_id`, untranslated; a default destination
ends with exactly that one pair. -/
theorem convert_ros_to_ign_Header_appends_frame_id (h : std_msgs.msg.Header)
    (d : ignition.msgs.Header)
    (hnanosec : 0 ≤ h.stamp.nanosec ∧ h.stamp.nanosec < 2147483648) :
    (convert_ros_to_ign_Header h d).stamp.sec = h.stamp.sec ∧
    (convert_ros_to_ign_Header h d).stamp.nsec = h.stamp.nanosec ∧
    (convert_ros_to_ign_Header h d).data =
      d.data ++ [{ key := "frame_id".toList, value := [h.frame_id] }] ∧
    (convert_ros_to_ign_Header h {}).data =
      [{ key := "frame_id".toList, value := [h.frame_id] }] := by
  have hn : to_int32 h.stamp.nanosec = h.stamp.nanosec :=
    to_int32_of_range _ (by omega) hnanosec.2
  simp [convert_ros_to_ign_Header, hn]

theorem convert_ros_to_ign_Header_appends_frame_id_witness :
    ((0 : Int) ≤ 999999999 ∧ (999999999 : Int) < 2147483648) ∧
    ((convert_ros_to_ign_Header
        { stamp := { sec := 5, nanosec := 999999999 }, frame_id := "map".toList }
        { data := [{ key := "seq".toList, value := ["1".toList] }] }).stamp.sec = 5 ∧
    (convert_ros_to_ign_Header
        { stamp := { sec := 5, nanosec := 999999999 }, frame_id := "map".toList }
        { data := [{ key := "seq".toList, value := ["1".toList] }] }).stamp.nsec = 999999999 ∧
    (convert_ros_to_ign_Header
        { stamp := { sec := 5, nanosec := 999999999 }, frame_id := "map".toList }
        { data := [{ key := "seq".toList, value := ["1".toList] }] }).data =
      [{ key := "seq".toList, value := ["1".toList] }] ++
        [{ key := "frame_id".toList, value := ["map".toList] }] ∧
    (convert_ros_to_ign_Header
        { stamp := { sec := 5, nanosec := 999999999 }, frame_id := "map".toList } {}).data =
      [{ key := "frame_id".toList, value := ["map".toList] }]) :=
  ⟨by decide,
    convert_ros_to_ign_Header_appends_frame_id
      { stamp := { sec := 5, nanosec := 999999999 }, frame_id := "map".toList }
      { data := [{ key := "seq".toList, value := ["1".toList] }] } (by decide)⟩

theorem convert_ign_to_ros_Header_stamp_some (nanosecs : Int)
    (h : 1000000000 ≤ nanosecs ∧ nanosecs < 2147483648000000000) :
    ∃ stamp, convert_ign_to_ros_Header_stamp nanosecs = some stamp := by
  obtain ⟨hlo, hhi⟩ := h
  have h1 : Int.tdiv nanosecs 1000000000 = nanosecs / 1000000000 :=
    Int.tdiv_eq_ediv (by omega) (by omega)
  have h2 : 1 ≤ nanosecs / 1000000000 := by omega
  have h3 : to_int32 (nanosecs / 1000000000) = nanosecs / 1000000000 :=
    to_int32_of_range _ (by omega) (by omega)
  simp only [convert_ign_to_ros_Header_stamp, rclcpp_Time, system_clock_period_num,
    system_clock_period_den, Int.mul_one, h1, h3]
  rw [if_neg (by omega), if_neg (by omega)]
  split <;> exact ⟨_, rfl⟩

theorem convert_ign_to_ros_Header_loop_total :
    ∀ (data : List ignition.msgs.Header.Map) (ros_msg : std_msgs.msg.Header),
      ∃ frame_id, convert_ign_to_ros_Header_loop data ros_msg =
        some { ros_msg with frame_id := frame_id } := by
  intro data
  induction data with
  | nil => intro ros_msg; exact ⟨ros_msg.frame_id, rfl⟩
  | cons aPair rest ih =>
    intro ros_msg
    simp only [convert_ign_to_ros_Header_loop]
    split
    · simp only [frame_id_ign_to_ros_eq]
      exact ih _
    · exact ih ros_msg

theorem convert_ign_to_ros_Header_loop_skip :
    ∀ (data : List ignition.msgs.Header.Map) (ros_msg : std_msgs.msg.Header),
      (∀ p ∈ data, ¬ (p.key = "frame_id".toList ∧ p.value ≠ [])) →
      convert_ign_to_ros_Header_loop data ros_msg = some ros_msg := by
  intro data
  induction data with
  | nil => intro ros_msg _; rfl
  | cons aPair rest ih =>
    intro ros_msg h
    have h0 : ¬ (aPair.key = "frame_id".toList ∧ 0 < aPair.value.length) := by
      intro hp
      exact h aPair (List.mem_cons_self _ _) ⟨hp.1, List.length_pos.mp hp.2⟩
    simp only [convert_ign_to_ros_Header_loop, h0, dite_false]
    exact ih ros_msg (fun p hp => h p (List.mem_cons_of_mem _ hp))

theorem convert_ign_to_ros_Header_stamp_irrelevant (ign_msg : ignition.msgs.Header)
    (ros_msg : std_msgs.msg.Header) (env : Env) (stamp : ignition.msgs.Time) :
    convert_ign_to_ros_Header { ign_msg with stamp := stamp } ros_msg env =
      convert_ign_to_ros_Header ign_msg ros_msg env := rfl

/-- C5 (the claim fails). A source header stamped (5 s, 7 ns), converted while the wall
clock reads 1700000000123456789 ns, gives the destination the stamp
(1700000000 s, 123456789 ns), not the stamp of the source. -/
theorem convert_ign_to_ros_Header_stamp_not_copied :
    (convert_ign_to_ros_Header { stamp := { sec := 5, nsec := 7 }, data := [] } {}
        { clock := fun _ => 1700000000123456789 }).map (fun r => r.1.stamp) =
      some { sec := 1700000000, nanosec := 123456789 } ∧
    (convert_ign_to_ros_Header { stamp := { sec := 5, nsec := 7 }, data := [] } {}
        { clock := fun _ => 1700000000123456789 }).map (fun r => r.1.stamp) ≠
      some { sec := 5, nanosec := 7 } := by
  decide

/-- C5 (amended). When the wall clock reads at least 10^9 and below 2^31 * 10^9 ticks, the
B→A header conversion returns and the destination stamp is decided by the clock reading
alone: any two source headers, whatever their stamps, and any two destinations receive
the same stamp. The source stamp is not copied. -/
theorem convert_ign_to_ros_Header_stamp_from_clock (ign_msg ign_msg' : ignition.msgs.Header)
    (ros_msg ros_msg' : std_msgs.msg.Header) (env : Env)
    (hclock : 1000000000 ≤ env.clock env.reads ∧ env.clock env.reads < 2147483648000000000) :
    ∃ r r', convert_ign_to_ros_Header ign_msg ros_msg env =
        some (r, { env with reads := env.reads + 1 }) ∧
      convert_ign_to_ros_Header ign_msg' ros_msg' env =
        some (r', { env with reads := env.reads + 1 }) ∧
      r'.stamp = r.stamp := by
  obtain ⟨t, ht⟩ := convert_ign_to_ros_Header_stamp_some _ hclock
  obtain ⟨f, hf⟩ := convert_ign_to_ros_Header_loop_total ign_msg.data { ros_msg with stamp := t }
  obtain ⟨f', hf'⟩ :=
    convert_ign_to_ros_Header_loop_total ign_msg'.data { ros_msg' with stamp := t }
  refine ⟨{ stamp := t, frame_id := f }, { stamp := t, frame_id := f' }, ?_, ?_, rfl⟩
  · simp only [convert_ign_to_ros_Header, ht, hf]
  · simp only [convert_ign_to_ros_Header, ht, hf']

theorem convert_ign_to_ros_Header_stamp_from_clock_witness :
    ((1000000000 : Int) ≤ (fun _ : Nat => (1700000000123456789 : Int)) 0 ∧
      (fun _ : Nat => (1700000000123456789 : Int)) 0 < 2147483648000000000) ∧
    ∃ r r', convert_ign_to_ros_Header { stamp := { sec := 5, nsec := 7 }, data := [] } {}
        { clock := fun _ => 1700000000123456789 } =
        some (r, { clock := fun _ => 1700000000123456789, reads := 0 + 1 }) ∧
      convert_ign_to_ros_Header { stamp := { sec := 9, nsec := 1 }, data := [] }
        { stamp := { sec := 3, nanosec := 4 }, frame_id := [] }
        { clock := fun _ => 1700000000123456789 } =
        some (r', { clock := fun _ => 1700000000123456789, reads := 0 + 1 }) ∧
      r'.stamp = r.stamp :=
  ⟨by decide,
    convert_ign_to_ros_Header_stamp_from_clock { stamp := { sec := 5, nsec := 7 }, data := [] }
      { stamp := { sec := 9, nsec := 1 }, data := [] } {}
      { stamp := { sec := 3, nanosec := 4 }, frame_id := [] }
      { clock := fun _ => 1700000000123456789 } (by decide)⟩

theorem convert_ign_to_ros_Header_loop_last (p : ignition.msgs.Header.Map) (v : Str)
    (vs : List Str) (hk : p.key = "frame_id".toList) (hv : p.value = v :: vs) :
    ∀ (data : List ignition.msgs.Header.Map) (ros_msg : std_msgs.msg.Header),
      convert_ign_to_ros_Header_loop (data ++ [p]) ros_msg =
        some { ros_msg with frame_id := translate v "::".toList "/".toList } := by
  intro data
  induction data with
  | nil =>
    intro ros_msg
    have hp : p.key = "frame_id".toList ∧ 0 < p.value.length := ⟨hk, by simp [hv]⟩
    simp only [List.nil_append, convert_ign_to_ros_Header_loop, hp, and_self, dite_true,
      frame_id_ign_to_ros_eq]
    simp [hv]
  | cons aPair rest ih =>
    intro ros_msg
    simp only [List.cons_append, convert_ign_to_ros_Header_loop]
    split
    · simp only [frame_id_ign_to_ros_eq]
      exact ih _
    · exact ih ros_msg

/-- C6 (the code at the failing input). A source header holding two `"frame_id"` pairs,
the first with value `"a"` and the second with value `"b"`, gives the destination the
frame `"b"`, which is not `frame_id_ign_to_ros("a")`: the loop has no `break`, so the
last matching pair decides, not the first. -/
theorem convert_ign_to_ros_Header_last_frame_id_pair_wins :
    (convert_ign_to_ros_Header
        { data := [{ key := "frame_id".toList, value := ["a".toList] },
                   { key := "frame_id".toList, value := ["b".toList] }] } {}
        { clock := fun _ => 1700000000123456789 }).map (fun r => r.1.frame_id) =
      some "b".toList ∧
    (convert_ign_to_ros_Header
        { data := [{ key := "frame_id".toList, value := ["a".toList] },
                   { key := "frame_id".toList, value := ["b".toList] }] } {}
        { clock := fun _ => 1700000000123456789 }).map (fun r => r.1.frame_id) ≠
      frame_id_ign_to_ros "a".toList := by
  decide

/-- C7. When no pair of the source header has key `"frame_id"` together with a non-empty
value list, the B→A header conversion (wall clock reading at least 10^9 and below 2^31 *
10^9 ticks) returns with the destination frame as it was before the call, empty for a
default destination, and writes nothing to the diagnostic stream. -/
theorem convert_ign_to_ros_Header_no_frame_id (ign_msg : ignition.msgs.Header)
    (ros_msg : std_msgs.msg.Header) (env : Env)
    (hclock : 1000000000 ≤ env.clock env.reads ∧ env.clock env.reads < 2147483648000000000)
    (hno : ∀ p ∈ ign_msg.data, ¬ (p.key = "frame_id".toList ∧ p.value ≠ [])) :
    ∃ r env', convert_ign_to_ros_Header ign_msg ros_msg env = some (r, env') ∧
      r.frame_id = ros_msg.frame_id ∧ (ros_msg = {} → r.frame_id = []) ∧
      env'.cerr = env.cerr := by
  obtain ⟨t, ht⟩ := convert_ign_to_ros_Header_stamp_some _ hclock
  refine ⟨{ ros_msg with stamp := t }, { env with reads := env.reads + 1 }, ?_, rfl, ?_, rfl⟩
  · simp only [convert_ign_to_ros_Header, ht,
      convert_ign_to_ros_Header_loop_skip ign_msg.data _ hno]
  · intro h
    rw [h]

theorem convert_ign_to_ros_Header_no_frame_id_witness :
    ((1000000000 : Int) ≤ (fun _ : Nat => (1700000000123456789 : Int)) 0 ∧
      (fun _ : Nat => (1700000000123456789 : Int)) 0 < 2147483648000000000) ∧
    (∀ p ∈ ([{ key := "frame_id".toList, value := [] },
        { key := "other".toList, value := ["x".toList] }] : List ignition.msgs.Header.Map),
      ¬ (p.key = "frame_id".toList ∧ p.value ≠ [])) ∧
    ∃ r env', convert_ign_to_ros_Header
        { data := [{ key := "frame_id".toList, value := [] },
                   { key := "other".toList, value := ["x".toList] }] }
        { frame_id := "world".toList } { clock := fun _ => 1700000000123456789 } =
          some (r, env') ∧
      r.frame_id = "world".toList ∧
      (({ frame_id := "world".toList } : std_msgs.msg.Header) = {} → r.frame_id = []) ∧
      env'.cerr = [] :=
  ⟨by decide, by decide,
    convert_ign_to_ros_Header_no_frame_id
      { data := [{ key := "frame_id".toList, value := [] },
                 { key := "other".toList, value := ["x".toList] }] }
      { frame_id := "world".toList } { clock := fun _ => 1700000000123456789 }
      (by decide) (by decide)⟩

/-- C8. For a Domain-A header whose frame holds no `"::"`, encoding it into a default
Domain-B header and decoding that (wall clock reading at least 10^9 and below 2^31 * 10^9 ticks, any
destination) returns a header whose frame is the original string. -/
theorem header_frame_id_round_trip (h d : std_msgs.msg.Header) (env : Env)
    (hclock : 1000000000 ≤ env.clock env.reads ∧ env.clock env.reads < 2147483648000000000)
    (hno : ¬ "::".toList <:+: h.frame_id) :
    ∃ r env', convert_ign_to_ros_Header (convert_ros_to_ign_Header h {}) d env =
        some (r, env') ∧ r.frame_id = h.frame_id := by
  obtain ⟨t, ht⟩ := convert_ign_to_ros_Header_stamp_some _ hclock
  refine ⟨{ stamp := t, frame_id := h.frame_id }, { env with reads := env.reads + 1 }, ?_, rfl⟩
  have hdata : (convert_ros_to_ign_Header h {}).data =
      [{ key := "frame_id".toList, value := [h.frame_id] }] := by
    simp [convert_ros_to_ign_Header]
  simp [convert_ign_to_ros_Header, ht, hdata, convert_ign_to_ros_Header_loop,
    frame_id_ign_to_ros_no_delim _ hno]

theorem header_frame_id_round_trip_witness :
    ((1000000000 : Int) ≤ (fun _ : Nat => (1700000000123456789 : Int)) 0 ∧
      (fun _ : Nat => (1700000000123456789 : Int)) 0 < 2147483648000000000) ∧
    ¬ "::".toList <:+: "map/base_link".toList ∧
    ∃ r env', convert_ign_to_ros_Header
        (convert_ros_to_ign_Header { frame_id := "map/base_link".toList } {})
        { frame_id := "stale".toList } { clock := fun _ => 1700000000123456789 } =
          some (r, env') ∧
      r.frame_id = "map/base_link".toList :=
  ⟨by decide, by decide,
    header_frame_id_round_trip { frame_id := "map/base_link".toList }
      { frame_id := "stale".toList } { clock := fun _ => 1700000000123456789 }
      (by decide) (by decide)⟩

/-! ### Transforms -/

theorem convert_ros_to_ign_TransformStamped_header_data
    (t : geometry_msgs.msg.TransformStamped) (d : ignition.msgs.Pose) :
    (convert_ros_to_ign_TransformStamped t d).header.data =
      d.header.data ++ [{ key := "frame_id".toList, value := [t.header.frame_id] },
        { key := "child_frame_id".toList, value := [t.child_frame_id] }] := by
  simp [convert_ros_to_ign_TransformStamped, convert_ros_to_ign_Transform,
    convert_ros_to_ign_Header]

theorem convert_ign_to_ros_Transform_round_trip (t : geometry_msgs.msg.TransformStamped)
    (d : ignition.msgs.Pose) (r : geometry_msgs.msg.Transform) :
    convert_ign_to_ros_Transform (convert_ros_to_ign_TransformStamped t d) r = t.transform :=
  rfl

/-- C9. For a Domain-A TransformStamped whose `frame_id` and `child_frame_id` hold no
`"::"`, converting it into a default Domain-B pose and that pose back into a default
TransformStamped (wall clock reading at least 10^9 and below 2^31 * 10^9 ticks) returns
the same `frame_id`, the same `child_frame_id` and the same translation and rotation;
the `child_frame_id` travels as one header pair with key `"child_frame_id"`, after the
`"frame_id"` pair. -/
theorem transform_stamped_round_trip (t : geometry_msgs.msg.TransformStamped) (env : Env)
    (hclock : 1000000000 ≤ env.clock env.reads ∧ env.clock env.reads < 2147483648000000000)
    (hf : ¬ "::".toList <:+: t.header.frame_id)
    (hc : ¬ "::".toList <:+: t.child_frame_id) :
    (convert_ros_to_ign_TransformStamped t {}).header.data =
      [{ key := "frame_id".toList, value := [t.header.frame_id] },
        { key := "child_frame_id".toList, value := [t.child_frame_id] }] ∧
    ∃ r env', convert_ign_to_ros_TransformStamped
        (convert_ros_to_ign_TransformStamped t {}) {} env = some (r, env') ∧
      r.header.frame_id = t.header.frame_id ∧ r.child_frame_id = t.child_frame_id ∧
      r.transform.translation = t.transform.translation ∧
      r.transform.rotation = t.transform.rotation := by
  have hdata := convert_ros_to_ign_TransformStamped_header_data t {}
  simp only [show ({} : ignition.msgs.Pose).header.data = [] from rfl, List.nil_append] at hdata
  refine ⟨hdata, ?_⟩
  obtain ⟨s, hs⟩ := convert_ign_to_ros_Header_stamp_some _ hclock
  have hk : ¬ ("child_frame_id".toList = "frame_id".toList) := by decide
  have hk2 : ¬ ("frame_id".toList = "child_frame_id".toList) := by decide
  let r : geometry_msgs.msg.TransformStamped :=
    { t with header := { stamp := s, frame_id := t.header.frame_id } }
  refine ⟨r, { env with reads := env.reads + 1 }, ?_, rfl, rfl, rfl, rfl⟩
  simp only [convert_ign_to_ros_TransformStamped, convert_ign_to_ros_Header, hs, hdata,
    convert_ign_to_ros_Header_loop, convert_ign_to_ros_TransformStamped_loop,
    convert_ign_to_ros_Transform_round_trip, hk, hk2, false_and, dite_false, true_and,
    List.length_cons, List.length_nil, Nat.zero_add, Nat.lt_one_iff, dite_true, List.get,
    frame_id_ign_to_ros_no_delim _ hf, frame_id_ign_to_ros_no_delim _ hc, Nat.zero_lt_one,
    Nat.lt_add_one, and_self, List.nil_append, r]

theorem transform_stamped_round_trip_witness :
    ((1000000000 : Int) ≤ (fun _ : Nat => (1700000000123456789 : Int)) 0 ∧
      (fun _ : Nat => (1700000000123456789 : Int)) 0 < 2147483648000000000) ∧
    ¬ "::".toList <:+: "odom".toList ∧ ¬ "::".toList <:+: "base_link".toList ∧
    ((convert_ros_to_ign_TransformStamped
        { header := { frame_id := "odom".toList }, child_frame_id := "base_link".toList }
        {}).header.data =
      [{ key := "frame_id".toList, value := ["odom".toList] },
        { key := "child_frame_id".toList, value := ["base_link".toList] }] ∧
    ∃ r env', convert_ign_to_ros_TransformStamped
        (convert_ros_to_ign_TransformStamped
          { header := { frame_id := "odom".toList }, child_frame_id := "base_link".toList } {})
        {} { clock := fun _ => 1700000000123456789 } = some (r, env') ∧
      r.header.frame_id = "odom".toList ∧ r.child_frame_id = "base_link".toList ∧
      r.transform.translation = {} ∧ r.transform.rotation = {}) :=
  ⟨by decide, by decide, by decide,
    transform_stamped_round_trip
      { header := { frame_id := "odom".toList }, child_frame_id := "base_link".toList }
      { clock := fun _ => 1700000000123456789 } (by decide) (by decide) (by decide)⟩

/-! ### Messages whose fields match one to one -/

/-- C10. For Bool, String, UInt32, Int32, Float32, Float64, Vector3, Point, Quaternion,
Pose, Twist and Wrench, converting a Domain-A value to Domain-B and back returns the
value, field for field, whatever the two destinations held before. -/
theorem round_trip_ros_ign_ros :
    (∀ (x : std_msgs.msg.Bool) (d : ignition.msgs.Boolean) (r : std_msgs.msg.Bool),
      convert_ign_to_ros_Bool (convert_ros_to_ign_Bool x d) r = x) ∧
    (∀ (x : std_msgs.msg.String) (d : ignition.msgs.StringMsg) (r : std_msgs.msg.String),
      convert_ign_to_ros_String (convert_ros_to_ign_String x d) r = x) ∧
    (∀ (x : std_msgs.msg.UInt32) (d : ignition.msgs.UInt32) (r : std_msgs.msg.UInt32),
      convert_ign_to_ros_UInt32 (convert_ros_to_ign_UInt32 x d) r = x) ∧
    (∀ (x : std_msgs.msg.Int32) (d : ignition.msgs.Int32) (r : std_msgs.msg.Int32),
      convert_ign_to_ros_Int32 (convert_ros_to_ign_Int32 x d) r = x) ∧
    (∀ (x : std_msgs.msg.Float32) (d : ignition.msgs.Float) (r : std_msgs.msg.Float32),
      convert_ign_to_ros_Float32 (convert_ros_to_ign_Float32 x d) r = x) ∧
    (∀ (x : std_msgs.msg.Float64) (d : ignition.msgs.Double) (r : std_msgs.msg.Float64),
      convert_ign_to_ros_Float64 (convert_ros_to_ign_Float64 x d) r = x) ∧
    (∀ (x : geometry_msgs.msg.Vector3) (d : ignition.msgs.Vector3d)
        (r : geometry_msgs.msg.Vector3),
      convert_ign_to_ros_Vector3 (convert_ros_to_ign_Vector3 x d) r = x) ∧
    (∀ (x : geometry_msgs.msg.Point) (d : ignition.msgs.Vector3d)
        (r : geometry_msgs.msg.Point),
      convert_ign_to_ros_Point (convert_ros_to_ign_Point x d) r = x) ∧
    (∀ (x : geometry_msgs.msg.Quaternion) (d : ignition.msgs.Quaternion)
        (r : geometry_msgs.msg.Quaternion),
      convert_ign_to_ros_Quaternion (convert_ros_to_ign_Quaternion x d) r = x) ∧
    (∀ (x : geometry_msgs.msg.Pose) (d : ignition.msgs.Pose) (r : geometry_msgs.msg.Pose),
      convert_ign_to_ros_Pose (convert_ros_to_ign_Pose x d) r = x) ∧
    (∀ (x : geometry_msgs.msg.Twist) (d : ignition.msgs.Twist) (r : geometry_msgs.msg.Twist),
      convert_ign_to_ros_Twist (convert_ros_to_ign_Twist x d) r = x) ∧
    (∀ (x : geometry_msgs.msg.Wrench) (d : ignition.msgs.Wrench)
        (r : geometry_msgs.msg.Wrench),
      convert_ign_to_ros_Wrench (convert_ros_to_ign_Wrench x d) r = x) := by
  repeat' apply And.intro
  all_goals
    intro x d r
    rfl

/-! ### Entities -/

theorem Entity_kinds_cases {a b : Nat} (h : (a, b) ∈ Entity_kinds) :
    (a = 0 ∧ b = 0) ∨ (a = 1 ∧ b = 1) ∨ (a = 2 ∧ b = 2) ∨ (a = 3 ∧ b = 3) ∨
    (a = 4 ∧ b = 4) ∨ (a = 5 ∧ b = 5) ∨ (a = 6 ∧ b = 6) ∨ (a = 7 ∧ b = 7) := by
  simpa [Entity_kinds, ros_ign_interfaces.msg.Entity.NONE, ros_ign_interfaces.msg.Entity.LIGHT,
    ros_ign_interfaces.msg.Entity.MODEL, ros_ign_interfaces.msg.Entity.LINK,
    ros_ign_interfaces.msg.Entity.VISUAL, ros_ign_interfaces.msg.Entity.COLLISION,
    ros_ign_interfaces.msg.Entity.SENSOR, ros_ign_interfaces.msg.Entity.JOINT,
    ignition.msgs.Entity.NONE, ignition.msgs.Entity.LIGHT, ignition.msgs.Entity.MODEL,
    ignition.msgs.Entity.LINK, ignition.msgs.Entity.VISUAL, ignition.msgs.Entity.COLLISION,
    ignition.msgs.Entity.SENSOR, ignition.msgs.Entity.JOINT] using h

/-- C11. For a Domain-A entity whose type is one of NONE, LIGHT, MODEL, LINK, VISUAL,
COLLISION, SENSOR, JOINT, with `b` the Domain-B kind of the same name: the A→B
conversion sets the type `b` and copies `id` and `name`, the B→A conversion of any
entity of type `b` sets the original type back, converting to Domain-B and back returns
the original entity, and no diagnostic is written on the way. -/
theorem entity_round_trip (x : ros_ign_interfaces.msg.Entity) (d_ign : ignition.msgs.Entity)
    (d_ros : ros_ign_interfaces.msg.Entity) (env : Env) (b : Nat)
    (h : (x.type, b) ∈ Entity_kinds) :
    convert_ros_to_ign_Entity x d_ign env = ({ id := x.id, name := x.name, type := b }, env) ∧
    (∀ y : ignition.msgs.Entity, y.type = b →
      convert_ign_to_ros_Entity y d_ros env =
        ({ id := y.id, name := y.name, type := x.type }, env)) ∧
    convert_ign_to_ros_Entity (convert_ros_to_ign_Entity x d_ign env).1 d_ros
      (convert_ros_to_ign_Entity x d_ign env).2 = (x, env) := by
  obtain ⟨id, name, type⟩ := x
  have hc := Entity_kinds_cases h
  simp only at hc
  rcases hc with hk | hk | hk | hk | hk | hk | hk | hk <;>
  · obtain ⟨ha, hb⟩ := hk
    subst ha hb
    refine ⟨rfl, ?_, rfl⟩
    rintro ⟨yid, yname, ytype⟩ hy
    simp only at hy
    subst hy
    rfl

theorem entity_round_trip_witness :
    ((({ id := 7, name := "box".toList, type := ros_ign_interfaces.msg.Entity.LINK } :
        ros_ign_interfaces.msg.Entity).type, ignition.msgs.Entity.LINK) ∈ Entity_kinds) ∧
    (convert_ros_to_ign_Entity
        { id := 7, name := "box".toList, type := ros_ign_interfaces.msg.Entity.LINK } {}
        { clock := fun _ => 0 } =
      ({ id := 7, name := "box".toList, type := ignition.msgs.Entity.LINK },
        { clock := fun _ => 0 }) ∧
    (∀ y : ignition.msgs.Entity, y.type = ignition.msgs.Entity.LINK →
      convert_ign_to_ros_Entity y {} { clock := fun _ => 0 } =
        ({ id := y.id, name := y.name, type := ros_ign_interfaces.msg.Entity.LINK },
          { clock := fun _ => 0 })) ∧
    convert_ign_to_ros_Entity
      (convert_ros_to_ign_Entity
        { id := 7, name := "box".toList, type := ros_ign_interfaces.msg.Entity.LINK } {}
        { clock := fun _ => 0 }).1 {}
      (convert_ros_to_ign_Entity
        { id := 7, name := "box".toList, type := ros_ign_interfaces.msg.Entity.LINK } {}
        { clock := fun _ => 0 }).2 =
      ({ id := 7, name := "box".toList, type := ros_ign_interfaces.msg.Entity.LINK },
        { clock := fun _ => 0 })) :=
  ⟨by decide,
    entity_round_trip
      { id := 7, name := "box".toList, type := ros_ign_interfaces.msg.Entity.LINK } {} {}
      { clock := fun _ => 0 } ignition.msgs.Entity.LINK (by decide)⟩

/-- C12. For a Domain-A entity whose type is none of the mapped kinds, the A→B
conversion into a default Domain-B entity writes exactly one diagnostic, leaves the
destination type at its default `NONE`, and still copies `id` and `name`. -/
theorem entity_unsupported_type (x : ros_ign_interfaces.msg.Entity) (env : Env)
    (h : ∀ b, (x.type, b) ∉ Entity_kinds) :
    ∃ diagnostic,
      convert_ros_to_ign_Entity x {} env =
        ({ id := x.id, name := x.name, type := ignition.msgs.Entity.NONE },
          { env with cerr := env.cerr ++ [diagnostic] }) := by
  refine ⟨"Unsupported entity type [".toList ++ print_uint8 x.type ++ "]\n".toList, ?_⟩
  have e0 : ¬ x.type = 0 := fun e => h 0 (by rw [e]; decide)
  have e1 : ¬ x.type = 1 := fun e => h 1 (by rw [e]; decide)
  have e2 : ¬ x.type = 2 := fun e => h 2 (by rw [e]; decide)
  have e3 : ¬ x.type = 3 := fun e => h 3 (by rw [e]; decide)
  have e4 : ¬ x.type = 4 := fun e => h 4 (by rw [e]; decide)
  have e5 : ¬ x.type = 5 := fun e => h 5 (by rw [e]; decide)
  have e6 : ¬ x.type = 6 := fun e => h 6 (by rw [e]; decide)
  have e7 : ¬ x.type = 7 := fun e => h 7 (by rw [e]; decide)
  simp only [convert_ros_to_ign_Entity, ros_ign_interfaces.msg.Entity.NONE,
    ros_ign_interfaces.msg.Entity.LIGHT,
    ros_ign_interfaces.msg.Entity.MODEL, ros_ign_interfaces.msg.Entity.LINK,
    ros_ign_interfaces.msg.Entity.VISUAL, ros_ign_interfaces.msg.Entity.COLLISION,
    ros_ign_interfaces.msg.Entity.SENSOR, ros_ign_interfaces.msg.Entity.JOINT,
    e0, e1, e2, e3, e4, e5, e6, e7, if_false]
  rfl

theorem entity_unsupported_type_witness :
    (∀ b, ((({ id := 3, name := "a".toList, type := 9 } : ros_ign_interfaces.msg.Entity).type,
      b) ∉ Entity_kinds)) ∧
    ∃ diagnostic,
      convert_ros_to_ign_Entity { id := 3, name := "a".toList, type := 9 } {}
          { clock := fun _ => 0 } =
        ({ id := 3, name := "a".toList, type := ignition.msgs.Entity.NONE },
          { clock := fun _ => 0, reads := 0, cerr := [] ++ [diagnostic] }) :=
  ⟨by intro b; simp [Entity_kinds, ros_ign_interfaces.msg.Entity.NONE,
      ros_ign_interfaces.msg.Entity.LIGHT,
      ros_ign_interfaces.msg.Entity.MODEL, ros_ign_interfaces.msg.Entity.LINK,
      ros_ign_interfaces.msg.Entity.VISUAL, ros_ign_interfaces.msg.Entity.COLLISION,
      ros_ign_interfaces.msg.Entity.SENSOR, ros_ign_interfaces.msg.Entity.JOINT],
    entity_unsupported_type { id := 3, name := "a".toList, type := 9 }
      { clock := fun _ => 0 }
      (by intro b; simp [Entity_kinds, ros_ign_interfaces.msg.Entity.NONE,
        ros_ign_interfaces.msg.Entity.LIGHT,
        ros_ign_interfaces.msg.Entity.MODEL, ros_ign_interfaces.msg.Entity.LINK,
        ros_ign_interfaces.msg.Entity.VISUAL, ros_ign_interfaces.msg.Entity.COLLISION,
        ros_ign_interfaces.msg.Entity.SENSOR, ros_ign_interfaces.msg.Entity.JOINT])⟩

theorem convert_ign_to_ros_Header_returns (ign_msg : ignition.msgs.Header)
    (ros_msg : std_msgs.msg.Header) (env : Env)
    (hclock : 1000000000 ≤ env.clock env.reads ∧ env.clock env.reads < 2147483648000000000) :
    ∃ header, convert_ign_to_ros_Header ign_msg ros_msg env =
      some (header, { env with reads := env.reads + 1 }) := by
  obtain ⟨t, ht⟩ := convert_ign_to_ros_Header_stamp_some _ hclock
  obtain ⟨f, hf⟩ := convert_ign_to_ros_Header_loop_total ign_msg.data { ros_msg with stamp := t }
  exact ⟨{ stamp := t, frame_id := f }, by simp only [convert_ign_to_ros_Header, ht, hf]⟩

/-! ### Conversions between `float` and `double` -/

theorem battery_state_round_trip_example :
    double_to_float (float_to_double { bits := 0x41400000 }) = { bits := 0x41400000 } ∧
    float_to_double { bits := 0x41400000 } = { bits := 0x4028000000000000 } ∧
    double_to_float (float_to_double { bits := 0x7F800001 }) = { bits := 0x7FC00001 } ∧
    double_to_float quiet_NaN = { bits := 0x7FC00000 } := by
  decide

/-! ### Point clouds -/

/-- C14. For each of the eight point-field datatypes (INT8, UINT8, INT16, UINT16, INT32,
UINT32, FLOAT32, FLOAT64; `a` the Domain-A constant, `b` the Domain-B enumerator of the
same name), the A→B mapping sends `a` to `b`, the B→A mapping sends `b` to `a`, and so
each mapping followed by the other returns the original datatype. -/
theorem point_field_datatype_round_trip (a b : Nat) (h : (a, b) ∈ PointField_datatypes) :
    convert_ros_to_ign_PointCloud2_datatype a = b ∧
    convert_ign_to_ros_PointCloud2_datatype b = a ∧
    convert_ign_to_ros_PointCloud2_datatype (convert_ros_to_ign_PointCloud2_datatype a) = a ∧
    convert_ros_to_ign_PointCloud2_datatype (convert_ign_to_ros_PointCloud2_datatype b) = b := by
  have hall : ∀ p ∈ PointField_datatypes,
      convert_ros_to_ign_PointCloud2_datatype p.1 = p.2 ∧
      convert_ign_to_ros_PointCloud2_datatype p.2 = p.1 := by decide
  obtain ⟨h1, h2⟩ := hall (a, b) h
  simp only at h1 h2
  exact ⟨h1, h2, by rw [h1, h2], by rw [h2, h1]⟩

theorem point_field_datatype_round_trip_witness :
    ((sensor_msgs.msg.PointField.FLOAT32, ignition.msgs.PointCloudPacked.Field.FLOAT32) ∈
      PointField_datatypes) ∧
    (convert_ros_to_ign_PointCloud2_datatype sensor_msgs.msg.PointField.FLOAT32 =
      ignition.msgs.PointCloudPacked.Field.FLOAT32 ∧
    convert_ign_to_ros_PointCloud2_datatype ignition.msgs.PointCloudPacked.Field.FLOAT32 =
      sensor_msgs.msg.PointField.FLOAT32 ∧
    convert_ign_to_ros_PointCloud2_datatype
      (convert_ros_to_ign_PointCloud2_datatype sensor_msgs.msg.PointField.FLOAT32) =
      sensor_msgs.msg.PointField.FLOAT32 ∧
    convert_ros_to_ign_PointCloud2_datatype
      (convert_ign_to_ros_PointCloud2_datatype ignition.msgs.PointCloudPacked.Field.FLOAT32) =
      ignition.msgs.PointCloudPacked.Field.FLOAT32) :=
  ⟨by decide,
    point_field_datatype_round_trip sensor_msgs.msg.PointField.FLOAT32
      ignition.msgs.PointCloudPacked.Field.FLOAT32 (by decide)⟩

theorem resize_length {α : Type} (v : List α) (n : Nat) (fill : α) :
    (resize v n fill).length = n := by
  simp only [resize, List.length_append, List.length_take, List.length_replicate]
  omega

theorem memcpy_resize (dst src : List Nat) :
    memcpy (resize dst src.length 0) src src.length = src := by
  have h : (resize dst src.length 0).length ≤ src.length := by rw [resize_length]
  simp only [memcpy, List.take_length, List.drop_eq_nil_of_le h, List.append_nil]

theorem PointField_datatypes_ros_cases {a : Nat} (h : ∀ b, (a, b) ∉ PointField_datatypes) :
    a ≠ 1 ∧ a ≠ 2 ∧ a ≠ 3 ∧ a ≠ 4 ∧ a ≠ 5 ∧ a ≠ 6 ∧ a ≠ 7 ∧ a ≠ 8 :=
  ⟨fun e => h 0 (by rw [e]; decide), fun e => h 1 (by rw [e]; decide),
    fun e => h 2 (by rw [e]; decide), fun e => h 3 (by rw [e]; decide),
    fun e => h 4 (by rw [e]; decide), fun e => h 5 (by rw [e]; decide),
    fun e => h 6 (by rw [e]; decide), fun e => h 7 (by rw [e]; decide)⟩

theorem PointField_datatypes_ign_cases {b : Nat} (h : ∀ a, (a, b) ∉ PointField_datatypes) :
    b ≠ 0 ∧ b ≠ 1 ∧ b ≠ 2 ∧ b ≠ 3 ∧ b ≠ 4 ∧ b ≠ 5 ∧ b ≠ 6 ∧ b ≠ 7 :=
  ⟨fun e => h 1 (by rw [e]; decide), fun e => h 2 (by rw [e]; decide),
    fun e => h 3 (by rw [e]; decide), fun e => h 4 (by rw [e]; decide),
    fun e => h 5 (by rw [e]; decide), fun e => h 6 (by rw [e]; decide),
    fun e => h 7 (by rw [e]; decide), fun e => h 8 (by rw [e]; decide)⟩

/-- C15. For a point-field descriptor whose datatype is none of the eight known datatypes,
each direction of the point-cloud conversion still emits the descriptor, with name,
offset and count copied and the datatype INT8: the A→B converter, which has no write to
the diagnostic stream at all, appends one converted descriptor per source descriptor,
and so does the B→A converter (wall clock reading at least 10^9 and below 2^31 * 10^9
ticks), leaving the diagnostic stream as it was. -/
theorem point_field_unknown_datatype (ros_field : sensor_msgs.msg.PointField)
    (ign_field : ignition.msgs.PointCloudPacked.Field)
    (ros_msg d_ros : sensor_msgs.msg.PointCloud2)
    (ign_msg d_ign : ignition.msgs.PointCloudPacked) (env : Env)
    (hclock : 1000000000 ≤ env.clock env.reads ∧ env.clock env.reads < 2147483648000000000)
    (hr : ∀ b, (ros_field.datatype, b) ∉ PointField_datatypes)
    (hi : ∀ a, (a, ign_field.datatype) ∉ PointField_datatypes) :
    convert_ros_to_ign_PointCloud2_field ros_field =
      { name := ros_field.name, offset := ros_field.offset, count := ros_field.count,
        datatype := ignition.msgs.PointCloudPacked.Field.INT8 } ∧
    (convert_ros_to_ign_PointCloud2 ros_msg d_ign).field =
      d_ign.field ++ ros_msg.fields.map convert_ros_to_ign_PointCloud2_field ∧
    convert_ign_to_ros_PointCloud2_field ign_field =
      { name := ign_field.name, offset := ign_field.offset, count := ign_field.count,
        datatype := sensor_msgs.msg.PointField.INT8 } ∧
    ∃ r env', convert_ign_to_ros_PointCloud2 ign_msg d_ros env = some (r, env') ∧
      r.fields = d_ros.fields ++ ign_msg.field.map convert_ign_to_ros_PointCloud2_field ∧
      env'.cerr = env.cerr := by
  obtain ⟨a1, a2, a3, a4, a5, a6, a7, a8⟩ := PointField_datatypes_ros_cases hr
  obtain ⟨b0, b1, b2, b3, b4, b5, b6, b7⟩ := PointField_datatypes_ign_cases hi
  obtain ⟨hdr, hhdr⟩ := convert_ign_to_ros_Header_returns ign_msg.header d_ros.header env hclock
  refine ⟨?_, rfl, ?_, ?_⟩
  · simp [convert_ros_to_ign_PointCloud2_field, convert_ros_to_ign_PointCloud2_datatype,
      sensor_msgs.msg.PointField.INT8, sensor_msgs.msg.PointField.UINT8,
      sensor_msgs.msg.PointField.INT16, sensor_msgs.msg.PointField.UINT16,
      sensor_msgs.msg.PointField.INT32, sensor_msgs.msg.PointField.UINT32,
      sensor_msgs.msg.PointField.FLOAT32, sensor_msgs.msg.PointField.FLOAT64,
      a1, a2, a3, a4, a5, a6, a7, a8]
  · simp [convert_ign_to_ros_PointCloud2_field, convert_ign_to_ros_PointCloud2_datatype,
      ignition.msgs.PointCloudPacked.Field.INT8, ignition.msgs.PointCloudPacked.Field.UINT8,
      ignition.msgs.PointCloudPacked.Field.INT16, ignition.msgs.PointCloudPacked.Field.UINT16,
      ignition.msgs.PointCloudPacked.Field.INT32, ignition.msgs.PointCloudPacked.Field.UINT32,
      ignition.msgs.PointCloudPacked.Field.FLOAT32,
      ignition.msgs.PointCloudPacked.Field.FLOAT64, b0, b1, b2, b3, b4, b5, b6, b7]
  · simp only [convert_ign_to_ros_PointCloud2, hhdr]
    exact ⟨_, _, rfl, rfl, rfl⟩

theorem point_field_unknown_datatype_witness :
    ((1000000000 : Int) ≤ (fun _ : Nat => (1700000000123456789 : Int)) 0 ∧
      (fun _ : Nat => (1700000000123456789 : Int)) 0 < 2147483648000000000) ∧
    (∀ b, ((({ name := "x".toList, offset := 4, datatype := 200, count := 1 } :
      sensor_msgs.msg.PointField).datatype, b) ∉ PointField_datatypes)) ∧
    (∀ a, ((a, ({ name := "y".toList, offset := 8, datatype := 99, count := 2 } :
      ignition.msgs.PointCloudPacked.Field).datatype) ∉ PointField_datatypes)) ∧
    (convert_ros_to_ign_PointCloud2_field
        { name := "x".toList, offset := 4, datatype := 200, count := 1 } =
      { name := "x".toList, offset := 4, count := 1,
        datatype := ignition.msgs.PointCloudPacked.Field.INT8 } ∧
    (convert_ros_to_ign_PointCloud2
        { fields := [{ name := "x".toList, offset := 4, datatype := 200, count := 1 }] }
        {}).field =
      [] ++ [({ name := "x".toList, offset := 4, datatype := 200, count := 1 } :
        sensor_msgs.msg.PointField)].map convert_ros_to_ign_PointCloud2_field ∧
    convert_ign_to_ros_PointCloud2_field
        { name := "y".toList, offset := 8, datatype := 99, count := 2 } =
      { name := "y".toList, offset := 8, count := 2,
        datatype := sensor_msgs.msg.PointField.INT8 } ∧
    ∃ r env', convert_ign_to_ros_PointCloud2
        { field := [{ name := "y".toList, offset := 8, datatype := 99, count := 2 }] } {}
        { clock := fun _ => 1700000000123456789 } = some (r, env') ∧
      r.fields = [] ++ [({ name := "y".toList, offset := 8, datatype := 99, count := 2 } :
        ignition.msgs.PointCloudPacked.Field)].map convert_ign_to_ros_PointCloud2_field ∧
      env'.cerr = []) :=
  ⟨by decide, by intro b; simp [PointField_datatypes, sensor_msgs.msg.PointField.INT8,
      sensor_msgs.msg.PointField.UINT8,
      sensor_msgs.msg.PointField.INT16, sensor_msgs.msg.PointField.UINT16,
      sensor_msgs.msg.PointField.INT32, sensor_msgs.msg.PointField.UINT32,
      sensor_msgs.msg.PointField.FLOAT32, sensor_msgs.msg.PointField.FLOAT64],
    by intro a; simp [PointField_datatypes, ignition.msgs.PointCloudPacked.Field.INT8,
      ignition.msgs.PointCloudPacked.Field.UINT8,
      ignition.msgs.PointCloudPacked.Field.INT16, ignition.msgs.PointCloudPacked.Field.UINT16,
      ignition.msgs.PointCloudPacked.Field.INT32, ignition.msgs.PointCloudPacked.Field.UINT32,
      ignition.msgs.PointCloudPacked.Field.FLOAT32,
      ignition.msgs.PointCloudPacked.Field.FLOAT64],
    point_field_unknown_datatype
      { name := "x".toList, offset := 4, datatype := 200, count := 1 }
      { name := "y".toList, offset := 8, datatype := 99, count := 2 }
      { fields := [{ name := "x".toList, offset := 4, datatype := 200, count := 1 }] } {}
      { field := [{ name := "y".toList, offset := 8, datatype := 99, count := 2 }] } {}
      { clock := fun _ => 1700000000123456789 } (by decide)
      (by intro b; simp [PointField_datatypes, sensor_msgs.msg.PointField.INT8,
        sensor_msgs.msg.PointField.UINT8,
        sensor_msgs.msg.PointField.INT16, sensor_msgs.msg.PointField.UINT16,
        sensor_msgs.msg.PointField.INT32, sensor_msgs.msg.PointField.UINT32,
        sensor_msgs.msg.PointField.FLOAT32, sensor_msgs.msg.PointField.FLOAT64])
      (by intro a; simp [PointField_datatypes, ignition.msgs.PointCloudPacked.Field.INT8,
        ignition.msgs.PointCloudPacked.Field.UINT8,
        ignition.msgs.PointCloudPacked.Field.INT16,
        ignition.msgs.PointCloudPacked.Field.UINT16,
        ignition.msgs.PointCloudPacked.Field.INT32,
        ignition.msgs.PointCloudPacked.Field.UINT32,
        ignition.msgs.PointCloudPacked.Field.FLOAT32,
        ignition.msgs.PointCloudPacked.Field.FLOAT64])⟩

/-- C16. The A→B point-cloud conversion makes the destination buffer equal to the source
buffer byte for byte, so of the source buffer's length whatever `row_step` and `height`
declare, whatever the destination held; it copies `height`, `width`, `is_bigendian`,
`point_step`, `row_step` and `is_dense`; and into a default destination the descriptors
come out one per source descriptor, in source order, with the same name, offset and
count. -/
theorem point_cloud_buffer_copied (ros_msg : sensor_msgs.msg.PointCloud2)
    (ign_msg : ignition.msgs.PointCloudPacked) :
    (convert_ros_to_ign_PointCloud2 ros_msg ign_msg).data = ros_msg.data ∧
    (convert_ros_to_ign_PointCloud2 ros_msg ign_msg).data.length = ros_msg.data.length ∧
    (convert_ros_to_ign_PointCloud2 ros_msg ign_msg).height = ros_msg.height ∧
    (convert_ros_to_ign_PointCloud2 ros_msg ign_msg).width = ros_msg.width ∧
    (convert_ros_to_ign_PointCloud2 ros_msg ign_msg).is_bigendian = ros_msg.is_bigendian ∧
    (convert_ros_to_ign_PointCloud2 ros_msg ign_msg).point_step = ros_msg.point_step ∧
    (convert_ros_to_ign_PointCloud2 ros_msg ign_msg).row_step = ros_msg.row_step ∧
    (convert_ros_to_ign_PointCloud2 ros_msg ign_msg).is_dense = ros_msg.is_dense ∧
    (convert_ros_to_ign_PointCloud2 ros_msg {}).field.map
        (fun f => (f.name, f.offset, f.count)) =
      ros_msg.fields.map (fun f => (f.name, f.offset, f.count)) := by
  have hdata : (convert_ros_to_ign_PointCloud2 ros_msg ign_msg).data = ros_msg.data := by
    simp only [convert_ros_to_ign_PointCloud2, memcpy_resize]
  refine ⟨hdata, by rw [hdata], rfl, rfl, rfl, rfl, rfl, rfl, ?_⟩
  simp [convert_ros_to_ign_PointCloud2, convert_ros_to_ign_PointCloud2_field,
    Function.comp_def]

/-! ### Images -/

theorem std_copy_exact {α : Type} (src dst : List α) (first n : Nat)
    (hsrc : first + n ≤ src.length) (hdst : dst.length = n) :
    std_copy src first (first + n) dst = some ((src.drop first).take n) := by
  have h : first ≤ first + n ∧ first + n ≤ src.length ∧ first + n - first ≤ dst.length :=
    ⟨by omega, hsrc, by omega⟩
  have hdrop : dst.drop n = [] := List.drop_eq_nil_of_le (by omega)
  rw [std_copy, if_pos h, Nat.add_sub_cancel_left, hdrop, List.append_nil]

theorem Image_encodings_tables :
    ∀ p ∈ Image_encodings,
      (convert_ros_to_ign_Image_format p.1).map (fun t => t.2) = some p.2 ∧
      (convert_ros_to_ign_Image_format p.1).bind
        (fun t => convert_ign_to_ros_Image_format t.1) = some (p.1, p.2) := by
  decide

theorem convert_ros_to_ign_Image_format_of_mem {encoding : Str} {ch b : Nat}
    (h : (encoding, ch, b) ∈ Image_encodings) :
    ∃ fmt, convert_ros_to_ign_Image_format encoding = some (fmt, ch, b) ∧
      convert_ign_to_ros_Image_format fmt = some (encoding, ch, b) := by
  obtain ⟨h1, h2⟩ := Image_encodings_tables (encoding, ch, b) h
  simp only at h1 h2
  cases hf : convert_ros_to_ign_Image_format encoding with
  | none => simp [hf] at h1
  | some t =>
    obtain ⟨fmt, c, o⟩ := t
    simp only [hf, Option.map_some', Option.some.injEq, Prod.mk.injEq] at h1
    obtain ⟨rfl, rfl⟩ := h1
    simp only [hf, Option.some_bind] at h2
    exact ⟨fmt, rfl, h2⟩

theorem convert_ros_to_ign_Image_format_none {encoding : Str}
    (h : ∀ ch b, (encoding, ch, b) ∉ Image_encodings) :
    convert_ros_to_ign_Image_format encoding = none := by
  have e1 : ¬ encoding = "mono8".toList := fun e => h 1 1 (by rw [e]; decide)
  have e2 : ¬ encoding = "mono16".toList := fun e => h 1 2 (by rw [e]; decide)
  have e3 : ¬ encoding = "rgb8".toList := fun e => h 3 1 (by rw [e]; decide)
  have e4 : ¬ encoding = "rgba8".toList := fun e => h 4 1 (by rw [e]; decide)
  have e5 : ¬ encoding = "bgra8".toList := fun e => h 4 1 (by rw [e]; decide)
  have e6 : ¬ encoding = "rgb16".toList := fun e => h 3 2 (by rw [e]; decide)
  have e7 : ¬ encoding = "bgr8".toList := fun e => h 3 1 (by rw [e]; decide)
  have e8 : ¬ encoding = "bgr16".toList := fun e => h 3 2 (by rw [e]; decide)
  have e9 : ¬ encoding = "32FC1".toList := fun e => h 1 4 (by rw [e]; decide)
  simp only [convert_ros_to_ign_Image_format, e1, e2, e3, e4, e5, e6, e7, e8, e9, if_false]

/-- What `convert_ros_to_ign` does to an image with a recognized encoding, read on the
destination: no overflow of the two products and a source buffer long enough. -/
theorem convert_ros_to_ign_Image_recognized (ros_msg : sensor_msgs.msg.Image)
    (ign_msg : ignition.msgs.Image) (env : Env) (ch b : Nat)
    (hmem : (ros_msg.encoding, ch, b) ∈ Image_encodings)
    (hstep : ros_msg.width * ch * b < 2 ^ 32)
    (hsize : ros_msg.width * ch * b * ros_msg.height < 2 ^ 32)
    (hdata : ros_msg.width * ch * b * ros_msg.height ≤ ros_msg.data.length) :
    ∃ fmt, convert_ros_to_ign_Image_format ros_msg.encoding = some (fmt, ch, b) ∧
      convert_ign_to_ros_Image_format fmt = some (ros_msg.encoding, ch, b) ∧
      convert_ros_to_ign_Image ros_msg ign_msg env =
        some ({ header := convert_ros_to_ign_Header ros_msg.header ign_msg.header,
                width := ros_msg.width, height := ros_msg.height,
                step := ros_msg.width * ch * b,
                data := ros_msg.data.take (ros_msg.width * ch * b * ros_msg.height),
                pixel_format_type := fmt }, env) := by
  obtain ⟨fmt, hfmt, hback⟩ := convert_ros_to_ign_Image_format_of_mem hmem
  refine ⟨fmt, hfmt, hback, ?_⟩
  simp only [convert_ros_to_ign_Image, hfmt, Nat.mod_eq_of_lt hstep, Nat.mod_eq_of_lt hsize,
    hdata, if_true]

/-- C17. For an image whose encoding is one of the nine recognized ones, with the channel
count `ch` and the bytes per channel `b` listed for it, no 32-bit overflow in the two
products and a source buffer of at least `step × height` bytes, the A→B conversion
returns with the destination step `width × ch × b` and the destination buffer equal to
the first `step × height` bytes of the source buffer; for rgba8 with width 4 and height 2
the step is 16 and 32 bytes are copied. -/
theorem image_step_and_buffer (ros_msg : sensor_msgs.msg.Image)
    (ign_msg : ignition.msgs.Image) (env : Env) (ch b : Nat)
    (hmem : (ros_msg.encoding, ch, b) ∈ Image_encodings)
    (hstep : ros_msg.width * ch * b < 2 ^ 32)
    (hsize : ros_msg.width * ch * b * ros_msg.height < 2 ^ 32)
    (hdata : ros_msg.width * ch * b * ros_msg.height ≤ ros_msg.data.length) :
    (∃ r env', convert_ros_to_ign_Image ros_msg ign_msg env = some (r, env') ∧
      r.step = ros_msg.width * ch * b ∧
      r.data = ros_msg.data.take (r.step * ros_msg.height)) ∧
    (∀ (rgba : sensor_msgs.msg.Image) (d : ignition.msgs.Image) (e : Env),
      rgba.encoding = "rgba8".toList → rgba.width = 4 → rgba.height = 2 →
      32 ≤ rgba.data.length →
      ∃ r env', convert_ros_to_ign_Image rgba d e = some (r, env') ∧
        r.step = 16 ∧ r.data = rgba.data.take 32 ∧ r.data.length = 32) := by
  constructor
  · obtain ⟨fmt, _, _, h⟩ :=
      convert_ros_to_ign_Image_recognized ros_msg ign_msg env ch b hmem hstep hsize hdata
    exact ⟨_, _, h, rfl, rfl⟩
  · intro rgba d e henc hw hh hlen
    obtain ⟨fmt, _, _, h⟩ := convert_ros_to_ign_Image_recognized rgba d e 4 1
      (by rw [henc]; decide) (by rw [hw]; decide) (by rw [hw, hh]; decide)
      (by rw [hw, hh]; exact hlen)
    refine ⟨_, _, h, by simp only [hw], by simp only [hw, hh], ?_⟩
    simp only [hw, hh, List.length_take]
    omega

theorem image_step_and_buffer_witness :
    (("rgba8".toList, 4, 1) ∈ Image_encodings) ∧
    (4 * 4 * 1 < 2 ^ 32) ∧ (4 * 4 * 1 * 2 < 2 ^ 32) ∧
    (4 * 4 * 1 * 2 ≤ (List.replicate 40 7 : List Nat).length) ∧
    ((∃ r env', convert_ros_to_ign_Image
        { height := 2, width := 4, encoding := "rgba8".toList, data := List.replicate 40 7 }
        {} { clock := fun _ => 0 } = some (r, env') ∧
      r.step = 4 * 4 * 1 ∧
      r.data = (List.replicate 40 7 : List Nat).take (r.step * 2)) ∧
    (∀ (rgba : sensor_msgs.msg.Image) (d : ignition.msgs.Image) (e : Env),
      rgba.encoding = "rgba8".toList → rgba.width = 4 → rgba.height = 2 →
      32 ≤ rgba.data.length →
      ∃ r env', convert_ros_to_ign_Image rgba d e = some (r, env') ∧
        r.step = 16 ∧ r.data = rgba.data.take 32 ∧ r.data.length = 32)) :=
  ⟨by decide, by decide, by decide, by decide,
    image_step_and_buffer
      { height := 2, width := 4, encoding := "rgba8".toList, data := List.replicate 40 7 }
      {} { clock := fun _ => 0 } 4 1 (by decide) (by decide) (by decide) (by decide)⟩

/-- C18. For an image whose encoding is none of the nine recognized ones, the A→B
conversion into a default destination writes exactly one diagnostic, sets the pixel format
`UNKNOWN_PIXEL_FORMAT` and returns with the destination buffer still empty and the step
still at its default, while the header pair, the width and the height are set. -/
theorem image_unsupported_encoding (ros_msg : sensor_msgs.msg.Image) (env : Env)
    (h : ∀ ch b, (ros_msg.encoding, ch, b) ∉ Image_encodings) :
    ∃ r diagnostic, convert_ros_to_ign_Image ros_msg {} env =
        some (r, { env with cerr := env.cerr ++ [diagnostic] }) ∧
      r.pixel_format_type = ignition.msgs.PixelFormatType.UNKNOWN_PIXEL_FORMAT ∧
      r.data = [] ∧ r.step = 0 ∧
      r.header.data = [{ key := "frame_id".toList, value := [ros_msg.header.frame_id] }] ∧
      r.width = ros_msg.width ∧ r.height = ros_msg.height := by
  have hnone := convert_ros_to_ign_Image_format_none h
  simp only [convert_ros_to_ign_Image, hnone]
  exact ⟨_, _, rfl, rfl, rfl, rfl, by simp [convert_ros_to_ign_Header], rfl, rfl⟩

theorem image_unsupported_encoding_witness :
    (∀ ch b, ((({ height := 2, width := 3, encoding := "yuv422".toList } :
      sensor_msgs.msg.Image).encoding, ch, b) ∉ Image_encodings)) ∧
    ∃ r diagnostic, convert_ros_to_ign_Image
        { height := 2, width := 3, encoding := "yuv422".toList } {} { clock := fun _ => 0 } =
        some (r, { clock := fun _ => 0, reads := 0, cerr := [] ++ [diagnostic] }) ∧
      r.pixel_format_type = ignition.msgs.PixelFormatType.UNKNOWN_PIXEL_FORMAT ∧
      r.data = [] ∧ r.step = 0 ∧
      r.header.data = [{ key := "frame_id".toList, value := [[]] }] ∧
      r.width = 3 ∧ r.height = 2 :=
  ⟨by intro ch b; simp [Image_encodings],
    image_unsupported_encoding { height := 2, width := 3, encoding := "yuv422".toList }
      { clock := fun _ => 0 } (by intro ch b; simp [Image_encodings])⟩

theorem std_copy_front {α : Type} (src dst : List α) (n : Nat)
    (hsrc : n ≤ src.length) (hdst : dst.length = n) :
    std_copy src 0 n dst = some (src.take n) := by
  have h := std_copy_exact src dst 0 n (by omega) hdst
  simpa using h

theorem convert_ign_to_ros_Image_format_inverse (fmt : Nat) (e : Str) (c o : Nat)
    (h : convert_ign_to_ros_Image_format fmt = some (e, c, o)) :
    convert_ros_to_ign_Image_format e = some (fmt, c, o) := by
  simp only [convert_ign_to_ros_Image_format] at h
  split_ifs at h with h1 h2 h3 h4 h5 h6 h7 h8 h9 <;>
  · simp only [Option.some.injEq, Prod.mk.injEq] at h
    obtain ⟨rfl, rfl, rfl⟩ := h
    subst_vars
    decide

/-- C19. For a Domain-A image with one of the nine recognized encodings (channel count `ch`,
bytes per channel `b`), `is_bigendian` false, `step = width × ch × b` and a buffer of
`step × height` bytes (step and buffer length below 2^32), converting it into a default
Domain-B image and that into a default Domain-A image (wall clock reading at least 10^9
and below 2^31 * 10^9 ticks) returns the same encoding, width, height, step,
`is_bigendian` and buffer; the two pixel-format tables are inverse to each other and
agree on `ch` and `b`. -/
theorem image_round_trip (x : sensor_msgs.msg.Image) (env : Env) (ch b : Nat)
    (hclock : 1000000000 ≤ env.clock env.reads ∧ env.clock env.reads < 2147483648000000000)
    (hmem : (x.encoding, ch, b) ∈ Image_encodings)
    (hbe : x.is_bigendian = false)
    (hstep : x.step = x.width * ch * b)
    (hlen : x.data.length = x.step * x.height)
    (hstep32 : x.step < 2 ^ 32) (hlen32 : x.data.length < 2 ^ 32) :
    (∃ ign env1 r env2, convert_ros_to_ign_Image x {} env = some (ign, env1) ∧
      convert_ign_to_ros_Image ign {} env1 = some (r, env2) ∧
      r.encoding = x.encoding ∧ r.width = x.width ∧ r.height = x.height ∧
      r.step = x.step ∧ r.is_bigendian = x.is_bigendian ∧ r.data = x.data) ∧
    (∃ fmt, convert_ros_to_ign_Image_format x.encoding = some (fmt, ch, b) ∧
      convert_ign_to_ros_Image_format fmt = some (x.encoding, ch, b)) ∧
    (∀ fmt e c o, convert_ign_to_ros_Image_format fmt = some (e, c, o) →
      convert_ros_to_ign_Image_format e = some (fmt, c, o)) := by
  have h1 : x.width * ch * b < 2 ^ 32 := by rw [← hstep]; exact hstep32
  have h2 : x.width * ch * b * x.height < 2 ^ 32 := by rw [← hstep, ← hlen]; exact hlen32
  have h3 : x.width * ch * b * x.height ≤ x.data.length := by rw [← hstep, ← hlen]
  obtain ⟨fmt, hfwd, hback, hconv⟩ :=
    convert_ros_to_ign_Image_recognized x {} env ch b hmem h1 h2 h3
  refine ⟨?_, ⟨fmt, hfwd, hback⟩, convert_ign_to_ros_Image_format_inverse⟩
  obtain ⟨hdr, hhdr⟩ := convert_ign_to_ros_Header_returns
    (convert_ros_to_ign_Header x.header ({} : ignition.msgs.Image).header)
    ({} : sensor_msgs.msg.Image).header env hclock
  have htake : x.data.take (x.width * ch * b * x.height) = x.data :=
    List.take_of_length_le (by rw [← hstep, ← hlen])
  have hcopy : std_copy x.data 0 (x.width * ch * b * x.height)
      (resize ([] : List Nat) (x.width * ch * b * x.height) 0) = some x.data := by
    rw [std_copy_front _ _ _ h3 (resize_length _ _ _), htake]
  let r : sensor_msgs.msg.Image :=
    { header := hdr, height := x.height, width := x.width, encoding := x.encoding,
      is_bigendian := false, step := x.width * ch * b, data := x.data }
  refine ⟨_, _, r, { env with reads := env.reads + 1 }, hconv, ?_, rfl, rfl, rfl,
    hstep.symm, hbe.symm, rfl⟩
  simp only [convert_ign_to_ros_Image, hhdr, hback, htake, Nat.mod_eq_of_lt h1,
    Nat.mod_eq_of_lt h2, hcopy]

theorem image_round_trip_witness :
    ((1000000000 : Int) ≤ (fun _ : Nat => (1700000000123456789 : Int)) 0 ∧
      (fun _ : Nat => (1700000000123456789 : Int)) 0 < 2147483648000000000) ∧
    (("mono16".toList, 1, 2) ∈ Image_encodings) ∧ (false = false) ∧ (6 = 3 * 1 * 2) ∧
    ((List.replicate 12 9 : List Nat).length = 6 * 2) ∧ (6 < 2 ^ 32) ∧
    ((List.replicate 12 9 : List Nat).length < 2 ^ 32) ∧
    ((∃ ign env1 r env2, convert_ros_to_ign_Image
        { height := 2, width := 3, encoding := "mono16".toList, step := 6,
          data := List.replicate 12 9 } {} { clock := fun _ => 1700000000123456789 } =
          some (ign, env1) ∧
      convert_ign_to_ros_Image ign {} env1 = some (r, env2) ∧
      r.encoding = "mono16".toList ∧ r.width = 3 ∧ r.height = 2 ∧
      r.step = 6 ∧ r.is_bigendian = false ∧ r.data = List.replicate 12 9) ∧
    (∃ fmt, convert_ros_to_ign_Image_format "mono16".toList = some (fmt, 1, 2) ∧
      convert_ign_to_ros_Image_format fmt = some ("mono16".toList, 1, 2)) ∧
    (∀ fmt e c o, convert_ign_to_ros_Image_format fmt = some (e, c, o) →
      convert_ros_to_ign_Image_format e = some (fmt, c, o))) :=
  ⟨by decide, by decide, rfl, by decide, by decide, by decide, by decide,
    image_round_trip
      { height := 2, width := 3, encoding := "mono16".toList, step := 6,
        data := List.replicate 12 9 }
      { clock := fun _ => 1700000000123456789 } 1 2 (by decide) (by decide) rfl (by decide)
      (by decide) (by decide) (by decide)⟩

/-! ### Laser scans -/

theorem double_to_float_zero : double_to_float double_zero = float_zero := by
  decide

theorem std_copy_convert_exact {α β : Type} (convert : α → β) (src : List α) (dst : List β)
    (first n : Nat) (hsrc : first + n ≤ src.length) (hdst : dst.length = n) :
    std_copy_convert convert src first (first + n) dst =
      some (((src.drop first).take n).map convert) := by
  unfold std_copy_convert
  rw [std_copy_exact (src.map convert) dst first n (by rw [List.length_map]; exact hsrc) hdst,
    List.map_take, List.map_drop]

theorem std_copy_convert_none {α β : Type} (convert : α → β) (src : List α) (dst : List β)
    (first last : Nat) (h : ¬ last ≤ src.length) :
    std_copy_convert convert src first last dst = none := by
  simp only [std_copy_convert, std_copy, List.length_map, h, false_and, and_false, if_false]

/-- What `convert_ign_to_ros` does to a laser scan whose two sequences hold the middle
layer, read on the destination. -/
theorem convert_ign_to_ros_LaserScan_slice (ign_msg : ignition.msgs.LaserScan)
    (ros_msg : sensor_msgs.msg.LaserScan) (env : Env)
    (hclock : 1000000000 ≤ env.clock env.reads ∧ env.clock env.reads < 2147483648000000000)
    (hranges : ign_msg.vertical_count / 2 * ign_msg.count + ign_msg.count ≤
      ign_msg.ranges.length)
    (hintensities : ign_msg.vertical_count / 2 * ign_msg.count + ign_msg.count ≤
      ign_msg.intensities.length)
    (hfit : ign_msg.ranges.length < 2 ^ 32) :
    ∃ r env', convert_ign_to_ros_LaserScan ign_msg ros_msg env = some (r, env') ∧
      r.ranges = ((ign_msg.ranges.drop (ign_msg.vertical_count / 2 * ign_msg.count)).take
        ign_msg.count).map double_to_float ∧
      r.intensities =
        ((ign_msg.intensities.drop (ign_msg.vertical_count / 2 * ign_msg.count)).take
          ign_msg.count).map double_to_float ∧
      r.time_increment = float_zero ∧ r.scan_time = float_zero := by
  obtain ⟨hdr, hhdr⟩ := convert_ign_to_ros_Header_returns ign_msg.header ros_msg.header env hclock
  have hstart : ign_msg.vertical_count / 2 * ign_msg.count % 2 ^ 32 =
      ign_msg.vertical_count / 2 * ign_msg.count :=
    Nat.mod_eq_of_lt (Nat.lt_of_le_of_lt (Nat.le_trans (Nat.le_add_right _ _) hranges) hfit)
  have hr := std_copy_convert_exact double_to_float ign_msg.ranges
    (resize ros_msg.ranges ign_msg.count float_zero)
    (ign_msg.vertical_count / 2 * ign_msg.count) ign_msg.count hranges (resize_length _ _ _)
  have hi := std_copy_convert_exact double_to_float ign_msg.intensities
    (resize ros_msg.intensities ign_msg.count float_zero)
    (ign_msg.vertical_count / 2 * ign_msg.count) ign_msg.count hintensities
    (resize_length _ _ _)
  simp only [convert_ign_to_ros_LaserScan, hhdr, frame_id_ign_to_ros_eq, hstart, hr, hi,
    double_to_float_zero]
  exact ⟨_, _, rfl, rfl, rfl, rfl, rfl⟩

set_option maxRecDepth 4000 in
/-- C20 (the claim fails). A Domain-B laser scan with `v = 3`, `c = 5` and 15 ranges and
intensities that all hold the `double` nearest to 0.1: the B→A conversion returns five
ranges that each hold the `float` nearest to 0.1, whose value, written as a `double`, is
not the value of the source elements: the result is not equal to the source slice. -/
theorem laser_scan_middle_layer_narrowed :
    (convert_ign_to_ros_LaserScan
        { count := 5, vertical_count := 3,
          ranges := List.replicate 15 { bits := 0x3FB999999999999A },
          intensities := List.replicate 15 { bits := 0x3FB999999999999A } }
        {} { clock := fun _ => 1700000000123456789 }).map (fun r => r.1.ranges) =
      some (List.replicate 5 { bits := 0x3DCCCCCD }) ∧
    (List.replicate 5 ({ bits := 0x3DCCCCCD } : float)).map float_to_double =
      List.replicate 5 { bits := 0x3FB99999A0000000 } ∧
    List.replicate 5 ({ bits := 0x3FB99999A0000000 } : double) ≠
      ((List.replicate 15 ({ bits := 0x3FB999999999999A } : double)).drop (3 / 2 * 5)).take
        5 := by
  decide

/-- C20 (amended). For a Domain-B laser scan with horizontal count `c` and vertical count
`v` whose ranges and intensities each hold at least `(v / 2) × c + c` elements (and fewer
than 2^32), the B→A conversion (wall clock reading at least 10^9 and below 2^31 * 10^9
ticks) returns ranges and intensities of length exactly `c`, whose elements are those of
the source slice `[start, start + c)` with `start = (v / 2) × c`, each converted from
`double` to `float`, and sets `time_increment` and `scan_time` to zero; with `v = 3` and
`c = 5` on 15-element sequences the slice is `[5, 10)`. -/
theorem laser_scan_middle_layer (ign_msg : ignition.msgs.LaserScan)
    (ros_msg : sensor_msgs.msg.LaserScan) (env : Env)
    (hclock : 1000000000 ≤ env.clock env.reads ∧ env.clock env.reads < 2147483648000000000)
    (hranges : ign_msg.vertical_count / 2 * ign_msg.count + ign_msg.count ≤
      ign_msg.ranges.length)
    (hintensities : ign_msg.vertical_count / 2 * ign_msg.count + ign_msg.count ≤
      ign_msg.intensities.length)
    (hfit : ign_msg.ranges.length < 2 ^ 32) :
    (∃ r env', convert_ign_to_ros_LaserScan ign_msg ros_msg env = some (r, env') ∧
      r.ranges = ((ign_msg.ranges.drop (ign_msg.vertical_count / 2 * ign_msg.count)).take
        ign_msg.count).map double_to_float ∧
      r.ranges.length = ign_msg.count ∧
      r.intensities =
        ((ign_msg.intensities.drop (ign_msg.vertical_count / 2 * ign_msg.count)).take
          ign_msg.count).map double_to_float ∧
      r.intensities.length = ign_msg.count ∧
      r.time_increment = float_zero ∧ r.scan_time = float_zero) ∧
    (∀ (scan : ignition.msgs.LaserScan) (d : sensor_msgs.msg.LaserScan) (e : Env),
      (1000000000 ≤ e.clock e.reads ∧ e.clock e.reads < 2147483648000000000) →
      scan.vertical_count = 3 → scan.count = 5 →
      scan.ranges.length = 15 → scan.intensities.length = 15 →
      ∃ r env', convert_ign_to_ros_LaserScan scan d e = some (r, env') ∧
        r.ranges = ((scan.ranges.drop 5).take 5).map double_to_float ∧
        r.intensities = ((scan.intensities.drop 5).take 5).map double_to_float) := by
  constructor
  · obtain ⟨r, env', hconv, hr, hi, ht, hs⟩ :=
      convert_ign_to_ros_LaserScan_slice ign_msg ros_msg env hclock hranges hintensities hfit
    refine ⟨r, env', hconv, hr, ?_, hi, ?_, ht, hs⟩
    · rw [hr, List.length_map, List.length_take, List.length_drop]
      omega
    · rw [hi, List.length_map, List.length_take, List.length_drop]
      omega
  · intro scan d e hc hv hcount hrl hil
    obtain ⟨r, env', hconv, hr, hi, _, _⟩ :=
      convert_ign_to_ros_LaserScan_slice scan d e hc (by rw [hv, hcount, hrl]; decide)
        (by rw [hv, hcount, hil]; decide) (by rw [hrl]; decide)
    rw [hv, hcount] at hr hi
    exact ⟨r, env', hconv, hr, hi⟩

theorem laser_scan_middle_layer_witness :
    ((1000000000 : Int) ≤ (fun _ : Nat => (1700000000123456789 : Int)) 0 ∧
      (fun _ : Nat => (1700000000123456789 : Int)) 0 < 2147483648000000000) ∧
    (3 / 2 * 5 + 5 ≤ (List.replicate 15 ({ bits := 0x3FB999999999999A } : double)).length) ∧
    (3 / 2 * 5 + 5 ≤ (List.replicate 15 ({ bits := 0x3FB999999999999A } : double)).length) ∧
    ((List.replicate 15 ({ bits := 0x3FB999999999999A } : double)).length < 2 ^ 32) ∧
    ((∃ r env', convert_ign_to_ros_LaserScan
        { count := 5, vertical_count := 3,
          ranges := List.replicate 15 { bits := 0x3FB999999999999A },
          intensities := List.replicate 15 { bits := 0x3FB999999999999A } }
        {} { clock := fun _ => 1700000000123456789 } = some (r, env') ∧
      r.ranges = (((List.replicate 15 ({ bits := 0x3FB999999999999A } : double)).drop
        (3 / 2 * 5)).take 5).map double_to_float ∧
      r.ranges.length = 5 ∧
      r.intensities = (((List.replicate 15 ({ bits := 0x3FB999999999999A } : double)).drop
        (3 / 2 * 5)).take 5).map double_to_float ∧
      r.intensities.length = 5 ∧
      r.time_increment = float_zero ∧ r.scan_time = float_zero) ∧
    (∀ (scan : ignition.msgs.LaserScan) (d : sensor_msgs.msg.LaserScan) (e : Env),
      (1000000000 ≤ e.clock e.reads ∧ e.clock e.reads < 2147483648000000000) →
      scan.vertical_count = 3 → scan.count = 5 →
      scan.ranges.length = 15 → scan.intensities.length = 15 →
      ∃ r env', convert_ign_to_ros_LaserScan scan d e = some (r, env') ∧
        r.ranges = ((scan.ranges.drop 5).take 5).map double_to_float ∧
        r.intensities = ((scan.intensities.drop 5).take 5).map double_to_float)) :=
  ⟨by decide, by decide, by decide, by decide,
    laser_scan_middle_layer
      { count := 5, vertical_count := 3,
        ranges := List.replicate 15 { bits := 0x3FB999999999999A },
        intensities := List.replicate 15 { bits := 0x3FB999999999999A } }
      {} { clock := fun _ => 1700000000123456789 } (by decide) (by decide) (by decide)
      (by decide)⟩

/-! ### The stamp of a decoded header -/

/-- When the clock reads at least 10^18 ns (from September 2001 on) and less than
`2^31 * 10^9` ns (until January 2038), the stamp written by the B→A header conversion
denotes the clock reading: then `secs` exceeds every remainder below 10^9, and
`nanosecs % secs` is `nanosecs % 10^9`. -/
theorem convert_ign_to_ros_Header_stamp_late_clock (n : Int) (h : 1000000000000000000 ≤ n)
    (h32 : n < 2147483648000000000) :
    convert_ign_to_ros_Header_stamp n =
      some { sec := n / 1000000000, nanosec := n % 1000000000 } := by
  have hdiv : Int.tdiv n 1000000000 = n / 1000000000 := Int.tdiv_eq_ediv (by omega) (by omega)
  have hs : 1000000000 ≤ n / 1000000000 := by omega
  have hr0 : 0 ≤ n % 1000000000 := by omega
  have hr1 : n % 1000000000 < 1000000000 := by omega
  have hn : n = n % 1000000000 + 1000000000 * (n / 1000000000) := by omega
  have hmod : Int.tmod n (n / 1000000000) = n % 1000000000 := by
    have key : ∀ s r : Int, n = r + 1000000000 * s → 0 ≤ r → r < s → n % s = r := by
      intro s r hsr h0 h1
      rw [hsr, Int.add_mul_emod_self]
      exact Int.emod_eq_of_lt h0 h1
    rw [Int.tmod_eq_emod (by omega) (by omega)]
    exact key _ _ hn hr0 (by omega)
  have hi : to_int32 (n / 1000000000) = n / 1000000000 :=
    to_int32_of_range _ (by omega) (by omega)
  have hu : to_uint32 (n % 1000000000) = n % 1000000000 :=
    to_uint32_of_range _ (by omega) (by omega)
  simp only [convert_ign_to_ros_Header_stamp, system_clock_period_num, system_clock_period_den,
    Int.mul_one, hdiv, hmod, rclcpp_Time, hi, hu]
  have h1 : Int.tdiv (n / 1000000000 * 1000000000 + n % 1000000000) 1000000000 =
      n / 1000000000 := by
    rw [Int.tdiv_eq_ediv (by omega) (by omega)]
    omega
  have h2 : Int.tmod (n / 1000000000 * 1000000000 + n % 1000000000) 1000000000 =
      n % 1000000000 := by
    rw [Int.tmod_eq_emod (by omega) (by omega)]
    omega
  rw [if_neg (by omega), if_neg (by omega), h1, h2, if_pos hr0, hi, hu]

/-- C27 (the code at the failing input). With the clock reading 2000000003 ns the B→A
header conversion writes the stamp (2 s, 1 ns), since `nanosecs % secs` is
`2000000003 % 2 = 1`; the clock reading denotes (2 s, 3 ns). -/
theorem convert_ign_to_ros_Header_stamp_wrong_remainder :
    convert_ign_to_ros_Header_stamp 2000000003 = some { sec := 2, nanosec := 1 } ∧
    (convert_ign_to_ros_Header {} {} { clock := fun _ => 2000000003 }).map
      (fun r => r.1.stamp) = some { sec := 2, nanosec := 1 } ∧
    (2000000003 : Int) / 1000000000 = 2 ∧ (2000000003 : Int) % 1000000000 = 3 := by
  decide

/-! ### A reused destination pose -/

theorem convert_ign_to_ros_TransformStamped_loop_skip_frame_id (value : List Str)
    (rest : List ignition.msgs.Header.Map) (child_frame_id : Str) :
    convert_ign_to_ros_TransformStamped_loop
      ({ key := "frame_id".toList, value := value } :: rest) child_frame_id =
      convert_ign_to_ros_TransformStamped_loop rest child_frame_id := by
  have hk : ¬ ("frame_id".toList = "child_frame_id".toList) := by decide
  simp only [convert_ign_to_ros_TransformStamped_loop, hk, false_and, dite_false]

theorem convert_ign_to_ros_TransformStamped_loop_first (value : Str)
    (rest : List ignition.msgs.Header.Map) (child_frame_id : Str) :
    convert_ign_to_ros_TransformStamped_loop
      ({ key := "child_frame_id".toList, value := [value] } :: rest) child_frame_id =
      frame_id_ign_to_ros value := by
  simp [convert_ign_to_ros_TransformStamped_loop]

/-- C28 (the claim fails). Converting a transform with frames (`a`, child `b`) and then
one with frames (`c`, child `d`) into the same pose and decoding that pose yields
`frame_id = "c"` but `child_frame_id = "b"`, the child frame of the first transform. -/
theorem transform_stamped_reused_destination_stale_child :
    (convert_ign_to_ros_TransformStamped
        (convert_ros_to_ign_TransformStamped
          { header := { frame_id := "c".toList }, child_frame_id := "d".toList }
          (convert_ros_to_ign_TransformStamped
            { header := { frame_id := "a".toList }, child_frame_id := "b".toList } {}))
        {} { clock := fun _ => 1700000000123456789 }).map
      (fun r => (r.1.header.frame_id, r.1.child_frame_id)) =
      some ("c".toList, "b".toList) ∧
    (convert_ign_to_ros_TransformStamped
        (convert_ros_to_ign_TransformStamped
          { header := { frame_id := "c".toList }, child_frame_id := "d".toList }
          (convert_ros_to_ign_TransformStamped
            { header := { frame_id := "a".toList }, child_frame_id := "b".toList } {}))
        {} { clock := fun _ => 1700000000123456789 }).map
      (fun r => (r.1.header.frame_id, r.1.child_frame_id)) ≠
      some ("c".toList, "d".toList) := by
  decide

/-- C28 (amended). Converting `t1` and then `t2` into the same pose leaves the header
with the four pairs `frame_id` of `t1`, `child_frame_id` of `t1`, `frame_id` of `t2`,
`child_frame_id` of `t2`, in that order: nothing is cleared. Decoding that pose (wall
clock reading at least 10^9 and below 2^31 * 10^9 ticks, `t1.child_frame_id` without `"::"`) returns
`child_frame_id = t1.child_frame_id`, the value of the first such pair. -/
theorem transform_stamped_reused_destination (t1 t2 : geometry_msgs.msg.TransformStamped)
    (env : Env)
    (hclock : 1000000000 ≤ env.clock env.reads ∧ env.clock env.reads < 2147483648000000000)
    (hc : ¬ "::".toList <:+: t1.child_frame_id) :
    (convert_ros_to_ign_TransformStamped t2
        (convert_ros_to_ign_TransformStamped t1 {})).header.data =
      [{ key := "frame_id".toList, value := [t1.header.frame_id] },
       { key := "child_frame_id".toList, value := [t1.child_frame_id] },
       { key := "frame_id".toList, value := [t2.header.frame_id] },
       { key := "child_frame_id".toList, value := [t2.child_frame_id] }] ∧
    ∃ r env', convert_ign_to_ros_TransformStamped
        (convert_ros_to_ign_TransformStamped t2 (convert_ros_to_ign_TransformStamped t1 {}))
        {} env = some (r, env') ∧
      r.child_frame_id = t1.child_frame_id := by
  have hdata : (convert_ros_to_ign_TransformStamped t2
      (convert_ros_to_ign_TransformStamped t1 {})).header.data =
      [{ key := "frame_id".toList, value := [t1.header.frame_id] },
       { key := "child_frame_id".toList, value := [t1.child_frame_id] },
       { key := "frame_id".toList, value := [t2.header.frame_id] },
       { key := "child_frame_id".toList, value := [t2.child_frame_id] }] := by
    rw [convert_ros_to_ign_TransformStamped_header_data,
      convert_ros_to_ign_TransformStamped_header_data]
    rfl
  refine ⟨hdata, ?_⟩
  obtain ⟨hdr, hhdr⟩ := convert_ign_to_ros_Header_returns
    (convert_ros_to_ign_TransformStamped t2
      (convert_ros_to_ign_TransformStamped t1 {})).header
    ({} : geometry_msgs.msg.TransformStamped).header env hclock
  simp only [convert_ign_to_ros_TransformStamped, hhdr, hdata,
    convert_ign_to_ros_TransformStamped_loop_skip_frame_id,
    convert_ign_to_ros_TransformStamped_loop_first, frame_id_ign_to_ros_no_delim _ hc]
  exact ⟨_, _, rfl, rfl⟩

theorem transform_stamped_reused_destination_witness :
    ((1000000000 : Int) ≤ (fun _ : Nat => (1700000000123456789 : Int)) 0 ∧
      (fun _ : Nat => (1700000000123456789 : Int)) 0 < 2147483648000000000) ∧
    ¬ "::".toList <:+: "b".toList ∧
    ((convert_ros_to_ign_TransformStamped
        { header := { frame_id := "c".toList }, child_frame_id := "d".toList }
        (convert_ros_to_ign_TransformStamped
          { header := { frame_id := "a".toList }, child_frame_id := "b".toList }
          {})).header.data =
      [{ key := "frame_id".toList, value := ["a".toList] },
       { key := "child_frame_id".toList, value := ["b".toList] },
       { key := "frame_id".toList, value := ["c".toList] },
       { key := "child_frame_id".toList, value := ["d".toList] }] ∧
    ∃ r env', convert_ign_to_ros_TransformStamped
        (convert_ros_to_ign_TransformStamped
          { header := { frame_id := "c".toList }, child_frame_id := "d".toList }
          (convert_ros_to_ign_TransformStamped
            { header := { frame_id := "a".toList }, child_frame_id := "b".toList } {}))
        {} { clock := fun _ => 1700000000123456789 } = some (r, env') ∧
      r.child_frame_id = "b".toList) :=
  ⟨by decide, by decide,
    transform_stamped_reused_destination
      { header := { frame_id := "a".toList }, child_frame_id := "b".toList }
      { header := { frame_id := "c".toList }, child_frame_id := "d".toList }
      { clock := fun _ => 1700000000123456789 } (by decide) (by decide)⟩

/-! ### The bounds of the middle layer -/

theorem middle_layer_within (v c : Nat) (hv : 1 ≤ v) : v / 2 * c + c ≤ v * c := by
  have h : v / 2 + 1 ≤ v := by omega
  calc v / 2 * c + c = (v / 2 + 1) * c := by rw [Nat.add_mul, Nat.one_mul]
    _ ≤ v * c := Nat.mul_le_mul_right c h

/-- The B→A laser-scan conversion returns exactly when the slice it reads lies within both
source sequences (no overflow in `start`, clock reading at least 10^9 and below 2^31 *
10^9 ticks). -/
theorem convert_ign_to_ros_LaserScan_returns_iff (ign_msg : ignition.msgs.LaserScan)
    (ros_msg : sensor_msgs.msg.LaserScan) (env : Env)
    (hclock : 1000000000 ≤ env.clock env.reads ∧ env.clock env.reads < 2147483648000000000)
    (h32 : ign_msg.vertical_count / 2 * ign_msg.count < 2 ^ 32) :
    (∃ r env', convert_ign_to_ros_LaserScan ign_msg ros_msg env = some (r, env')) ↔
      (ign_msg.vertical_count / 2 * ign_msg.count + ign_msg.count ≤ ign_msg.ranges.length ∧
        ign_msg.vertical_count / 2 * ign_msg.count + ign_msg.count ≤
          ign_msg.intensities.length) := by
  obtain ⟨hdr, hhdr⟩ := convert_ign_to_ros_Header_returns ign_msg.header ros_msg.header env hclock
  have hstart : ign_msg.vertical_count / 2 * ign_msg.count % 2 ^ 32 =
      ign_msg.vertical_count / 2 * ign_msg.count := Nat.mod_eq_of_lt h32
  constructor
  · rintro ⟨r, env', h⟩
    simp only [convert_ign_to_ros_LaserScan, hhdr, frame_id_ign_to_ros_eq, hstart] at h
    by_contra hne
    have hcases : ¬ (ign_msg.vertical_count / 2 * ign_msg.count + ign_msg.count ≤
        ign_msg.ranges.length) ∨
        ¬ (ign_msg.vertical_count / 2 * ign_msg.count + ign_msg.count ≤
          ign_msg.intensities.length) := by
      by_cases h1 : ign_msg.vertical_count / 2 * ign_msg.count + ign_msg.count ≤
        ign_msg.ranges.length
      · exact Or.inr (fun h2 => hne ⟨h1, h2⟩)
      · exact Or.inl h1
    rcases hcases with h1 | h2
    · have hnone := std_copy_convert_none double_to_float ign_msg.ranges
        (resize ros_msg.ranges ign_msg.count float_zero)
        (ign_msg.vertical_count / 2 * ign_msg.count)
        (ign_msg.vertical_count / 2 * ign_msg.count + ign_msg.count) h1
      simp only [hnone] at h
      exact absurd h (by simp)
    · have hnone := std_copy_convert_none double_to_float ign_msg.intensities
        (resize ros_msg.intensities ign_msg.count float_zero)
        (ign_msg.vertical_count / 2 * ign_msg.count)
        (ign_msg.vertical_count / 2 * ign_msg.count + ign_msg.count) h2
      simp only [hnone] at h
      split at h <;> exact absurd h (by simp)
  · rintro ⟨h1, h2⟩
    have hr := std_copy_convert_exact double_to_float ign_msg.ranges
      (resize ros_msg.ranges ign_msg.count float_zero)
      (ign_msg.vertical_count / 2 * ign_msg.count) ign_msg.count h1 (resize_length _ _ _)
    have hi := std_copy_convert_exact double_to_float ign_msg.intensities
      (resize ros_msg.intensities ign_msg.count float_zero)
      (ign_msg.vertical_count / 2 * ign_msg.count) ign_msg.count h2 (resize_length _ _ _)
    simp only [convert_ign_to_ros_LaserScan, hhdr, frame_id_ign_to_ros_eq, hstart, hr, hi]
    exact ⟨_, _, rfl⟩

/-- C30. For a Domain-B laser scan with vertical count `v ≥ 1` and horizontal count `c`
whose ranges and intensities each hold exactly `v × c` elements (no 32-bit overflow in
`(v / 2) × c`, wall clock reading at least 10^9 and below 2^31 * 10^9 ticks), the slice
`[(v / 2) × c, (v / 2) × c + c)` lies within both sequences and the B→A conversion
returns: the out-of-range outcome does not occur. For `v = 0` it returns exactly when
both sequences hold at least `c` elements. -/
theorem laser_scan_slice_in_bounds (ign_msg : ignition.msgs.LaserScan)
    (ros_msg : sensor_msgs.msg.LaserScan) (env : Env)
    (hclock : 1000000000 ≤ env.clock env.reads ∧ env.clock env.reads < 2147483648000000000)
    (hv : 1 ≤ ign_msg.vertical_count)
    (hranges : ign_msg.ranges.length = ign_msg.vertical_count * ign_msg.count)
    (hintensities : ign_msg.intensities.length = ign_msg.vertical_count * ign_msg.count)
    (h32 : ign_msg.vertical_count / 2 * ign_msg.count < 2 ^ 32) :
    (ign_msg.vertical_count / 2 * ign_msg.count + ign_msg.count ≤ ign_msg.ranges.length ∧
      ign_msg.vertical_count / 2 * ign_msg.count + ign_msg.count ≤
        ign_msg.intensities.length ∧
      ∃ r env', convert_ign_to_ros_LaserScan ign_msg ros_msg env = some (r, env')) ∧
    (∀ (scan : ignition.msgs.LaserScan) (d : sensor_msgs.msg.LaserScan) (e : Env),
      (1000000000 ≤ e.clock e.reads ∧ e.clock e.reads < 2147483648000000000) →
      scan.vertical_count = 0 →
      ((∃ r env', convert_ign_to_ros_LaserScan scan d e = some (r, env')) ↔
        (scan.count ≤ scan.ranges.length ∧ scan.count ≤ scan.intensities.length))) := by
  have hin := middle_layer_within ign_msg.vertical_count ign_msg.count hv
  constructor
  · refine ⟨by rw [hranges]; exact hin, by rw [hintensities]; exact hin, ?_⟩
    exact (convert_ign_to_ros_LaserScan_returns_iff ign_msg ros_msg env hclock h32).mpr
      ⟨by rw [hranges]; exact hin, by rw [hintensities]; exact hin⟩
  · intro scan d e hc hv0
    have h := convert_ign_to_ros_LaserScan_returns_iff scan d e hc
      (by rw [hv0]; simp)
    rw [hv0] at h
    simpa using h

theorem laser_scan_slice_in_bounds_witness :
    ((1000000000 : Int) ≤ (fun _ : Nat => (1700000000123456789 : Int)) 0 ∧
      (fun _ : Nat => (1700000000123456789 : Int)) 0 < 2147483648000000000) ∧
    (1 ≤ 3) ∧
    (((List.range 15).map (fun n => ({ bits := n } : double))).length = 3 * 5) ∧
    (((List.range 15).map (fun n => ({ bits := n } : double))).length = 3 * 5) ∧
    (3 / 2 * 5 < 2 ^ 32) ∧
    ((3 / 2 * 5 + 5 ≤ ((List.range 15).map (fun n => ({ bits := n } : double))).length ∧
      3 / 2 * 5 + 5 ≤ ((List.range 15).map (fun n => ({ bits := n } : double))).length ∧
      ∃ r env', convert_ign_to_ros_LaserScan
        { count := 5, vertical_count := 3,
          ranges := (List.range 15).map (fun n => ({ bits := n } : double)),
          intensities := (List.range 15).map (fun n => ({ bits := n } : double)) }
        {} { clock := fun _ => 1700000000123456789 } = some (r, env')) ∧
    (∀ (scan : ignition.msgs.LaserScan) (d : sensor_msgs.msg.LaserScan) (e : Env),
      (1000000000 ≤ e.clock e.reads ∧ e.clock e.reads < 2147483648000000000) →
      scan.vertical_count = 0 →
      ((∃ r env', convert_ign_to_ros_LaserScan scan d e = some (r, env')) ↔
        (scan.count ≤ scan.ranges.length ∧ scan.count ≤ scan.intensities.length)))) :=
  ⟨by decide, by decide, by decide, by decide, by decide,
    laser_scan_slice_in_bounds
      { count := 5, vertical_count := 3,
        ranges := (List.range 15).map (fun n => ({ bits := n } : double)),
        intensities := (List.range 15).map (fun n => ({ bits := n } : double)) }
      {} { clock := fun _ => 1700000000123456789 } (by decide) (by decide) (by decide)
      (by decide) (by decide)⟩

/-! ### Contacts -/

/-- C29 (the code at the failing input). A contact whose first collision is the model
`a` (id 1) and whose second collision is the link `b` (id 2): the A→B conversion into a
default destination sets `collision1` to the model `a` and `collision2` to the model `a`
as well, not to the link `b`; converting back into a default contact returns the model
`a` as `collision2`. -/
theorem convert_ros_to_ign_Contact_collision2_from_collision1 :
    (convert_ros_to_ign_Contact
        { collision1 := { id := 1, name := "a".toList,
                          type := ros_ign_interfaces.msg.Entity.MODEL },
          collision2 := { id := 2, name := "b".toList,
                          type := ros_ign_interfaces.msg.Entity.LINK } }
        {} { clock := fun _ => 1700000000123456789 }).1.collision1 =
      { id := 1, name := "a".toList, type := ignition.msgs.Entity.MODEL } ∧
    (convert_ros_to_ign_Contact
        { collision1 := { id := 1, name := "a".toList,
                          type := ros_ign_interfaces.msg.Entity.MODEL },
          collision2 := { id := 2, name := "b".toList,
                          type := ros_ign_interfaces.msg.Entity.LINK } }
        {} { clock := fun _ => 1700000000123456789 }).1.collision2 =
      { id := 1, name := "a".toList, type := ignition.msgs.Entity.MODEL } ∧
    (convert_ign_to_ros_Contact
        (convert_ros_to_ign_Contact
          { collision1 := { id := 1, name := "a".toList,
                            type := ros_ign_interfaces.msg.Entity.MODEL },
            collision2 := { id := 2, name := "b".toList,
                            type := ros_ign_interfaces.msg.Entity.LINK } }
          {} { clock := fun _ => 1700000000123456789 }).1
        {} { clock := fun _ => 1700000000123456789 }).map (fun r => r.1.collision2) =
      some { id := 1, name := "a".toList, type := ros_ign_interfaces.msg.Entity.MODEL } := by
  decide

/-- C24 (the code at the failing input). A source contact with one depth, converted into
a destination that already holds one position, one normal, two depths and one wrench:
`position`, `normal` and `wrench` are cleared and end with the source lengths (0), while
`depth` keeps its two stale values in front of the source depth and ends with length 3,
not 1. -/
theorem convert_ros_to_ign_Contact_depth_not_cleared :
    (convert_ros_to_ign_Contact { depths := [{ bits := 7 }] }
        { position := [{}], normal := [{}], depth := [{ bits := 1 }, { bits := 2 }],
          wrench := [{}] }
        { clock := fun _ => 1700000000123456789 }).1.depth =
      [{ bits := 1 }, { bits := 2 }, { bits := 7 }] ∧
    (convert_ros_to_ign_Contact { depths := [{ bits := 7 }] }
        { position := [{}], normal := [{}], depth := [{ bits := 1 }, { bits := 2 }],
          wrench := [{}] }
        { clock := fun _ => 1700000000123456789 }).1.position = [] ∧
    (convert_ros_to_ign_Contact { depths := [{ bits := 7 }] }
        { position := [{}], normal := [{}], depth := [{ bits := 1 }, { bits := 2 }],
          wrench := [{}] }
        { clock := fun _ => 1700000000123456789 }).1.normal = [] ∧
    (convert_ros_to_ign_Contact { depths := [{ bits := 7 }] }
        { position := [{}], normal := [{}], depth := [{ bits := 1 }, { bits := 2 }],
          wrench := [{}] }
        { clock := fun _ => 1700000000123456789 }).1.wrench = [] := by
  decide

/-- C23 (the code at the failing input). A Domain-B contacts message with one contact,
converted into a Domain-A destination that already holds three contacts, leaves four
contacts in the destination; the A→B conversion of a one-contact message into a
destination holding three contacts leaves one. -/
theorem convert_ign_to_ros_Contacts_accumulates :
    (convert_ign_to_ros_Contacts { contact := [{}] } { contacts := [{}, {}, {}] }
        { clock := fun _ => 1700000000123456789 }).map (fun r => r.1.contacts.length) =
      some 4 ∧
    (convert_ros_to_ign_Contacts { contacts := [{}] } { contact := [{}, {}, {}] }
        { clock := fun _ => 1700000000123456789 }).1.contact.length = 1 := by
  decide

/-! ### Transform lists -/

theorem convert_ign_to_ros_TransformStamped_loop_total (data : List ignition.msgs.Header.Map)
    (child_frame_id : Str) :
    ∃ r, convert_ign_to_ros_TransformStamped_loop data child_frame_id = some r := by
  induction data with
  | nil => exact ⟨child_frame_id, rfl⟩
  | cons aPair rest ih =>
    by_cases h : aPair.key = "child_frame_id".toList ∧ 0 < aPair.value.length
    · exact ⟨_, by rw [convert_ign_to_ros_TransformStamped_loop, dif_pos h,
        frame_id_ign_to_ros_eq]⟩
    · obtain ⟨r, hr⟩ := ih
      exact ⟨r, by rw [convert_ign_to_ros_TransformStamped_loop, dif_neg h, hr]⟩

theorem convert_ign_to_ros_TransformStamped_returns (ign_msg : ignition.msgs.Pose)
    (ros_msg : geometry_msgs.msg.TransformStamped) (env : Env)
    (hclock : 1000000000 ≤ env.clock env.reads ∧ env.clock env.reads < 2147483648000000000) :
    ∃ r, convert_ign_to_ros_TransformStamped ign_msg ros_msg env =
      some (r, { env with reads := env.reads + 1 }) := by
  obtain ⟨hdr, hhdr⟩ := convert_ign_to_ros_Header_returns ign_msg.header ros_msg.header env hclock
  obtain ⟨c, hc⟩ := convert_ign_to_ros_TransformStamped_loop_total ign_msg.header.data
    ros_msg.child_frame_id
  simp only [convert_ign_to_ros_TransformStamped, hhdr, hc]
  exact ⟨_, rfl⟩

theorem convert_ros_to_ign_TFMessage_loop_eq (transforms : List geometry_msgs.msg.TransformStamped) :
    ∀ pose : List ignition.msgs.Pose,
      convert_ros_to_ign_TFMessage_loop transforms pose =
        pose ++ transforms.map (fun t => convert_ros_to_ign_TransformStamped t {}) := by
  induction transforms with
  | nil => intro pose; simp [convert_ros_to_ign_TFMessage_loop]
  | cons t rest ih =>
    intro pose
    rw [convert_ros_to_ign_TFMessage_loop, ih, List.map_cons, List.append_assoc]
    rfl

theorem convert_ign_to_ros_TFMessage_loop_eq (pose : List ignition.msgs.Pose) :
    ∀ (transforms : List geometry_msgs.msg.TransformStamped) (env : Env),
      (∀ k, 1000000000 ≤ env.clock k ∧ env.clock k < 2147483648000000000) →
      ∃ ts, convert_ign_to_ros_TFMessage_loop pose transforms env =
          some (transforms ++ ts, { env with reads := env.reads + pose.length }) ∧
        ts.length = pose.length ∧
        ∀ (i : Nat) (h : i < pose.length),
          (convert_ign_to_ros_TransformStamped (pose.get ⟨i, h⟩) {}
            { env with reads := env.reads + i }).map Prod.fst = ts[i]? := by
  induction pose with
  | nil =>
    intro transforms env _
    exact ⟨[], by simp [convert_ign_to_ros_TFMessage_loop], rfl,
      fun i h => absurd h (Nat.not_lt_zero i)⟩
  | cons p rest ih =>
    intro transforms env hclock
    obtain ⟨t, ht⟩ := convert_ign_to_ros_TransformStamped_returns p {} env (hclock env.reads)
    obtain ⟨ts, hts, hlen, hidx⟩ := ih (transforms ++ [t]) { env with reads := env.reads + 1 }
      hclock
    refine ⟨t :: ts, ?_, by simp [hlen], ?_⟩
    · simp only [convert_ign_to_ros_TFMessage_loop, ht, hts, List.append_assoc,
        List.singleton_append, List.length_cons]
      have e : env.reads + 1 + rest.length = env.reads + (rest.length + 1) := by omega
      rw [e]
    · intro i h
      cases i with
      | zero =>
        have h0 : ({ env with reads := env.reads + 0 } : Env) = env := rfl
        rw [h0, List.getElem?_cons_zero]
        show (convert_ign_to_ros_TransformStamped p {} env).map Prod.fst = some t
        rw [ht]
        rfl
      | succ j =>
        have hj : j < rest.length := Nat.lt_of_succ_lt_succ h
        have e : env.reads + (j + 1) = env.reads + 1 + j := by omega
        have := hidx j hj
        simp only [List.get_cons_succ, List.getElem?_cons_succ, e]
        exact this

/-- C22. Whatever the destination already holds, the A→B conversion of a TFMessage leaves in
the pose list exactly the conversions of the source transforms, in source order (as many
poses as transforms), and the B→A conversion (every wall clock reading at least 10^9 and
below 2^31 * 10^9 ticks) returns with exactly as many transforms as the source has
poses, the transform at index `i` being the conversion of the pose at index `i` into a
fresh value. -/
theorem tf_message_destination_cleared (ros_msg : tf2_msgs.msg.TFMessage)
    (d_ign : ignition.msgs.Pose_V) (ign_msg : ignition.msgs.Pose_V)
    (d_ros : tf2_msgs.msg.TFMessage) (env : Env)
    (hclock : ∀ k, 1000000000 ≤ env.clock k ∧ env.clock k < 2147483648000000000) :
    (convert_ros_to_ign_TFMessage ros_msg d_ign).pose =
      ros_msg.transforms.map (fun t => convert_ros_to_ign_TransformStamped t {}) ∧
    (convert_ros_to_ign_TFMessage ros_msg d_ign).pose.length = ros_msg.transforms.length ∧
    ∃ r env', convert_ign_to_ros_TFMessage ign_msg d_ros env = some (r, env') ∧
      r.transforms.length = ign_msg.pose.length ∧
      ∀ (i : Nat) (h : i < ign_msg.pose.length),
        (convert_ign_to_ros_TransformStamped (ign_msg.pose.get ⟨i, h⟩) {}
          { env with reads := env.reads + i }).map Prod.fst = r.transforms[i]? := by
  have hpose : (convert_ros_to_ign_TFMessage ros_msg d_ign).pose =
      ros_msg.transforms.map (fun t => convert_ros_to_ign_TransformStamped t {}) := by
    unfold convert_ros_to_ign_TFMessage
    cases hts : ros_msg.transforms with
    | nil => simp [convert_ros_to_ign_TFMessage_loop]
    | cons t rest => simp [convert_ros_to_ign_TFMessage_loop_eq]
  refine ⟨hpose, by rw [hpose, List.length_map], ?_⟩
  obtain ⟨ts, hts, hlen, hidx⟩ := convert_ign_to_ros_TFMessage_loop_eq ign_msg.pose [] env hclock
  simp only [convert_ign_to_ros_TFMessage, hts, List.nil_append]
  exact ⟨_, _, rfl, hlen, hidx⟩

theorem tf_message_destination_cleared_witness :
    (∀ k : Nat, (1000000000 : Int) ≤ (fun _ : Nat => (1700000000123456789 : Int)) k ∧
      (fun _ : Nat => (1700000000123456789 : Int)) k < 2147483648000000000) ∧
    (convert_ros_to_ign_TFMessage { transforms := [{ child_frame_id := "b".toList }] }
        { pose := [{}, {}, {}] }).pose.length = 1 ∧
    ∃ r env', convert_ign_to_ros_TFMessage { pose := [{}] }
        { transforms := [{}, {}, {}] } { clock := fun _ => 1700000000123456789 } =
          some (r, env') ∧
      r.transforms.length = 1 :=
  ⟨fun _ => (by decide :
      (1000000000 : Int) ≤ 1700000000123456789 ∧ (1700000000123456789 : Int) < 2147483648000000000),
    (tf_message_destination_cleared { transforms := [{ child_frame_id := "b".toList }] }
      { pose := [{}, {}, {}] } { pose := [{}] } { transforms := [{}, {}, {}] }
      { clock := fun _ => 1700000000123456789 } (fun _ => (by decide :
      (1000000000 : Int) ≤ 1700000000123456789 ∧ (1700000000123456789 : Int) < 2147483648000000000))).2.1,
    (tf_message_destination_cleared { transforms := [{ child_frame_id := "b".toList }] }
      { pose := [{}, {}, {}] } { pose := [{}] } { transforms := [{}, {}, {}] }
      { clock := fun _ => 1700000000123456789 } (fun _ => (by decide :
      (1000000000 : Int) ≤ 1700000000123456789 ∧ (1700000000123456789 : Int) < 2147483648000000000))).2.2.elim
        (fun r hr => hr.elim (fun env' h => ⟨r, env', h.1, h.2.1⟩))⟩

/-! ### Joint states -/

theorem getElem?_eq_some_getD {α : Type} (l : List α) (i : Nat) (d : α) (h : i < l.length) :
    l[i]? = some (l.getD i d) := by
  rw [List.getD_eq_getElem?_getD, List.getElem?_eq_getElem h]
  rfl

theorem range_map_getD {α : Type} (l : List α) (d : α) :
    (List.range l.length).map (fun i => l.getD i d) = l := by
  apply List.ext_getElem?
  intro i
  by_cases h : i < l.length
  · rw [List.getElem?_map, List.getElem?_range h, Option.map_some',
      ← getElem?_eq_some_getD l i d h]
  · rw [List.getElem?_eq_none (by simpa using h), List.getElem?_eq_none (by simpa using h)]

theorem convert_ros_to_ign_JointState_loop_eq (ros_msg : sensor_msgs.msg.JointState) (n : Nat)
    (hname : ros_msg.name.length = n) (hposition : ros_msg.position.length = n)
    (hvelocity : ros_msg.velocity.length = n) (heffort : ros_msg.effort.length = n)
    (indices : List Nat) :
    ∀ joint : List ignition.msgs.Joint, (∀ i ∈ indices, i < n) →
      convert_ros_to_ign_JointState_loop ros_msg indices joint =
        some (joint ++ indices.map (fun i =>
          { name := ros_msg.name.getD i [],
            axis1 := { position := ros_msg.position.getD i {},
                       velocity := ros_msg.velocity.getD i {},
                       force := ros_msg.effort.getD i {} } })) := by
  induction indices with
  | nil => intro joint _; simp [convert_ros_to_ign_JointState_loop]
  | cons i rest ih =>
    intro joint hin
    have hi : i < n := hin i (List.mem_cons_self i rest)
    rw [convert_ros_to_ign_JointState_loop,
      getElem?_eq_some_getD ros_msg.name i [] (by rw [hname]; exact hi),
      getElem?_eq_some_getD ros_msg.position i {} (by rw [hposition]; exact hi),
      getElem?_eq_some_getD ros_msg.velocity i {} (by rw [hvelocity]; exact hi),
      getElem?_eq_some_getD ros_msg.effort i {} (by rw [heffort]; exact hi)]
    simp only
    rw [ih _ (fun j hj => hin j (List.mem_cons_of_mem i hj)), List.map_cons, List.append_assoc]
    rfl

theorem convert_ign_to_ros_JointState_loop_eq (joint : List ignition.msgs.Joint) :
    ∀ ros_msg : sensor_msgs.msg.JointState,
      convert_ign_to_ros_JointState_loop joint ros_msg =
        { ros_msg with
          name := ros_msg.name ++ joint.map (fun j => j.name),
          position := ros_msg.position ++ joint.map (fun j => j.axis1.position),
          velocity := ros_msg.velocity ++ joint.map (fun j => j.axis1.velocity),
          effort := ros_msg.effort ++ joint.map (fun j => j.axis1.force) } := by
  induction joint with
  | nil => intro ros_msg; simp [convert_ign_to_ros_JointState_loop]
  | cons j rest ih =>
    intro ros_msg
    rw [convert_ign_to_ros_JointState_loop, ih]
    simp only [List.map_cons, List.append_assoc, List.singleton_append]

/-- C25. For a Domain-A JointState whose name, position, velocity and effort sequences
all have length `n`, the A→B conversion into a default model returns a model with exactly
`n` joints, joint `i` carrying `name[i]` and, on its first axis, `position[i]`,
`velocity[i]` and (as force) `effort[i]`; the B→A conversion of that model into a default
JointState (wall clock reading at least 10^9 and below 2^31 * 10^9 ticks) returns the original four
sequences. -/
theorem joint_state_round_trip (x : sensor_msgs.msg.JointState) (n : Nat) (env : Env)
    (hclock : 1000000000 ≤ env.clock env.reads ∧ env.clock env.reads < 2147483648000000000)
    (hname : x.name.length = n) (hposition : x.position.length = n)
    (hvelocity : x.velocity.length = n) (heffort : x.effort.length = n) :
    ∃ m, convert_ros_to_ign_JointState x {} = some m ∧ m.joint.length = n ∧
      (∀ i, i < n → ∃ j, m.joint[i]? = some j ∧ x.name[i]? = some j.name ∧
        x.position[i]? = some j.axis1.position ∧ x.velocity[i]? = some j.axis1.velocity ∧
        x.effort[i]? = some j.axis1.force) ∧
      ∃ r env', convert_ign_to_ros_JointState m {} env = some (r, env') ∧
        r.name = x.name ∧ r.position = x.position ∧ r.velocity = x.velocity ∧
        r.effort = x.effort := by
  have hloop := convert_ros_to_ign_JointState_loop_eq x n hname hposition hvelocity heffort
    (List.range n) [] (fun i hi => List.mem_range.mp hi)
  rw [List.nil_append] at hloop
  have hconv : convert_ros_to_ign_JointState x {} =
      some { header := convert_ros_to_ign_Header x.header {},
             joint := (List.range n).map (fun i =>
               { name := x.name.getD i [],
                 axis1 := { position := x.position.getD i {},
                            velocity := x.velocity.getD i {},
                            force := x.effort.getD i {} } }) } := by
    unfold convert_ros_to_ign_JointState
    simp only [hposition]
    rw [hloop]
  refine ⟨_, hconv, by simp, ?_, ?_⟩
  · intro i hi
    refine ⟨{ name := x.name.getD i [],
              axis1 := { position := x.position.getD i {},
                         velocity := x.velocity.getD i {},
                         force := x.effort.getD i {} } }, ?_,
      getElem?_eq_some_getD x.name i [] (by rw [hname]; exact hi),
      getElem?_eq_some_getD x.position i {} (by rw [hposition]; exact hi),
      getElem?_eq_some_getD x.velocity i {} (by rw [hvelocity]; exact hi),
      getElem?_eq_some_getD x.effort i {} (by rw [heffort]; exact hi)⟩
    rw [List.getElem?_map, List.getElem?_range hi]
    rfl
  · obtain ⟨hdr, hhdr⟩ := convert_ign_to_ros_Header_returns
      (convert_ros_to_ign_Header x.header {}) ({} : sensor_msgs.msg.JointState).header env hclock
    simp only [convert_ign_to_ros_JointState, hhdr, convert_ign_to_ros_JointState_loop_eq,
      List.map_map]
    refine ⟨_, _, rfl, ?_, ?_, ?_, ?_⟩
    · show [] ++ (List.range n).map (fun i => x.name.getD i []) = x.name
      rw [List.nil_append, ← hname, range_map_getD]
    · show [] ++ (List.range n).map (fun i => x.position.getD i {}) = x.position
      rw [List.nil_append, ← hposition, range_map_getD]
    · show [] ++ (List.range n).map (fun i => x.velocity.getD i {}) = x.velocity
      rw [List.nil_append, ← hvelocity, range_map_getD]
    · show [] ++ (List.range n).map (fun i => x.effort.getD i {}) = x.effort
      rw [List.nil_append, ← heffort, range_map_getD]

theorem joint_state_round_trip_witness :
    ((1000000000 : Int) ≤ (fun _ : Nat => (1700000000123456789 : Int)) 0 ∧
      (fun _ : Nat => (1700000000123456789 : Int)) 0 < 2147483648000000000) ∧
    ["hip".toList, "knee".toList].length = 2 ∧
    ([{ bits := 1 }, { bits := 2 }] : List double).length = 2 ∧
    ([{ bits := 3 }, { bits := 4 }] : List double).length = 2 ∧
    ([{ bits := 5 }, { bits := 6 }] : List double).length = 2 ∧
    ∃ m, convert_ros_to_ign_JointState
        { name := ["hip".toList, "knee".toList], position := [{ bits := 1 }, { bits := 2 }],
          velocity := [{ bits := 3 }, { bits := 4 }], effort := [{ bits := 5 }, { bits := 6 }] }
        {} = some m ∧ m.joint.length = 2 ∧
      (∀ i, i < 2 → ∃ j, m.joint[i]? = some j ∧
        ["hip".toList, "knee".toList][i]? = some j.name ∧
        ([{ bits := 1 }, { bits := 2 }] : List double)[i]? = some j.axis1.position ∧
        ([{ bits := 3 }, { bits := 4 }] : List double)[i]? = some j.axis1.velocity ∧
        ([{ bits := 5 }, { bits := 6 }] : List double)[i]? = some j.axis1.force) ∧
      ∃ r env', convert_ign_to_ros_JointState m {}
          { clock := fun _ => 1700000000123456789 } = some (r, env') ∧
        r.name = ["hip".toList, "knee".toList] ∧
        r.position = [{ bits := 1 }, { bits := 2 }] ∧
        r.velocity = [{ bits := 3 }, { bits := 4 }] ∧
        r.effort = [{ bits := 5 }, { bits := 6 }] :=
  ⟨by decide, rfl, rfl, rfl, rfl,
    joint_state_round_trip
      { name := ["hip".toList, "knee".toList], position := [{ bits := 1 }, { bits := 2 }],
        velocity := [{ bits := 3 }, { bits := 4 }], effort := [{ bits := 5 }, { bits := 6 }] }
      2 { clock := fun _ => 1700000000123456789 } (by decide) rfl rfl rfl rfl⟩

/-! ### Camera info -/

theorem Distortion_models_cases {name : Str} {b : Nat} (h : (name, b) ∈ Distortion_models) :
    (name = "plumb_bob".toList ∧ b = 0) ∨ (name = "rational_polynomial".toList ∧ b = 1) ∨
    (name = "equidistant".toList ∧ b = 2) := by
  simp only [Distortion_models, List.mem_cons, Prod.mk.injEq, List.mem_singleton,
    List.mem_nil_iff, or_false] at h
  exact h

theorem assign_elements_exact {α : Type} (dst src : List α) (h : dst.length = src.length) :
    assign_elements dst src = some src := by
  rw [assign_elements, if_pos (Nat.le_of_eq h.symm), List.drop_eq_nil_of_le (Nat.le_of_eq h),
    List.append_nil]

theorem convert_ros_to_ign_CameraInfo_unknown (x : sensor_msgs.msg.CameraInfo)
    (d : ignition.msgs.CameraInfo) (env : Env)
    (h1 : x.distortion_model ≠ "plumb_bob".toList)
    (h2 : x.distortion_model ≠ "rational_polynomial".toList)
    (h3 : x.distortion_model ≠ "equidistant".toList) :
    convert_ros_to_ign_CameraInfo x d env =
      ({ header := convert_ros_to_ign_Header x.header d.header,
         width := x.width, height := x.height,
         distortion := some { model := (d.distortion.getD {}).model,
                              k := (d.distortion.getD {}).k ++ x.d },
         intrinsics := some { k := (d.intrinsics.getD {}).k ++ x.k },
         projection := some { p := (d.projection.getD {}).p ++ x.p },
         rectification_matrix := d.rectification_matrix ++ x.r },
       { env with cerr := env.cerr ++
         ["Unsupported distortion model [".toList ++ x.distortion_model ++ "]\n".toList] }) := by
  simp only [convert_ros_to_ign_CameraInfo, if_neg h1, if_neg h2, if_neg h3]

theorem convert_ros_to_ign_CameraInfo_named (x : sensor_msgs.msg.CameraInfo)
    (d : ignition.msgs.CameraInfo) (env : Env) (name : Str) (b : Nat)
    (h : (name, b) ∈ Distortion_models) (hx : x.distortion_model = name) :
    convert_ros_to_ign_CameraInfo x d env =
      ({ header := convert_ros_to_ign_Header x.header d.header,
         width := x.width, height := x.height,
         distortion := some { model := b, k := (d.distortion.getD {}).k ++ x.d },
         intrinsics := some { k := (d.intrinsics.getD {}).k ++ x.k },
         projection := some { p := (d.projection.getD {}).p ++ x.p },
         rectification_matrix := d.rectification_matrix ++ x.r }, env) := by
  rcases Distortion_models_cases h with hk | hk | hk <;>
  · obtain ⟨ha, hb⟩ := hk
    subst hb
    rw [ha] at hx
    simp only [convert_ros_to_ign_CameraInfo, hx]
    rfl

theorem convert_ign_to_ros_CameraInfo_named (header : ignition.msgs.Header) (width height : Nat)
    (d k p r : List double) (env : Env) (name : Str) (b : Nat)
    (h : (name, b) ∈ Distortion_models)
    (hclock : 1000000000 ≤ env.clock env.reads ∧ env.clock env.reads < 2147483648000000000)
    (hk : k.length = 9) (hp : p.length = 12) (hr : r.length = 9) :
    ∃ hdr, convert_ign_to_ros_CameraInfo
        { header := header, width := width, height := height,
          distortion := some { model := b, k := d }, intrinsics := some { k := k },
          projection := some { p := p }, rectification_matrix := r } {} env =
      some ({ header := hdr, height := height, width := width, distortion_model := name,
              d := d, k := k, r := r, p := p }, { env with reads := env.reads + 1 }) := by
  obtain ⟨hdr, hhdr⟩ := convert_ign_to_ros_Header_returns header
    ({} : sensor_msgs.msg.CameraInfo).header env hclock
  have hd : assign_elements (resize ([] : List double) d.length double_zero) d = some d :=
    assign_elements_exact _ _ (resize_length _ _ _)
  have hk9 : assign_elements (List.replicate 9 ({} : double)) k = some k :=
    assign_elements_exact _ _ (by rw [hk]; rfl)
  have hp12 : assign_elements (List.replicate 12 ({} : double)) p = some p :=
    assign_elements_exact _ _ (by rw [hp]; rfl)
  have hr9 : assign_elements (List.replicate 9 ({} : double)) r = some r :=
    assign_elements_exact _ _ (by rw [hr]; rfl)
  refine ⟨hdr, ?_⟩
  rcases Distortion_models_cases h with hc | hc | hc <;>
  · obtain ⟨ha, hb⟩ := hc
    subst ha hb
    simp only [convert_ign_to_ros_CameraInfo, hhdr]
    simp only [ignition.msgs.CameraInfo.Distortion.PLUMB_BOB,
      ignition.msgs.CameraInfo.Distortion.RATIONAL_POLYNOMIAL,
      ignition.msgs.CameraInfo.Distortion.EQUIDISTANT, Nat.reduceEqDiff, if_true, if_false,
      hd, hk9, hp12, hr9]

/-- C26. For a Domain-A CameraInfo whose distortion model is none of the three names
plumb_bob, rational_polynomial, equidistant, the A→B conversion writes exactly one
diagnostic, leaves the destination distortion model as it was, sets width and height and
appends every `d`, `k`, `p` and `r` coefficient to its repeated field. For each of the
three names the A→B conversion sets the enumerator of that name and writes no
diagnostic, and the B→A conversion of the result (default destinations, coefficient
arrays of 9, 12 and 9 elements, wall clock reading at least 10^9 and below 2^31 * 10^9
ticks) sets the same string back. -/
theorem camera_info_distortion_model (x : sensor_msgs.msg.CameraInfo)
    (d : ignition.msgs.CameraInfo) (env : Env)
    (hu : ∀ q ∈ Distortion_models, x.distortion_model ≠ q.1) :
    ((convert_ros_to_ign_CameraInfo x d env).2.cerr = env.cerr ++
        ["Unsupported distortion model [".toList ++ x.distortion_model ++ "]\n".toList] ∧
      (convert_ros_to_ign_CameraInfo x d env).1.distortion.map (fun t => t.model) =
        some (d.distortion.getD {}).model ∧
      (convert_ros_to_ign_CameraInfo x d env).1.width = x.width ∧
      (convert_ros_to_ign_CameraInfo x d env).1.height = x.height ∧
      (convert_ros_to_ign_CameraInfo x d env).1.distortion.map (fun t => t.k) =
        some ((d.distortion.getD {}).k ++ x.d) ∧
      (convert_ros_to_ign_CameraInfo x d env).1.intrinsics.map (fun t => t.k) =
        some ((d.intrinsics.getD {}).k ++ x.k) ∧
      (convert_ros_to_ign_CameraInfo x d env).1.projection.map (fun t => t.p) =
        some ((d.projection.getD {}).p ++ x.p) ∧
      (convert_ros_to_ign_CameraInfo x d env).1.rectification_matrix =
        d.rectification_matrix ++ x.r) ∧
    (∀ (y : sensor_msgs.msg.CameraInfo) (name : Str) (b : Nat),
      (name, b) ∈ Distortion_models → y.distortion_model = name →
      (∀ (dest : ignition.msgs.CameraInfo) (e : Env),
        (convert_ros_to_ign_CameraInfo y dest e).1.distortion.map (fun t => t.model) = some b ∧
        (convert_ros_to_ign_CameraInfo y dest e).2.cerr = e.cerr) ∧
      (∀ e : Env, (1000000000 ≤ e.clock e.reads ∧ e.clock e.reads < 2147483648000000000) →
        y.k.length = 9 → y.p.length = 12 → y.r.length = 9 →
        ∃ r env', convert_ign_to_ros_CameraInfo (convert_ros_to_ign_CameraInfo y {} e).1 {} e =
            some (r, env') ∧
          r.distortion_model = name ∧ r.width = y.width ∧ r.height = y.height ∧
          r.d = y.d ∧ r.k = y.k ∧ r.p = y.p ∧ r.r = y.r)) := by
  constructor
  · have h1 : x.distortion_model ≠ "plumb_bob".toList := hu ("plumb_bob".toList, 0) (by decide)
    have h2 : x.distortion_model ≠ "rational_polynomial".toList :=
      hu ("rational_polynomial".toList, 1) (by decide)
    have h3 : x.distortion_model ≠ "equidistant".toList :=
      hu ("equidistant".toList, 2) (by decide)
    rw [convert_ros_to_ign_CameraInfo_unknown x d env h1 h2 h3]
    exact ⟨rfl, rfl, rfl, rfl, rfl, rfl, rfl, rfl⟩
  · intro y name b hmem hy
    constructor
    · intro dest e
      rw [convert_ros_to_ign_CameraInfo_named y dest e name b hmem hy]
      exact ⟨rfl, rfl⟩
    · intro e hclock hk hp hr
      rw [convert_ros_to_ign_CameraInfo_named y {} e name b hmem hy]
      obtain ⟨hdr, hconv⟩ := convert_ign_to_ros_CameraInfo_named
        (convert_ros_to_ign_Header y.header {}) y.width y.height y.d y.k y.p y.r e name b hmem
        hclock hk hp hr
      exact ⟨_, _, hconv, rfl, rfl, rfl, rfl, rfl, rfl, rfl⟩

theorem camera_info_distortion_model_witness :
    (∀ q ∈ Distortion_models, "fisheye".toList ≠ q.1) ∧
    (convert_ros_to_ign_CameraInfo
        { distortion_model := "fisheye".toList, width := 640, height := 480,
          d := [{ bits := 1 }] }
        { distortion := some { model := ignition.msgs.CameraInfo.Distortion.EQUIDISTANT } }
        { clock := fun _ => 1700000000123456789 }).2.cerr =
      ["Unsupported distortion model [fisheye]\n".toList] ∧
    (convert_ros_to_ign_CameraInfo
        { distortion_model := "fisheye".toList, width := 640, height := 480,
          d := [{ bits := 1 }] }
        { distortion := some { model := ignition.msgs.CameraInfo.Distortion.EQUIDISTANT } }
        { clock := fun _ => 1700000000123456789 }).1.distortion.map (fun t => t.model) =
      some ignition.msgs.CameraInfo.Distortion.EQUIDISTANT :=
  ⟨by decide,
    (camera_info_distortion_model
      { distortion_model := "fisheye".toList, width := 640, height := 480,
        d := [{ bits := 1 }] }
      { distortion := some { model := ignition.msgs.CameraInfo.Distortion.EQUIDISTANT } }
      { clock := fun _ => 1700000000123456789 } (by decide)).1.1,
    (camera_info_distortion_model
      { distortion_model := "fisheye".toList, width := 640, height := 480,
        d := [{ bits := 1 }] }
      { distortion := some { model := ignition.msgs.CameraInfo.Distortion.EQUIDISTANT } }
      { clock := fun _ => 1700000000123456789 } (by decide)).1.2.1⟩

/-! ### Laser scans, Domain-A to Domain-B -/

theorem range_map_getD_take {α : Type} (l : List α) (d : α) (n : Nat) (h : n ≤ l.length) :
    (List.range n).map (fun i => l.getD i d) = l.take n := by
  apply List.ext_getElem?
  intro i
  by_cases hi : i < n
  · rw [List.getElem?_map, List.getElem?_range hi, Option.map_some',
      List.getElem?_take_of_lt hi, ← getElem?_eq_some_getD l i d (Nat.lt_of_lt_of_le hi h)]
  · rw [List.getElem?_eq_none (by simpa using hi),
      List.getElem?_eq_none (by rw [List.length_take]; omega)]

theorem convert_ros_to_ign_LaserScan_loop_eq (ros_msg : sensor_msgs.msg.LaserScan)
    (indices : List Nat) :
    ∀ ign_msg : ignition.msgs.LaserScan,
      (∀ i ∈ indices, i < ros_msg.ranges.length ∧ i < ros_msg.intensities.length) →
      convert_ros_to_ign_LaserScan_loop ros_msg indices ign_msg =
        some { ign_msg with
          ranges := ign_msg.ranges ++
            indices.map (fun i => float_to_double (ros_msg.ranges.getD i {})),
          intensities := ign_msg.intensities ++
            indices.map (fun i => float_to_double (ros_msg.intensities.getD i {})) } := by
  induction indices with
  | nil => intro ign_msg _; simp [convert_ros_to_ign_LaserScan_loop]
  | cons i rest ih =>
    intro ign_msg hin
    have hi := hin i (List.mem_cons_self i rest)
    rw [convert_ros_to_ign_LaserScan_loop,
      getElem?_eq_some_getD ros_msg.ranges i {} hi.1,
      getElem?_eq_some_getD ros_msg.intensities i {} hi.2]
    simp only
    rw [ih _ (fun j hj => hin j (List.mem_cons_of_mem i hj))]
    simp only [List.map_cons, List.append_assoc, List.singleton_append]

set_option maxRecDepth 4000 in
/-- C21 (the claim fails). A Domain-A laser scan with `angle_min = 0.0f`,
`angle_max = 1.0f` and `angle_increment = 0.1f` (the `float` nearest to 0.1, which is
above 0.1): the A→B conversion sets the count 10, since the `float` quotient rounds to
`10.0f`, while the quotient of the three numbers, which is below 10, truncates to 9. -/
theorem laser_scan_reading_count_rounded :
    (convert_ros_to_ign_LaserScan
        { angle_min := { bits := 0 }, angle_max := { bits := 0x3F800000 },
          angle_increment := { bits := 0x3DCCCCCD },
          ranges := List.replicate 10 {}, intensities := List.replicate 10 {} }
        {}).map (fun m => m.count) = some 10 ∧
    truncated_quotient { bits := 0 } { bits := 0x3F800000 } { bits := 0x3DCCCCCD } =
      some 9 := by
  decide

/-- C21 (amended). For a Domain-A laser scan for which the `float` expression
`(angle_max - angle_min) / angle_increment`, the difference and the quotient each
rounded to the nearest `float`, converts to the `unsigned int` `n` (its integer part),
and whose ranges and intensities hold at least `n` elements, the A→B conversion into a
default destination returns with count `n`, with exactly the first `n` source ranges and
intensities, in order and each converted to `double`, and with every vertical field
zero. -/
theorem laser_scan_reading_count (x : sensor_msgs.msg.LaserScan) (n : Nat)
    (hcount : float_to_unsigned
      (float_div (float_sub x.angle_max.value x.angle_min.value) x.angle_increment.value) =
        some n)
    (hranges : n ≤ x.ranges.length)
    (hintensities : n ≤ x.intensities.length) :
    ∃ m, convert_ros_to_ign_LaserScan x {} = some m ∧
      m.count = n ∧
      m.ranges = (x.ranges.take n).map float_to_double ∧
      m.ranges.length = n ∧
      m.intensities = (x.intensities.take n).map float_to_double ∧
      m.intensities.length = n ∧
      m.vertical_angle_min = double_zero ∧ m.vertical_angle_max = double_zero ∧
      m.vertical_angle_step = double_zero ∧ m.vertical_count = 0 := by
  have hin : ∀ i ∈ List.range n, i < x.ranges.length ∧ i < x.intensities.length :=
    fun i hi => ⟨Nat.lt_of_lt_of_le (List.mem_range.mp hi) hranges,
      Nat.lt_of_lt_of_le (List.mem_range.mp hi) hintensities⟩
  have hr : (List.range n).map (fun i => float_to_double (x.ranges.getD i {})) =
      (x.ranges.take n).map float_to_double := by
    rw [← range_map_getD_take x.ranges {} n hranges, List.map_map]
    rfl
  have hi : (List.range n).map (fun i => float_to_double (x.intensities.getD i {})) =
      (x.intensities.take n).map float_to_double := by
    rw [← range_map_getD_take x.intensities {} n hintensities, List.map_map]
    rfl
  simp only [convert_ros_to_ign_LaserScan, convert_ros_to_ign_LaserScan_num_readings, hcount,
    convert_ros_to_ign_LaserScan_loop_eq x _ _ hin, hr, hi]
  refine ⟨_, rfl, rfl, rfl, ?_, rfl, ?_, rfl, rfl, rfl, rfl⟩
  · show ([] ++ (x.ranges.take n).map float_to_double).length = n
    rw [List.nil_append, List.length_map, List.length_take]
    omega
  · show ([] ++ (x.intensities.take n).map float_to_double).length = n
    rw [List.nil_append, List.length_map, List.length_take]
    omega

set_option maxRecDepth 4000 in
theorem laser_scan_reading_count_witness :
    float_to_unsigned
      (float_div (float_sub ({ bits := 0x3F800000 } : float).value ({ bits := 0 } : float).value)
        ({ bits := 0x3E800000 } : float).value) = some 4 ∧
    4 ≤ (List.replicate 5 ({ bits := 0x3F000000 } : float)).length ∧
    4 ≤ (List.replicate 6 ({ bits := 0x40000000 } : float)).length ∧
    ∃ m, convert_ros_to_ign_LaserScan
        { angle_min := { bits := 0 }, angle_max := { bits := 0x3F800000 },
          angle_increment := { bits := 0x3E800000 },
          ranges := List.replicate 5 { bits := 0x3F000000 },
          intensities := List.replicate 6 { bits := 0x40000000 } } {} = some m ∧
      m.count = 4 ∧
      m.ranges = ((List.replicate 5 ({ bits := 0x3F000000 } : float)).take 4).map
        float_to_double ∧
      m.ranges.length = 4 ∧
      m.intensities = ((List.replicate 6 ({ bits := 0x40000000 } : float)).take 4).map
        float_to_double ∧
      m.intensities.length = 4 ∧
      m.vertical_angle_min = double_zero ∧ m.vertical_angle_max = double_zero ∧
      m.vertical_angle_step = double_zero ∧ m.vertical_count = 0 :=
  ⟨by decide, by decide, by decide,
    laser_scan_reading_count
      { angle_min := { bits := 0 }, angle_max := { bits := 0x3F800000 },
        angle_increment := { bits := 0x3E800000 },
        ranges := List.replicate 5 { bits := 0x3F000000 },
        intensities := List.replicate 6 { bits := 0x40000000 } }
      4 (by decide) (by decide) (by decide)⟩

set_option maxRecDepth 4000 in
theorem float_arithmetic_example :
    float_to_double { bits := 0x3F000000 } = { bits := 0x3FE0000000000000 } ∧
    double_to_float { bits := 0x3FE0000000000000 } = { bits := 0x3F000000 } ∧
    (float_div (float_sub ({ bits := 0x40490FDB } : float).value
        ({ bits := 0xC0490FDB } : float).value)
      ({ bits := 0x3C8EFA35 } : float).value).to_float = { bits := 0x43B40000 } ∧
    float_to_unsigned (float_div (float_sub ({ bits := 0x40490FDB } : float).value
        ({ bits := 0xC0490FDB } : float).value)
      ({ bits := 0x3C8EFA35 } : float).value) = some 360 ∧
    float_to_unsigned (float_div (ieee_value.finite false 1 0) (ieee_value.finite false 0 0)) =
      none := by
  decide

/-! ### The translated frame name holds no delimiter -/

theorem prefix_of_not_mem_sep {xs a b : Str} {c : Char} (hc : c ∉ xs)
    (h : xs <+: a ++ c :: b) : xs <+: a := by
  have h2 : a ++ [c] <+: a ++ c :: b := ⟨b, by simp⟩
  rcases List.prefix_or_prefix_of_prefix h h2 with h3 | h3
  · rcases List.prefix_concat_iff.mp h3 with h4 | h4
    · exact absurd (by rw [h4]; simp) hc
    · exact h4
  · exact absurd (h3.subset (by simp)) hc

theorem infix_of_not_mem_sep {xs : Str} {c : Char} (hc : c ∉ xs) (b : Str) :
    ∀ a : Str, xs <:+: a ++ c :: b → xs <:+: a ∨ xs <:+: b := by
  intro a
  induction a with
  | nil =>
    intro h
    rcases List.infix_cons_iff.mp h with h1 | h1
    · exact Or.inl (prefix_of_not_mem_sep hc h1).isInfix
    · exact Or.inr h1
  | cons x a ih =>
    intro h
    rcases List.infix_cons_iff.mp h with h1 | h1
    · exact Or.inl (prefix_of_not_mem_sep hc h1).isInfix
    · rcases ih h1 with h2 | h2
      · exact Or.inl (List.infix_cons h2)
      · exact Or.inr h2

theorem join_with_no_delim (delim : Str) (c : Char) (hc : c ∉ delim) :
    ∀ pieces : List Str, (∀ p ∈ pieces, ¬ delim <:+: p) → delim ≠ [] →
      ¬ delim <:+: join_with [c] pieces := by
  intro pieces
  induction pieces with
  | nil =>
    intro _ hd h
    exact hd (List.eq_nil_of_infix_nil h)
  | cons p tail ih =>
    intro hp hd h
    cases tail with
    | nil => exact hp p (by simp) h
    | cons q qs =>
      have h' : delim <:+: p ++ c :: join_with [c] (q :: qs) := by
        simpa [join_with] using h
      rcases infix_of_not_mem_sep hc _ p h' with h1 | h1
      · exact hp p (by simp) h1
      · exact ih (fun t ht => hp t (List.mem_cons_of_mem _ ht)) hd h1

theorem leftmost_split_pieces_no_delim (delim : Str) (hd : delim ≠ []) :
    ∀ (pieces : List Str) (input : Str), leftmost_split delim pieces input →
      ∀ p ∈ pieces, ¬ delim <:+: p := by
  have hpos : 0 < delim.length := List.length_pos.mpr hd
  intro pieces
  induction pieces with
  | nil => intro input h; exact absurd h (by simp [leftmost_split])
  | cons p tail ih =>
    intro input h
    cases tail with
    | nil =>
      obtain ⟨rfl, hno⟩ := h
      intro t ht
      rw [List.mem_singleton] at ht
      rw [ht]
      exact hno
    | cons q qs =>
      obtain ⟨hmin, rest, rfl, hrest⟩ := h
      intro t ht
      rcases List.mem_cons.mp ht with ht | ht
      · subst ht
        intro hin
        obtain ⟨k, u, hu⟩ := (infix_iff_prefix_drop delim t).mp hin
        have hlen : k + delim.length ≤ t.length := by
          have h1 : (t.drop k).length = delim.length + u.length := by
            rw [← hu, List.length_append]
          rw [List.length_drop] at h1
          omega
        apply hmin k (by omega)
        refine ⟨u ++ (delim ++ rest), ?_⟩
        rw [List.append_assoc t, List.drop_append_of_le_length (by omega), ← hu,
          List.append_assoc]
      · exact ih rest hrest t ht

/-- C31. For every string `s`, `frame_id_ign_to_ros(s)` returns a string that holds no
occurrence of `"::"`, and `frame_id_ign_to_ros` of that string returns it unchanged:
applying the function twice gives what applying it once gives. -/
theorem frame_id_ign_to_ros_idempotent (s : Str) :
    ∃ r, frame_id_ign_to_ros s = some r ∧ ¬ "::".toList <:+: r ∧
      frame_id_ign_to_ros r = some r ∧
      (frame_id_ign_to_ros s).bind frame_id_ign_to_ros = frame_id_ign_to_ros s := by
  have hno : ¬ "::".toList <:+: translate s "::".toList "/".toList :=
    join_with_no_delim "::".toList '/' (by decide) _
      (leftmost_split_pieces_no_delim "::".toList (by decide) _ s
        (split_on_leftmost s "::".toList (by decide)))
      (by decide)
  have hfix := frame_id_ign_to_ros_no_delim _ hno
  refine ⟨_, frame_id_ign_to_ros_eq s, hno, hfix, ?_⟩
  rw [frame_id_ign_to_ros_eq s, Option.some_bind, hfix]

theorem frame_id_ign_to_ros_idempotent_example :
    frame_id_ign_to_ros ":::".toList = some "/:".toList ∧
    frame_id_ign_to_ros "/:".toList = some "/:".toList ∧
    frame_id_ign_to_ros "a::::b:".toList = some "a//b:".toList ∧
    frame_id_ign_to_ros "a//b:".toList = some "a//b:".toList := by
  decide

/-! ### Joint states of unequal lengths -/

theorem convert_ros_to_ign_JointState_loop_of_le (ros_msg : sensor_msgs.msg.JointState)
    (n : Nat) (hname : n ≤ ros_msg.name.length) (hposition : n ≤ ros_msg.position.length)
    (hvelocity : n ≤ ros_msg.velocity.length) (heffort : n ≤ ros_msg.effort.length)
    (indices : List Nat) :
    ∀ joint : List ignition.msgs.Joint, (∀ i ∈ indices, i < n) →
      convert_ros_to_ign_JointState_loop ros_msg indices joint =
        some (joint ++ indices.map (fun i =>
          { name := ros_msg.name.getD i [],
            axis1 := { position := ros_msg.position.getD i {},
                       velocity := ros_msg.velocity.getD i {},
                       force := ros_msg.effort.getD i {} } })) := by
  induction indices with
  | nil => intro joint _; simp [convert_ros_to_ign_JointState_loop]
  | cons i rest ih =>
    intro joint hin
    have hi : i < n := hin i (List.mem_cons_self i rest)
    rw [convert_ros_to_ign_JointState_loop,
      getElem?_eq_some_getD ros_msg.name i [] (Nat.lt_of_lt_of_le hi hname),
      getElem?_eq_some_getD ros_msg.position i {} (Nat.lt_of_lt_of_le hi hposition),
      getElem?_eq_some_getD ros_msg.velocity i {} (Nat.lt_of_lt_of_le hi hvelocity),
      getElem?_eq_some_getD ros_msg.effort i {} (Nat.lt_of_lt_of_le hi heffort)]
    simp only
    rw [ih _ (fun j hj => hin j (List.mem_cons_of_mem i hj)), List.map_cons, List.append_assoc]
    rfl

/-- C32. For a Domain-A JointState whose name, velocity and effort sequences are each at
least as long as position, the A→B conversion returns and appends to the joints of the
destination exactly as many joints as position has elements: the appended joints carry
the first `position.size()` names, velocities and efforts and all the positions, the
entries beyond that index are not read, and with an empty position sequence the joints of
the destination are left as they were. -/
theorem joint_state_position_length_decides (x : sensor_msgs.msg.JointState)
    (d : ignition.msgs.Model)
    (hname : x.position.length ≤ x.name.length)
    (hvelocity : x.position.length ≤ x.velocity.length)
    (heffort : x.position.length ≤ x.effort.length) :
    ∃ m added, convert_ros_to_ign_JointState x d = some m ∧
      m.joint = d.joint ++ added ∧
      added.length = x.position.length ∧
      added.map (fun j => j.name) = x.name.take x.position.length ∧
      added.map (fun j => j.axis1.position) = x.position ∧
      added.map (fun j => j.axis1.velocity) = x.velocity.take x.position.length ∧
      added.map (fun j => j.axis1.force) = x.effort.take x.position.length ∧
      (x.position = [] → m.joint = d.joint) := by
  have hloop := convert_ros_to_ign_JointState_loop_of_le x x.position.length hname
    (Nat.le_refl _) hvelocity heffort (List.range x.position.length) d.joint
    (fun i hi => List.mem_range.mp hi)
  refine ⟨{ header := convert_ros_to_ign_Header x.header d.header,
            joint := d.joint ++ (List.range x.position.length).map (fun i =>
              { name := x.name.getD i [],
                axis1 := { position := x.position.getD i {},
                           velocity := x.velocity.getD i {},
                           force := x.effort.getD i {} } }) },
    (List.range x.position.length).map (fun i =>
      { name := x.name.getD i [],
        axis1 := { position := x.position.getD i {},
                   velocity := x.velocity.getD i {},
                   force := x.effort.getD i {} } }), ?_, rfl, by simp, ?_, ?_, ?_, ?_, ?_⟩
  · unfold convert_ros_to_ign_JointState
    simp only
    rw [hloop]
  · rw [List.map_map, ← range_map_getD_take x.name [] _ hname]
    rfl
  · rw [List.map_map]
    exact range_map_getD x.position {}
  · rw [List.map_map, ← range_map_getD_take x.velocity {} _ hvelocity]
    rfl
  · rw [List.map_map, ← range_map_getD_take x.effort {} _ heffort]
    rfl
  · intro h0
    show d.joint ++ _ = d.joint
    rw [h0]
    simp

theorem joint_state_position_length_decides_witness :
    ([{ bits := 1 }] : List double).length ≤
      ["hip".toList, "knee".toList, "ankle".toList].length ∧
    ([{ bits := 1 }] : List double).length ≤
      ([{ bits := 3 }, { bits := 4 }] : List double).length ∧
    ([{ bits := 1 }] : List double).length ≤ ([{ bits := 5 }] : List double).length ∧
    ∃ m added, convert_ros_to_ign_JointState
        { name := ["hip".toList, "knee".toList, "ankle".toList],
          position := [{ bits := 1 }], velocity := [{ bits := 3 }, { bits := 4 }],
          effort := [{ bits := 5 }] }
        { joint := [{ name := "old".toList }] } = some m ∧
      m.joint = [{ name := "old".toList }] ++ added ∧
      added.length = 1 ∧
      added.map (fun j => j.name) = ["hip".toList] ∧
      added.map (fun j => j.axis1.position) = [{ bits := 1 }] ∧
      added.map (fun j => j.axis1.velocity) = [{ bits := 3 }] ∧
      added.map (fun j => j.axis1.force) = [{ bits := 5 }] ∧
      (([{ bits := 1 }] : List double) = [] → m.joint = [{ name := "old".toList }]) :=
  ⟨by decide, by decide, by decide,
    joint_state_position_length_decides
      { name := ["hip".toList, "knee".toList, "ankle".toList],
        position := [{ bits := 1 }], velocity := [{ bits := 3 }, { bits := 4 }],
        effort := [{ bits := 5 }] }
      { joint := [{ name := "old".toList }] } (by decide) (by decide) (by decide)⟩

theorem convert_ros_to_ign_JointState_empty_position :
    convert_ros_to_ign_JointState
        { name := ["hip".toList, "knee".toList], velocity := [{ bits := 3 }] }
        { joint := [{ name := "old".toList }] } =
      some { header := { data := [{ key := "frame_id".toList, value := [[]] }] },
             joint := [{ name := "old".toList }] } := by
  decide

end ros_ign_bridge
